import Mathlib

/-!
# Collision engine of the Meshula physics demo (`PhysicsEngine/source/CollisionEngine.cpp`)

A shallow embedding of the collision detection and resolution code, and theorems about it.

* The scalar type `Real` of the engine (a C `float`, IEEE binary32) is read as exact rational
  arithmetic on the values of a run. The literals and the constant expressions of the source
  (`Real(0.60f)`, `k1 + RESTITUTION`, `kN1 - RESTITUTION`) have their binary32 values, given
  by the rounding function `binary32`.
* `Binary32.Collide_InfPlane_Sphere` is a second reading of the plane-sphere test in which
  every operation is rounded; it shows what rounding does to the recorded contact.
* `RigidBody*` and `Contact*` are addresses into two typed heaps held by `World`.
* A division whose divisor can be zero goes through `Div`: it is exact division on a divisor
  that is not zero, and what a division by zero yields (an infinity or a NaN in the engine's
  floats) is left open, so no theorem below rests on a value for it.
* The `int` arithmetic of `SetCapacity` is arithmetic on `Int` with the range of a 32-bit
  `int` checked: a result outside the range is the fault `intOverflow`.
* What the code uses from the headers `PMath.h`, `RigidBody.h` and `CollisionEngine.h` is
  modelled from the specification, and the primitives whose definition it leaves open
  (`Sqrt`, `kEps`, `Vec3fEqual`, the result of a division by zero) are parameters collected
  in `PMath`.
-/

namespace Collision

/-! ## PMath: scalars, vectors, plane -/

/-- Modelled from the spec: the scalar type `Real` of `PMath.h`, read as exact arithmetic. -/
abbrev Real := ℚ

/-- The integer nearest to `x`, a tie going to the even one. -/
def roundEven (x : ℚ) : ℤ :=
  if x - ⌊x⌋ < 1 / 2 then ⌊x⌋
  else if 1 / 2 < x - ⌊x⌋ then ⌊x⌋ + 1
  else if ⌊x⌋ % 2 = 0 then ⌊x⌋ else ⌊x⌋ + 1

/-- The value of the engine's `float` format (IEEE binary32: 24 significant bits) nearest to
`x`, a tie going to the even significand. The exponent range is not bounded, so this is the
stored value of every `x` that is zero or of magnitude within the normal range
`2^-126 ≤ |x| < 2^128`. -/
def binary32 (x : ℚ) : ℚ :=
  if x = 0 then 0
  else (roundEven (x / 2 ^ (Int.log 2 |x| - 23)) : ℚ) * 2 ^ (Int.log 2 |x| - 23)

/-- The binary32 value nearest to the square root of `x`, a tie going to the even
significand, and 0 for `x ≤ 0`: what `sqrtf` returns for a non-negative `x`. The exponent
range is not bounded. With `4^e ≤ x < 4^(e+1)` the root of `y = x / 4^(e-23)` lies in
`[2^23, 2^24)`, its integer part is `m`, and it is rounded to `m` or `m + 1`. -/
def binary32Sqrt (x : ℚ) : ℚ :=
  if x ≤ 0 then 0
  else
    let e := Int.log 2 x / 2
    let y := x / 4 ^ (e - 23)
    let m : ℤ := Nat.sqrt ⌊y⌋₊
    let r : ℤ :=
      if y < (m + 1 / 2) ^ 2 then m
      else if (m + 1 / 2 : ℚ) ^ 2 < y then m + 1
      else if m % 2 = 0 then m else m + 1
    r * 2 ^ (e - 23)

/-- Modelled from the spec: `PMath::Vec3f`, a vector of three scalars (`v[0]`, `v[1]`, `v[2]`). -/
structure Vec3f where
  x : Real
  y : Real
  z : Real
deriving DecidableEq, Repr

/-- Modelled from the spec: the constant `k0` of `PMath.h`. -/
def k0 : Real := 0

/-- Modelled from the spec: the constant `k1` of `PMath.h`. -/
def k1 : Real := 1

/-- Modelled from the spec: the constant `k2` of `PMath.h`. -/
def k2 : Real := 2

/-- Modelled from the spec: the constant `k4` of `PMath.h`. -/
def k4 : Real := 4

/-- Modelled from the spec: the constant `kN1` of `PMath.h` (minus one). -/
def kN1 : Real := -1

/-- Modelled from the spec: `PMath::Abs`, the absolute value. -/
def Abs (a : Real) : Real := if a < 0 then -a else a

/-- Modelled from the spec: `Vec3fAdd(r, a, b)` sets `r = a + b`; the two-argument form
`Vec3fAdd(a, b)` is `a = a + b`. -/
def Vec3fAdd (a b : Vec3f) : Vec3f := ⟨a.x + b.x, a.y + b.y, a.z + b.z⟩

/-- Modelled from the spec: `Vec3fSubtract(r, a, b)` sets `r = a - b`; the two-argument form
`Vec3fSubtract(a, b)` is `a = a - b`. -/
def Vec3fSubtract (a b : Vec3f) : Vec3f := ⟨a.x - b.x, a.y - b.y, a.z - b.z⟩

/-- Modelled from the spec: `Vec3fScale(v, s)` multiplies `v` by the scalar `s` in place. -/
def Vec3fScale (v : Vec3f) (s : Real) : Vec3f := ⟨v.x * s, v.y * s, v.z * s⟩

/-- Modelled from the spec: `Vec3fSetScaled(r, s, v)` sets `r = s * v` (also the three-argument
`Vec3fScale(r, s, v)`). -/
def Vec3fSetScaled (s : Real) (v : Vec3f) : Vec3f := ⟨s * v.x, s * v.y, s * v.z⟩

/-- Modelled from the spec: `Vec3fNegate(v)` negates `v` in place. -/
def Vec3fNegate (v : Vec3f) : Vec3f := ⟨-v.x, -v.y, -v.z⟩

/-- Modelled from the spec: `Vec3fDot(a, b)`, the scalar product. -/
def Vec3fDot (a b : Vec3f) : Real := a.x * b.x + a.y * b.y + a.z * b.z

/-- Modelled from the spec: `Vec3fCross(r, a, b)` sets `r = a × b`. -/
def Vec3fCross (a b : Vec3f) : Vec3f :=
  ⟨a.y * b.z - a.z * b.y, a.z * b.x - a.x * b.z, a.x * b.y - a.y * b.x⟩

/-- Modelled from the spec: `Vec3fMultiply(r, a, b)`, the componentwise product (used for the
inertia-tensor diagonal). -/
def Vec3fMultiply (a b : Vec3f) : Vec3f := ⟨a.x * b.x, a.y * b.y, a.z * b.z⟩

/-- Modelled from the spec: `Vec3fMultiplyAccumulate(r, s, v)` sets `r = r + s * v`. -/
def Vec3fMultiplyAccumulate (r : Vec3f) (s : Real) (v : Vec3f) : Vec3f :=
  ⟨r.x + s * v.x, r.y + s * v.y, r.z + s * v.z⟩

/-- Modelled from the spec: the primitives of `PMath.h` whose definition the spec leaves open:
the square root, the comparison tolerance `kEps`, the tolerance comparison of two vectors, and
what the division `x / 0` yields for a dividend `x`.
Every function that uses one of them takes this record as a parameter. -/
structure PMath where
  Sqrt : Real → Real
  kEps : Real
  Vec3fEqual : Vec3f → Vec3f → Real → Bool
  DivZero : Real → Real

/-- The division `x / y` of the engine where the divisor can be zero: exact division when
`y` is not zero, the open value `pm.DivZero x` when it is. -/
def Div (pm : PMath) (x y : Real) : Real := if y = 0 then pm.DivZero x else x / y

/-- Modelled from the spec: `Vec3fLength(v)`, the Euclidean length. -/
def Vec3fLength (pm : PMath) (v : Vec3f) : Real := pm.Sqrt (Vec3fDot v v)

/-- Modelled from the spec: `Vec3fNormalize(r, v)` sets `r = v / |v|`. -/
def Vec3fNormalize (pm : PMath) (v : Vec3f) : Vec3f :=
  ⟨Div pm v.x (Vec3fLength pm v), Div pm v.y (Vec3fLength pm v), Div pm v.z (Vec3fLength pm v)⟩

/-- Modelled from the spec: `PMath::Plane`, a normal and an offset. -/
structure Plane where
  m_Normal : Vec3f
  m_D : Real
deriving DecidableEq, Repr

/-- Modelled from the spec: `Plane::DistanceToPoint`, the signed distance `n · p + d`. -/
def Plane.DistanceToPoint (pl : Plane) (p : Vec3f) : Real := Vec3fDot pl.m_Normal p + pl.m_D

/-! ## Rigid bodies, contacts, memory -/

/-- Modelled from the spec: the shape tag returned by `GetKind()`; it indexes the two dispatch
tables (row/column 0 is the infinite plane, 1 the sphere). -/
inductive Kind where
  | InfPlane
  | Sphere
deriving DecidableEq, Repr

/-- Modelled from the spec: the geometry wrapper `m_pCollideGeo` of a body: a
`Collision::Plane` holding `m_Plane`, or a `Collision::Sphere` holding `m_Radius`. -/
inductive CollideGeo where
  | Plane (m_Plane : Plane)
  | Sphere (m_Radius : Real)
deriving DecidableEq, Repr

/-- Modelled from the spec: `GetKind()` of a geometry wrapper. -/
def CollideGeo.GetKind : CollideGeo → Kind
  | .Plane _ => .InfPlane
  | .Sphere _ => .Sphere

/-- Modelled from the spec: `Physics::kI_Sphere` and the other inertial kinds. -/
inductive InertialKind where
  | kI_Sphere
  | kI_Other
deriving DecidableEq, Repr

/-- Modelled from the spec: one time slice (`m_StateT0`, `m_StateT1`) of a body. -/
structure State where
  m_Position : Vec3f
  m_Velocity : Vec3f
  m_AngularVelocity : Vec3f
  m_AngularMomentum : Vec3f
deriving DecidableEq, Repr

/-- Modelled from the spec: `Physics::RigidBody`, with the members and getters the collision
code uses (`GetTranslatable`, `GetSpinnable`, `GetInertialKind`, `GetOOMass` are fields). -/
structure RigidBody where
  m_StateT0 : State
  m_StateT1 : State
  m_Extent : Vec3f
  m_InertiaITD : Vec3f
  GetOOMass : Real
  GetTranslatable : Bool
  GetSpinnable : Bool
  GetInertialKind : InertialKind
  m_Collided : Bool
  m_pCollideGeo : CollideGeo
deriving DecidableEq, Repr

/-- Address of a `RigidBody`. -/
abbrev BodyPtr := Nat

/-- Address of a `Contact`. -/
abbrev ContactPtr := Nat

/-- The class `Contact` (lines 61-71): contact parameters. The constructor initialises
nothing, so a record holds whatever it held before. -/
structure Contact where
  m_Position : Vec3f
  m_Normal : Vec3f
  m_ContactTime : Real
  m_PenetrationDepth : Real
  m_pBodyA : BodyPtr
  m_pBodyB : BodyPtr
deriving DecidableEq, Repr

/-- The ways in which the C++ code leaves defined behaviour: `emptyFront` is `front()` and
`pop_front()` on an empty container (there is no record to take, what the code goes on to use
is not a contact record); `badCast` is a geometry wrapper cast to the shape class it is not;
`intOverflow` is an `int` operation whose result is not a value of `int`. -/
inductive Fault where
  | emptyFront
  | badCast
  | intOverflow
deriving DecidableEq, Repr

/-- The least value of the C type `int` (32 bits). -/
def INT_MIN : Int := -2147483648

/-- The greatest value of the C type `int` (32 bits). -/
def INT_MAX : Int := 2147483647

/-- The conversion `(int) n` of a container size `n`: `n` modulo `2^32`, taken in the range of
`int`; it is `n` itself up to `INT_MAX`. -/
def toInt (n : Nat) : Int := ((n : Int) + 2147483648) % 4294967296 - 2147483648

/-- The cast `(Collision::Plane*) body->m_pCollideGeo` followed by `->m_Plane`. -/
def asPlane : CollideGeo → Except Fault Plane
  | .Plane p => .ok p
  | .Sphere _ => .error .badCast

/-- The cast `(Collision::Sphere*) body->m_pCollideGeo` followed by `->m_Radius`. -/
def asSphere : CollideGeo → Except Fault Real
  | .Sphere r => .ok r
  | .Plane _ => .error .badCast

/-- Modelled from the spec: the memory the engine works on and the two containers of
`Collision::Engine` (`CollisionEngine.h`): the bodies and the contact records by address,
the free pool `m_FreePool`, the active list `m_Contacts`, and the number of contact records
allocated so far (the address the next `new Contact()` returns). -/
structure World where
  bodies : BodyPtr → RigidBody
  contacts : ContactPtr → Contact
  m_FreePool : List ContactPtr
  m_Contacts : List ContactPtr
  allocated : Nat

/-- Write a contact record at an address. -/
def World.setContact (w : World) (p : ContactPtr) (c : Contact) : World :=
  { w with contacts := Function.update w.contacts p c }

/-- Write a body at an address. -/
def World.setBody (w : World) (p : BodyPtr) (b : RigidBody) : World :=
  { w with bodies := Function.update w.bodies p b }

/-- Read, change and write back the body at an address: an in-place update through a
`RigidBody*`. -/
def World.modifyBody (w : World) (p : BodyPtr) (f : RigidBody → RigidBody) : World :=
  w.setBody p (f (w.bodies p))

/-- Assignment to `m_StateT1.m_Position` of a body. -/
def RigidBody.setT1Position (b : RigidBody) (v : Vec3f) : RigidBody :=
  { b with m_StateT1 := { b.m_StateT1 with m_Position := v } }

/-- Assignment to `m_StateT1.m_Velocity` of a body. -/
def RigidBody.setT1Velocity (b : RigidBody) (v : Vec3f) : RigidBody :=
  { b with m_StateT1 := { b.m_StateT1 with m_Velocity := v } }

/-- Assignment to `m_StateT1.m_AngularMomentum` of a body. -/
def RigidBody.setT1AngularMomentum (b : RigidBody) (v : Vec3f) : RigidBody :=
  { b with m_StateT1 := { b.m_StateT1 with m_AngularMomentum := v } }

/-! ## Collision detection -/

/-- Lines 95-109. No cast, no write to the contact record. `&` on `bool` operands is the
conjunction of the four flags. -/
def Collide_InfPlane_InfPlane (pm : PMath) (pContact : Contact) (pBodyA pBodyB : RigidBody) :
    Except Fault (Bool × Contact) :=
  if !(pBodyA.GetTranslatable && pBodyA.GetSpinnable
        && pBodyB.GetTranslatable && pBodyB.GetSpinnable) then
    .ok (!pm.Vec3fEqual pBodyA.m_Extent pBodyB.m_Extent pm.kEps, pContact)
  else
    .ok (true, pContact)

/-- Lines 112-140. The result is the returned flag and the contact record as the function
leaves it. The divisor `d0 - d1` of line 132 is positive in its branch. -/
def Collide_InfPlane_Sphere (pContact : Contact) (pPlaneBody pSphere : RigidBody) :
    Except Fault (Bool × Contact) := do
  let pPlane ← asPlane pPlaneBody.m_pCollideGeo
  let c0 := pSphere.m_StateT0.m_Position
  let c1 := pSphere.m_StateT1.m_Position
  let d0 := pPlane.DistanceToPoint c0
  let d1 := pPlane.DistanceToPoint c1
  let radius ← asSphere pSphere.m_pCollideGeo
  if Abs d0 ≤ radius then
    pure (true, { pContact with m_Normal := pPlane.m_Normal, m_ContactTime := k0 })
  else if d0 > radius ∧ d1 < radius then
    let u := (d0 - radius) / (d0 - d1)
    let c1 := Vec3fScale c1 u
    let c0 := Vec3fScale c0 (k1 - u)
    pure (true, { pContact with
      m_Normal := pPlane.m_Normal, m_Position := Vec3fAdd c0 c1, m_ContactTime := u })
  else
    pure (false, pContact)

/-- Lines 142-145. -/
def Collide_Sphere___InfPlane (pContact : Contact) (pSphere pPlane : RigidBody) :
    Except Fault (Bool × Contact) :=
  Collide_InfPlane_Sphere pContact pPlane pSphere

/-- Lines 150-163. The two output parameters are returned when the function returns true
(`some (root1, root2)`); when it returns false (`none`) it writes neither. -/
def QuadraticFormula (pm : PMath) (a b c : Real) : Option (Real × Real) :=
  let q := b * b - k4 * a * c
  if q ≥ k0 then
    let sq := pm.Sqrt q
    let d := Div pm k1 (k2 * a)
    some ((-b + sq) * d, (-b - sq) * d)
  else
    none

/-- Lines 172-183: the coefficients `(a, b, c)` of the swept quadratic of two spheres with
radii `radiusA` and `radiusB`. -/
def sweptQuadratic (radiusA radiusB : Real) (pBodyA pBodyB : RigidBody) : Real × Real × Real :=
  let va := Vec3fSubtract pBodyA.m_StateT1.m_Position pBodyA.m_StateT0.m_Position
  let vb := Vec3fSubtract pBodyB.m_StateT1.m_Position pBodyB.m_StateT0.m_Position
  let vab := Vec3fSubtract vb va
  let ab := Vec3fSubtract pBodyB.m_StateT0.m_Position pBodyA.m_StateT0.m_Position
  let rab := radiusA + radiusB
  (Vec3fDot vab vab, k2 * Vec3fDot vab ab, Vec3fDot ab ab - rab * rab)

/-- Lines 215-230 (the branch compiled in, after `#else`): the flag `retval` from the
coefficients. -/
def sphereSphereHit (pm : PMath) (a b c : Real) : Bool :=
  if c ≤ k0 then
    true
  else
    match QuadraticFormula pm a b c with
    | some (u0, u1) =>
      if u0 > k0 ∧ u0 ≤ u1 then true
      else if u1 > 0 ∧ u1 < k1 then true
      else false
    | none => false

/-- Lines 165-241. -/
def Collide_Sphere___Sphere (pm : PMath) (pContact : Contact) (pBodyA pBodyB : RigidBody) :
    Except Fault (Bool × Contact) := do
  let radiusA ← asSphere pBodyA.m_pCollideGeo
  let radiusB ← asSphere pBodyB.m_pCollideGeo
  let (a, b, c) := sweptQuadratic radiusA radiusB pBodyA pBodyB
  let retval := sphereSphereHit pm a b c
  if retval then
    let n := Vec3fSubtract pBodyA.m_StateT1.m_Position pBodyB.m_StateT1.m_Position
    pure (true, { pContact with m_Normal := Vec3fNormalize pm n })
  else
    pure (false, pContact)

/-- Lines 243-249: the table `CollisionFunctions[2][2]`. -/
def CollisionFunctions (pm : PMath) :
    Kind → Kind → Contact → RigidBody → RigidBody → Except Fault (Bool × Contact)
  | .InfPlane, .InfPlane => Collide_InfPlane_InfPlane pm
  | .InfPlane, .Sphere => Collide_InfPlane_Sphere
  | .Sphere, .InfPlane => Collide_Sphere___InfPlane
  | .Sphere, .Sphere => Collide_Sphere___Sphere pm

/-- Lines 251-274, `Collision::Engine::TestCollision`. On an empty free pool the code writes
a line to the log and goes on to `m_FreePool.front()`: there is no return on that path. The
result is the returned pointer (`none` for 0) and the memory afterwards. -/
def TestCollision (pm : PMath) (w : World) (pBodyA pBodyB : BodyPtr) :
    Except Fault (Option ContactPtr × World) :=
  match w.m_FreePool with
  | [] => .error .emptyFront
  | pContact :: rest => do
    let w := { w with m_FreePool := rest }
    let A := w.bodies pBodyA
    let B := w.bodies pBodyB
    let (hit, c) ← CollisionFunctions pm A.m_pCollideGeo.GetKind B.m_pCollideGeo.GetKind
      (w.contacts pContact) A B
    let w := w.setContact pContact c
    if hit then
      let w := { w with m_Contacts := w.m_Contacts ++ [pContact] }
      let w := w.setContact pContact { w.contacts pContact with m_pBodyA := pBodyA }
      let w := w.setContact pContact { w.contacts pContact with m_pBodyB := pBodyB }
      pure (some pContact, w)
    else
      pure (none, { w with m_FreePool := w.m_FreePool ++ [pContact] })

/-! ## Collision resolution -/

/-- Lines 291-293. -/
def Resolve_InfPlane_InfPlane (w : World) (_pContact : ContactPtr) : Except Fault World :=
  .ok w

/-- The restitution coefficient `Real(0.60f)` of line 335: the value of the `float` literal
`0.60f`, which is `5033165 / 2^23` (about 0.60000002). -/
def RESTITUTION_PlaneSphere : Real := 5033165 / 8388608

/-- The restitution coefficient `Real(0.95f)` of line 442: the value of the `float` literal
`0.95f`, which is `15938355 / 2^24` (about 0.94999999). -/
def RESTITUTION_SphereSphere : Real := 15938355 / 16777216

/-- Lines 340-345 and 447-452, 462-467: the vector scaled by `m_InertiaITD[0]` for a body of
inertial kind `kI_Sphere`, multiplied componentwise by `m_InertiaITD` otherwise. -/
def applyInertiaITD (b : RigidBody) (temp : Vec3f) : Vec3f :=
  if b.GetInertialKind = InertialKind.kI_Sphere then
    Vec3fScale temp b.m_InertiaITD.x
  else
    Vec3fMultiply temp b.m_InertiaITD

/-- Lines 302-369. The sphere is body B of the contact; only it is written. The constant
expression `k1 + RESTITUTION` of line 336 has its binary32 value. -/
def _ResolveSphereVsPlane (pm : PMath) (w : World) (pContact : ContactPtr) :
    Except Fault World := do
  let c := w.contacts pContact
  let pSphere := c.m_pBodyB
  let S := w.bodies pSphere
  let radius ← asSphere S.m_pCollideGeo
  let contact := Vec3fSetScaled (-radius) c.m_Normal
  let velocityA := S.m_StateT1.m_Velocity
  let velocityA :=
    if S.GetSpinnable then
      Vec3fAdd velocityA (Vec3fCross S.m_StateT1.m_AngularVelocity contact)
    else velocityA
  let velNormalComponent := Vec3fDot velocityA c.m_Normal
  if velNormalComponent < k0 then
    let impulseNumerator := -(binary32 (k1 + RESTITUTION_PlaneSphere)) * velNormalComponent
    let temp := Vec3fCross contact c.m_Normal
    let temp := applyInertiaITD S temp
    let temp2 := Vec3fCross temp contact
    let impulseDenominator := S.GetOOMass + Vec3fDot temp2 c.m_Normal
    let result := Div pm (S.GetOOMass * impulseNumerator) impulseDenominator
    let impulse := Vec3fSetScaled result c.m_Normal
    let w := w.modifyBody pSphere
      (fun b => b.setT1Velocity (Vec3fAdd b.m_StateT1.m_Velocity impulse))
    if S.GetSpinnable then
      let temp2 := Vec3fCross contact impulse
      pure (w.modifyBody pSphere
        (fun b => b.setT1AngularMomentum (Vec3fSubtract b.m_StateT1.m_AngularMomentum temp2)))
    else
      pure w
  else
    pure w

/-- Lines 374-390. -/
def Resolve_InfPlane_Sphere (pm : PMath) (w : World) (pContact : ContactPtr) :
    Except Fault World := do
  let pSphere := (w.contacts pContact).m_pBodyB
  let adjust := (w.bodies pSphere).m_StateT1.m_Position
  let adjust := Vec3fSubtract adjust (w.contacts pContact).m_Position
  let residual := Vec3fLength pm adjust
  let w := w.modifyBody pSphere (fun b => b.setT1Position (w.contacts pContact).m_Position)
  let w ← _ResolveSphereVsPlane pm w pContact
  let adjust := (w.bodies pSphere).m_StateT1.m_Velocity
  let adjust := Vec3fNormalize pm adjust
  pure (w.modifyBody pSphere
    (fun b => b.setT1Position (Vec3fMultiplyAccumulate b.m_StateT1.m_Position residual adjust)))

/-- Lines 392-400: the body references of the record are swapped and its normal negated in
place, then the plane-sphere resolver runs. -/
def Resolve_Sphere___InfPlane (pm : PMath) (w : World) (pContact : ContactPtr) :
    Except Fault World :=
  let c := w.contacts pContact
  let w := w.setContact pContact
    { c with m_pBodyA := c.m_pBodyB, m_pBodyB := c.m_pBodyA, m_Normal := Vec3fNegate c.m_Normal }
  Resolve_InfPlane_Sphere pm w pContact

/-- Lines 402-496. Everything up to line 475 only reads; the four writes of lines 476-492
go through the body pointers one after the other. The constant expression
`kN1 - RESTITUTION` of line 443 has its binary32 value. -/
def Resolve_Sphere___Sphere (pm : PMath) (w : World) (pContact : ContactPtr) :
    Except Fault World := do
  let c := w.contacts pContact
  let pBodyA := c.m_pBodyA
  let pBodyB := c.m_pBodyB
  let A := w.bodies pBodyA
  let B := w.bodies pBodyB
  let radiusA ← asSphere A.m_pCollideGeo
  let radiusB ← asSphere B.m_pCollideGeo
  let contactA := Vec3fSetScaled (-radiusA) c.m_Normal
  let contactB := Vec3fSetScaled radiusB c.m_Normal
  let velocityA := A.m_StateT1.m_Velocity
  let velocityB := B.m_StateT1.m_Velocity
  let velocityA :=
    if A.GetSpinnable then
      Vec3fAdd velocityA (Vec3fCross A.m_StateT0.m_AngularVelocity contactA)
    else velocityA
  let velocityB :=
    if B.GetSpinnable then
      Vec3fAdd velocityB (Vec3fCross B.m_StateT0.m_AngularVelocity contactB)
    else velocityB
  let velocityAB := Vec3fSubtract velocityA velocityB
  let velNormalComponent := Vec3fDot velocityAB c.m_Normal
  if velNormalComponent < k0 then
    let impulseNumerator := binary32 (kN1 - RESTITUTION_SphereSphere) * velNormalComponent
    let temp := Vec3fCross contactA c.m_Normal
    let temp := applyInertiaITD A temp
    let temp2 := Vec3fCross temp contactA
    let denTerm1 := A.GetOOMass + B.GetOOMass
    let temp3 := Vec3fSetScaled denTerm1 c.m_Normal
    let denTerm1 := Vec3fDot c.m_Normal temp3
    let temp := Vec3fCross contactB c.m_Normal
    let temp := applyInertiaITD B temp
    let temp3 := Vec3fCross temp contactB
    let temp3 := Vec3fAdd temp3 temp2
    let denTerm1 := denTerm1 + Vec3fDot temp3 c.m_Normal
    let result := Div pm impulseNumerator denTerm1
    let impulse := Vec3fSetScaled result c.m_Normal
    let w := w.modifyBody pBodyA
      (fun b => b.setT1Velocity (Vec3fMultiplyAccumulate b.m_StateT1.m_Velocity b.GetOOMass impulse))
    let negImpulse := Vec3fSetScaled (-(w.bodies pBodyB).GetOOMass) impulse
    let w := w.modifyBody pBodyB
      (fun b => b.setT1Velocity (Vec3fAdd b.m_StateT1.m_Velocity negImpulse))
    let temp := Vec3fSubtract (w.bodies pBodyA).m_StateT1.m_Position contactA
    let temp2 := Vec3fCross temp impulse
    let w := w.modifyBody pBodyA
      (fun b => b.setT1AngularMomentum (Vec3fAdd b.m_StateT1.m_AngularMomentum temp2))
    let temp := Vec3fSubtract (w.bodies pBodyB).m_StateT1.m_Position contactB
    let temp2 := Vec3fCross temp impulse
    pure (w.modifyBody pBodyB
      (fun b => b.setT1AngularMomentum (Vec3fAdd b.m_StateT1.m_AngularMomentum temp2)))
  else
    pure w

/-- Lines 498-503: the table `ResolveFunctions[2][2]`. -/
def ResolveFunctions (pm : PMath) : Kind → Kind → World → ContactPtr → Except Fault World
  | .InfPlane, .InfPlane => Resolve_InfPlane_InfPlane
  | .InfPlane, .Sphere => Resolve_InfPlane_Sphere pm
  | .Sphere, .InfPlane => Resolve_Sphere___InfPlane pm
  | .Sphere, .Sphere => Resolve_Sphere___Sphere pm

/-- Lines 505-510, `Engine::Resolve`. -/
def Resolve (pm : PMath) (w : World) (pContact : ContactPtr) : Except Fault World := do
  let c := w.contacts pContact
  let w ← ResolveFunctions pm (w.bodies c.m_pBodyA).m_pCollideGeo.GetKind
    (w.bodies c.m_pBodyB).m_pCollideGeo.GetKind w pContact
  let w := w.modifyBody (w.contacts pContact).m_pBodyA (fun b => { b with m_Collided := true })
  pure (w.modifyBody (w.contacts pContact).m_pBodyB (fun b => { b with m_Collided := true }))

/-! ## The engine: construction, step begin and end, capacity -/

/-- Lines 521-523, `Engine::Begin`. -/
def Begin (w : World) : World := w

/-- Lines 527-531: the loop of `Engine::End` on the two containers (active list first). -/
def End.loop (m_Contacts m_FreePool : List ContactPtr) : List ContactPtr × List ContactPtr :=
  if h : m_Contacts.length > 0 then
    let pContact := m_Contacts.getLast (List.ne_nil_of_length_pos h)
    End.loop m_Contacts.dropLast (m_FreePool ++ [pContact])
  else
    (m_Contacts, m_FreePool)
termination_by m_Contacts.length
decreasing_by simp [List.length_dropLast]; omega

/-- Lines 525-532, `Engine::End`. -/
def End (w : World) : World :=
  { w with m_Contacts := (End.loop w.m_Contacts w.m_FreePool).1,
           m_FreePool := (End.loop w.m_Contacts w.m_FreePool).2 }

/-- Lines 539-541: the loop of `Engine::SetCapacity` on the `int` counter `numToAdd`. The
decrement `--numToAdd` has no value in `int` when `numToAdd` is `INT_MIN`. `new Contact()`
returns the next address that was never handed out, and the constructor leaves the record as
it is. -/
def SetCapacity.loop (numToAdd : Int) (w : World) : Except Fault World :=
  if numToAdd - 1 < INT_MIN then
    .error .intOverflow
  else if 0 ≤ numToAdd - 1 then
    SetCapacity.loop (numToAdd - 1)
      { w with m_FreePool := w.m_FreePool ++ [w.allocated], allocated := w.allocated + 1 }
  else
    .ok w
termination_by numToAdd.toNat
decreasing_by omega

/-- Lines 536-542, `Engine::SetCapacity(int maxContacts)`. The difference of line 538 is taken
in `int`: it has no value there when it falls outside `INT_MIN .. INT_MAX`. -/
def SetCapacity (w : World) (maxContacts : Int) : Except Fault World :=
  let numToAdd := maxContacts - toInt w.m_FreePool.length
  if numToAdd < INT_MIN ∨ INT_MAX < numToAdd then
    .error .intOverflow
  else
    SetCapacity.loop numToAdd w

/-- Lines 512-515, `Engine::Engine`: both containers start empty and `SetCapacity(1024)`
fills the free pool. The memory is the one the engine is created in. -/
def Engine (bodies : BodyPtr → RigidBody) (contacts : ContactPtr → Contact) :
    Except Fault World :=
  SetCapacity
    { bodies := bodies, contacts := contacts, m_FreePool := [], m_Contacts := [], allocated := 0 }
    1024

/-- The calls a client makes on the collision engine during a step. -/
inductive Call where
  | Begin
  | TestCollision (pBodyA pBodyB : BodyPtr)
  | Resolve (pContact : ContactPtr)
  | End

/-- One call on the engine, the returned pointer of `TestCollision` dropped. -/
def Call.run (pm : PMath) (w : World) : Call → Except Fault World
  | .Begin => .ok (Collision.Begin w)
  | .TestCollision pBodyA pBodyB => (Collision.TestCollision pm w pBodyA pBodyB).map Prod.snd
  | .Resolve pContact => Collision.Resolve pm w pContact
  | .End => .ok (Collision.End w)

/-- A sequence of calls, one after the other; it stops at the first fault. -/
def runCalls (pm : PMath) (w : World) : List Call → Except Fault World
  | [] => .ok w
  | call :: rest => do
    let w ← call.run pm w
    runCalls pm w rest

/-- Modelled from the spec: the use a simulation step makes of the two calls on a candidate
pair (section 4.5, steps 2 and 3): `TestCollision`, then `Resolve` on the contact it returned,
if it returned one. -/
def detectAndResolve (pm : PMath) (w : World) (pBodyA pBodyB : BodyPtr) : Except Fault World := do
  let (r, w) ← TestCollision pm w pBodyA pBodyB
  match r with
  | some pContact => Resolve pm w pContact
  | none => pure w

/-! ## The plane-sphere test with every operation rounded

A second reading of `Collide_InfPlane_Sphere`, in which the result of every arithmetic
operation is rounded to binary32. -/

namespace Binary32

/-- Modelled from the spec: `Vec3fDot(a, b)`, the products and the sums rounded, summed from
the first component on. -/
def Vec3fDot (a b : Vec3f) : Real :=
  binary32 (binary32 (binary32 (a.x * b.x) + binary32 (a.y * b.y)) + binary32 (a.z * b.z))

/-- Modelled from the spec: `Plane::DistanceToPoint`, `n · p + d` rounded. -/
def Plane.DistanceToPoint (pl : Plane) (p : Vec3f) : Real :=
  binary32 (Vec3fDot pl.m_Normal p + pl.m_D)

/-- Modelled from the spec: `Vec3fScale(v, s)`, each product rounded. -/
def Vec3fScale (v : Vec3f) (s : Real) : Vec3f :=
  ⟨binary32 (v.x * s), binary32 (v.y * s), binary32 (v.z * s)⟩

/-- Modelled from the spec: `Vec3fAdd(r, a, b)`, each sum rounded. -/
def Vec3fAdd (a b : Vec3f) : Vec3f :=
  ⟨binary32 (a.x + b.x), binary32 (a.y + b.y), binary32 (a.z + b.z)⟩

/-- Lines 112-140, every operation rounded: the two differences and the quotient of line 132
and the difference `k1 - u` of line 134. -/
def Collide_InfPlane_Sphere (pContact : Contact) (pPlaneBody pSphere : RigidBody) :
    Except Fault (Bool × Contact) := do
  let pPlane ← asPlane pPlaneBody.m_pCollideGeo
  let c0 := pSphere.m_StateT0.m_Position
  let c1 := pSphere.m_StateT1.m_Position
  let d0 := Plane.DistanceToPoint pPlane c0
  let d1 := Plane.DistanceToPoint pPlane c1
  let radius ← asSphere pSphere.m_pCollideGeo
  if Abs d0 ≤ radius then
    pure (true, { pContact with m_Normal := pPlane.m_Normal, m_ContactTime := k0 })
  else if d0 > radius ∧ d1 < radius then
    let u := binary32 (binary32 (d0 - radius) / binary32 (d0 - d1))
    let c1 := Vec3fScale c1 u
    let c0 := Vec3fScale c0 (binary32 (k1 - u))
    pure (true, { pContact with
      m_Normal := pPlane.m_Normal, m_Position := Vec3fAdd c0 c1, m_ContactTime := u })
  else
    pure (false, pContact)

end Binary32

/-! ## Sample data -/

/-- An instance of the open primitives: the square root is `Rat.sqrt` (exact on squares of
rationals), the tolerance is one millionth, and two vectors are equal within a tolerance when
each coordinate differs by no more than it. The value for a division by zero is 0; no theorem
below rests on it. -/
def pmExact : PMath where
  Sqrt := Rat.sqrt
  kEps := 1 / 1000000
  Vec3fEqual := fun a b eps =>
    decide (Abs (a.x - b.x) ≤ eps) && decide (Abs (a.y - b.y) ≤ eps)
      && decide (Abs (a.z - b.z) ≤ eps)
  DivZero := fun _ => 0

/-- The instance `pmExact` with the correctly rounded binary32 square root `binary32Sqrt` in
place of `Rat.sqrt`. -/
def pmBinary32 : PMath := { pmExact with Sqrt := binary32Sqrt }

/-- The zero vector. -/
def vzero : Vec3f := ⟨0, 0, 0⟩

/-- A time slice at rest at position `p`. -/
def restAt (p : Vec3f) : State :=
  { m_Position := p, m_Velocity := vzero, m_AngularVelocity := vzero, m_AngularMomentum := vzero }

/-- An immovable body at rest at the origin with geometry `g` and extent `e`. -/
def staticBody (g : CollideGeo) (e : Vec3f) : RigidBody :=
  { m_StateT0 := restAt vzero, m_StateT1 := restAt vzero, m_Extent := e, m_InertiaITD := vzero,
    GetOOMass := 0, GetTranslatable := false, GetSpinnable := false,
    GetInertialKind := InertialKind.kI_Other, m_Collided := false, m_pCollideGeo := g }

/-- The plane `z = 0` with normal `(0, 0, 1)`. -/
def groundPlane : Plane := { m_Normal := ⟨0, 0, 1⟩, m_D := 0 }

/-- A movable sphere of radius `r` and unit mass that moves from `p0` to `p1` in the step. -/
def movingSphere (r : Real) (p0 p1 : Vec3f) : RigidBody :=
  { m_StateT0 := restAt p0, m_StateT1 := restAt p1, m_Extent := ⟨r, r, r⟩,
    m_InertiaITD := ⟨1, 1, 1⟩, GetOOMass := 1, GetTranslatable := true, GetSpinnable := true,
    GetInertialKind := InertialKind.kI_Sphere, m_Collided := false,
    m_pCollideGeo := CollideGeo.Sphere r }

/-- A contact record with every field zero. -/
def blankContact : Contact :=
  { m_Position := vzero, m_Normal := vzero, m_ContactTime := 0, m_PenetrationDepth := 0,
    m_pBodyA := 0, m_pBodyB := 0 }

/-- A memory with body `a` at address 0 and body `b` at every other address, blank contact
records, and the given free pool and active list. -/
def sampleWorld (a b : RigidBody) (free active : List ContactPtr) : World :=
  { bodies := fun p => if p = 0 then a else b, contacts := fun _ => blankContact,
    m_FreePool := free, m_Contacts := active, allocated := free.length + active.length }

/-- Two spheres of radius 1/4: the first rests at the origin, the second moves from
`(-5/2, 0, 0)` to `(-3/2, 0, 0)` during the step, so it would reach the first one only two
steps later. -/
def farSphereA : RigidBody := movingSphere (1 / 4) vzero vzero

/-- The approaching sphere of the pair described at `farSphereA`. -/
def farSphereB : RigidBody := movingSphere (1 / 4) ⟨-5 / 2, 0, 0⟩ ⟨-3 / 2, 0, 0⟩

/-- Two spheres of radius 1/4: the first rests at the origin, the second moves from
`(-1, 0, 0)` to `(1, 0, 0)` during the step, through the first one. -/
def nearSphereA : RigidBody := movingSphere (1 / 4) vzero vzero

/-- The crossing sphere of the pair described at `nearSphereA`. -/
def nearSphereB : RigidBody := movingSphere (1 / 4) ⟨-1, 0, 0⟩ ⟨1, 0, 0⟩

/-- A sphere of radius 1/4 that moves from `(-1, 1/2, 0)` to `(1, 1/2, 0)` during the step:
it grazes `nearSphereA` (radius 1/4, at rest at the origin) at mid-step, the centres then
being exactly the sum of the radii apart. -/
def grazeSphereB : RigidBody := movingSphere (1 / 4) ⟨-1, 1 / 2, 0⟩ ⟨1, 1 / 2, 0⟩

/-- A sphere of radius 1/4 that moves from `(-1, 1, 0)` to `(1, 1, 0)` during the step: it
passes `nearSphereA` at a distance. -/
def missSphereB : RigidBody := movingSphere (1 / 4) ⟨-1, 1, 0⟩ ⟨1, 1, 0⟩

/-- A sphere of radius 1/4 at rest at `(1/4, 0, 0)`: it overlaps `nearSphereA`. -/
def overlapSphereB : RigidBody := movingSphere (1 / 4) ⟨1 / 4, 0, 0⟩ ⟨1 / 4, 0, 0⟩

/-- A sphere of radius `r` and unit mass at `pos` at both ends of the step with T1 velocity
`vel`. -/
def sphereWithVelocity (r : Real) (pos vel : Vec3f) : RigidBody :=
  { movingSphere r pos pos with m_StateT1 := { restAt pos with m_Velocity := vel } }

/-- A unit sphere that falls from height 2 to height 0 during the step, with T1 velocity
`(0, 0, -2)`. -/
def fallingSphere : RigidBody :=
  { movingSphere 1 ⟨0, 0, 2⟩ ⟨0, 0, 0⟩ with
    m_StateT1 := { restAt ⟨0, 0, 0⟩ with m_Velocity := ⟨0, 0, -2⟩ } }

/-- The contact record the plane-sphere test leaves for the ground plane at address 0 and
`fallingSphere` at address 1. -/
def planeSphereContact : Contact :=
  { m_Position := ⟨0, 0, 1⟩, m_Normal := ⟨0, 0, 1⟩, m_ContactTime := 1 / 2,
    m_PenetrationDepth := 0, m_pBodyA := 0, m_pBodyB := 1 }

/-- A contact record between the bodies at addresses 0 and 1 with normal `(-1, 0, 0)`. -/
def sphereSphereContact : Contact :=
  { blankContact with m_Normal := ⟨-1, 0, 0⟩, m_pBodyA := 0, m_pBodyB := 1 }

/-- The ground plane at address 0, `fallingSphere` at address 1, and their contact in the
active record 5. -/
def bounceWorld : World :=
  (sampleWorld (staticBody (CollideGeo.Plane groundPlane) vzero) fallingSphere [] [5]).setContact
    5 planeSphereContact

/-- The ground plane at address 0 and a unit sphere at height 1 with T1 velocity `(0, 0, 2)`,
away from the plane, at address 1, with their contact in the active record 5. -/
def riseWorld : World :=
  (sampleWorld (staticBody (CollideGeo.Plane groundPlane) vzero)
    (sphereWithVelocity 1 ⟨0, 0, 1⟩ ⟨0, 0, 2⟩) [] [5]).setContact 5 planeSphereContact

/-- Two spheres of radius 1/4 and unit mass in contact, at `(-1/4, 0, 0)` with T1 velocity
`(1, 0, 0)` (address 0) and at `(1/4, 0, 0)` with T1 velocity `(-1, 0, 0)` (address 1): a
head-on approach. Their contact is the active record 5. -/
def headOnWorld : World :=
  (sampleWorld (sphereWithVelocity (1 / 4) ⟨-1 / 4, 0, 0⟩ ⟨1, 0, 0⟩)
    (sphereWithVelocity (1 / 4) ⟨1 / 4, 0, 0⟩ ⟨-1, 0, 0⟩) [] [5]).setContact 5 sphereSphereContact

/-- The spheres of `headOnWorld` with the velocities exchanged: they move apart. -/
def partingWorld : World :=
  (sampleWorld (sphereWithVelocity (1 / 4) ⟨-1 / 4, 0, 0⟩ ⟨-1, 0, 0⟩)
    (sphereWithVelocity (1 / 4) ⟨1 / 4, 0, 0⟩ ⟨1, 0, 0⟩) [] [5]).setContact 5 sphereSphereContact

/-- An immovable sphere of radius 1/4 with inverse mass 0 at rest at `(0, 1, 0)` (address 0)
and a sphere of radius 1/4 and unit mass at `(1/2, 1, 0)` with T1 velocity `(-1, 0, 0)`
(address 1), in contact; the contact is the active record 5. -/
def anchoredWorld : World :=
  (sampleWorld
    { sphereWithVelocity (1 / 4) ⟨0, 1, 0⟩ vzero with
      GetOOMass := 0, GetTranslatable := false, GetSpinnable := false }
    (sphereWithVelocity (1 / 4) ⟨1 / 2, 1, 0⟩ ⟨-1, 0, 0⟩) [] [5]).setContact 5 sphereSphereContact

/-- The ground plane at address 0 and `fallingSphere` at address 1, one free contact record,
no active contact. -/
def dropWorld : World :=
  sampleWorld (staticBody (CollideGeo.Plane groundPlane) vzero) fallingSphere [5] []

/-- Two ground planes at addresses 0 and 1 with a contact between them in the active
record 5. -/
def planesWorld : World :=
  (sampleWorld (staticBody (CollideGeo.Plane groundPlane) vzero)
    (staticBody (CollideGeo.Plane groundPlane) vzero) [] [5]).setContact 5 planeSphereContact

/-- The ground plane at address 0 and, at address 1, a unit sphere whose centre is at height
1/2 at both ends of the step, with one free contact record that holds the position `q` from
an earlier use. -/
def sunkWorld (q : Vec3f) : World :=
  (sampleWorld (staticBody (CollideGeo.Plane groundPlane) vzero)
    (movingSphere 1 ⟨0, 0, 1 / 2⟩ ⟨0, 0, 1 / 2⟩) [5] []).setContact 5
    { blankContact with m_Position := q }

/-- Two spheres of radius 3617/4096: the first rests at the origin, the second moves from
`(-49/32, -49/32, 255/256)` to `(-33/32, -33/32, 255/256)` during the step; the two come to
touch just before the end of the step. -/
def endGrazeSphereA : RigidBody := movingSphere (3617 / 4096) vzero vzero

/-- The approaching sphere of the pair described at `endGrazeSphereA`. -/
def endGrazeSphereB : RigidBody :=
  movingSphere (3617 / 4096) ⟨-49 / 32, -49 / 32, 255 / 256⟩ ⟨-33 / 32, -33 / 32, 255 / 256⟩

/-! ## Auxiliary facts -/

/-- A rational within less than one half of an integer rounds to it. -/
theorem roundEven_eq (y : ℚ) (n : ℤ) (h : |y - n| < 1 / 2) : roundEven y = n := by
  rw [abs_lt] at h
  unfold roundEven
  by_cases hy : (n : ℚ) ≤ y
  · have hf : ⌊y⌋ = n := by
      rw [Int.floor_eq_iff]
      constructor
      · exact hy
      · linarith
    rw [hf, if_pos (by linarith)]
  · push_neg at hy
    have hf : ⌊y⌋ = n - 1 := by
      rw [Int.floor_eq_iff]
      push_cast
      constructor <;> linarith
    rw [hf]
    push_cast
    rw [if_neg (by linarith), if_pos (by linarith)]
    ring

/-- A rational half way between an even integer and its successor rounds to the even one. -/
theorem roundEven_tie (y : ℚ) (f : ℤ) (h : y = f + 1 / 2) (hf : f % 2 = 0) :
    roundEven y = f := by
  have hfl : ⌊y⌋ = f := by
    rw [Int.floor_eq_iff]
    constructor <;> linarith
  unfold roundEven
  rw [hfl, if_neg (by linarith), if_neg (by linarith), if_pos hf]

/-- The binary exponent of a positive rational between two consecutive powers of two. -/
theorem log_two_eq (x : ℚ) (e : ℤ) (hlo : (2 : ℚ) ^ e ≤ x) (hhi : x < (2 : ℚ) ^ (e + 1)) :
    Int.log 2 x = e := by
  have hpos : 0 < x := lt_of_lt_of_le (by positivity) hlo
  have h1 : e ≤ Int.log 2 x := by
    rw [← Int.zpow_le_iff_le_log (by norm_num) hpos]
    exact_mod_cast hlo
  have h2 : Int.log 2 x < e + 1 := by
    rw [← Int.lt_zpow_iff_log_lt (by norm_num) hpos]
    exact_mod_cast hhi
  omega

/-- Evaluation of `binary32` at a rational of binary exponent `e`. -/
theorem binary32_eq (x : ℚ) (e n : ℤ) (hlo : (2 : ℚ) ^ e ≤ |x|) (hhi : |x| < (2 : ℚ) ^ (e + 1))
    (hn : roundEven (x / 2 ^ (e - 23)) = n) : binary32 x = n * 2 ^ (e - 23) := by
  have hx : x ≠ 0 := by
    intro h
    rw [h, abs_zero] at hlo
    exact absurd hlo (not_le.mpr (by positivity))
  unfold binary32
  rw [if_neg hx, log_two_eq |x| e hlo hhi, hn]

/-- The constant expression `k1 + RESTITUTION` of line 336 is exact in binary32: its value is
`1.6f`, about 1.60000002. -/
theorem binary32_one_add_RESTITUTION :
    binary32 (1 + RESTITUTION_PlaneSphere) = 13421773 / 8388608 := by
  rw [binary32_eq (1 + RESTITUTION_PlaneSphere) 0 13421773
    (by norm_num [RESTITUTION_PlaneSphere, abs_of_pos])
    (by norm_num [RESTITUTION_PlaneSphere, abs_of_pos])
    (roundEven_eq _ _ (by norm_num [RESTITUTION_PlaneSphere]))]
  norm_num

/-- The constant expression `kN1 - RESTITUTION` of line 443 is rounded in binary32: the exact
difference `-32715571 / 2^24` is a tie and goes to `-16357786 / 2^23`, about -1.95000005. -/
theorem binary32_neg_one_sub_RESTITUTION :
    binary32 (-1 - RESTITUTION_SphereSphere) = -(8178893 / 4194304) := by
  rw [binary32_eq (-1 - RESTITUTION_SphereSphere) 0 (-16357786)
    (by norm_num [RESTITUTION_SphereSphere, abs_of_neg])
    (by norm_num [RESTITUTION_SphereSphere, abs_of_neg])
    (roundEven_tie _ _ (by norm_num [RESTITUTION_SphereSphere]) (by decide))]
  norm_num

/-- On a divisor that is not zero `Div` is exact division. -/
theorem Div_of_ne (pm : PMath) (x y : Real) (h : y ≠ 0) : Div pm x y = x / y := by
  simp [Div, h]

/-- The engine's `Abs` is the absolute value. -/
theorem Abs_eq_abs (a : Real) : Abs a = |a| := by
  unfold Abs
  split
  · rw [abs_of_neg]; assumption
  · rw [abs_of_nonneg]; linarith

@[simp]
theorem modifyBody_FreePool (w : World) (p : BodyPtr) (f : RigidBody → RigidBody) :
    (w.modifyBody p f).m_FreePool = w.m_FreePool := rfl

@[simp]
theorem modifyBody_Contacts (w : World) (p : BodyPtr) (f : RigidBody → RigidBody) :
    (w.modifyBody p f).m_Contacts = w.m_Contacts := rfl

@[simp]
theorem modifyBody_contacts (w : World) (p : BodyPtr) (f : RigidBody → RigidBody) :
    (w.modifyBody p f).contacts = w.contacts := rfl

@[simp]
theorem modifyBody_bodies_same (w : World) (p : BodyPtr) (f : RigidBody → RigidBody) :
    (w.modifyBody p f).bodies p = f (w.bodies p) := by
  simp [World.modifyBody, World.setBody]

@[simp]
theorem setContact_FreePool (w : World) (p : ContactPtr) (c : Contact) :
    (w.setContact p c).m_FreePool = w.m_FreePool := rfl

@[simp]
theorem setContact_Contacts (w : World) (p : ContactPtr) (c : Contact) :
    (w.setContact p c).m_Contacts = w.m_Contacts := rfl

@[simp]
theorem setContact_bodies (w : World) (p : ContactPtr) (c : Contact) :
    (w.setContact p c).bodies = w.bodies := rfl

@[simp]
theorem setContact_contacts_same (w : World) (p : ContactPtr) (c : Contact) :
    (w.setContact p c).contacts p = c := by
  simp [World.setContact]

/-- Dispatch through the table on the bodies' own kinds never meets a bad cast. -/
theorem CollisionFunctions_ok (pm : PMath) (c : Contact) (A B : RigidBody) :
    ∃ r, CollisionFunctions pm A.m_pCollideGeo.GetKind B.m_pCollideGeo.GetKind c A B
      = Except.ok r := by
  cases hA : A.m_pCollideGeo <;> cases hB : B.m_pCollideGeo <;>
    simp only [CollideGeo.GetKind, CollisionFunctions, Collide_InfPlane_InfPlane,
      Collide_InfPlane_Sphere, Collide_Sphere___InfPlane, Collide_Sphere___Sphere, hA, hB,
      asPlane, asSphere, bind, Except.bind, pure, Except.pure] <;>
    split_ifs <;> exact ⟨_, rfl⟩

/-- The plane-sphere impulse step on a contact whose body B is a sphere: it returns, and it
touches neither container nor any contact record. -/
theorem ResolveSphereVsPlane_ok (pm : PMath) (w : World) (p : ContactPtr) (r : Real)
    (h : (w.bodies (w.contacts p).m_pBodyB).m_pCollideGeo = CollideGeo.Sphere r) :
    ∃ w', _ResolveSphereVsPlane pm w p = Except.ok w' ∧ w'.m_FreePool = w.m_FreePool
      ∧ w'.m_Contacts = w.m_Contacts ∧ w'.contacts = w.contacts := by
  simp only [_ResolveSphereVsPlane, h, asSphere, bind, Except.bind, pure, Except.pure]
  split_ifs <;> exact ⟨_, rfl, rfl, rfl, rfl⟩

/-- The plane-sphere resolver on a contact whose body B is a sphere returns and leaves both
containers as they are. -/
theorem Resolve_InfPlane_Sphere_ok (pm : PMath) (w : World) (p : ContactPtr) (r : Real)
    (h : (w.bodies (w.contacts p).m_pBodyB).m_pCollideGeo = CollideGeo.Sphere r) :
    ∃ w', Resolve_InfPlane_Sphere pm w p = Except.ok w' ∧ w'.m_FreePool = w.m_FreePool
      ∧ w'.m_Contacts = w.m_Contacts := by
  have h1 := ResolveSphereVsPlane_ok pm
    (w.modifyBody (w.contacts p).m_pBodyB (fun b => b.setT1Position (w.contacts p).m_Position))
    p r (by simp [RigidBody.setT1Position, h])
  obtain ⟨w1, e1, f1, a1, _⟩ := h1
  simp only [Resolve_InfPlane_Sphere, bind, Except.bind, pure, Except.pure, e1]
  exact ⟨_, rfl, by simpa using f1, by simpa using a1⟩

/-- The sphere-plane resolver on a contact whose body A is a sphere returns and leaves both
containers as they are. -/
theorem Resolve_Sphere___InfPlane_ok (pm : PMath) (w : World) (p : ContactPtr) (r : Real)
    (h : (w.bodies (w.contacts p).m_pBodyA).m_pCollideGeo = CollideGeo.Sphere r) :
    ∃ w', Resolve_Sphere___InfPlane pm w p = Except.ok w' ∧ w'.m_FreePool = w.m_FreePool
      ∧ w'.m_Contacts = w.m_Contacts := by
  unfold Resolve_Sphere___InfPlane
  exact Resolve_InfPlane_Sphere_ok pm _ p r (by simp [World.setContact, h])

/-- The sphere-sphere resolver on a contact between two spheres returns and leaves both
containers as they are. -/
theorem Resolve_Sphere___Sphere_ok (pm : PMath) (w : World) (p : ContactPtr) (rA rB : Real)
    (hA : (w.bodies (w.contacts p).m_pBodyA).m_pCollideGeo = CollideGeo.Sphere rA)
    (hB : (w.bodies (w.contacts p).m_pBodyB).m_pCollideGeo = CollideGeo.Sphere rB) :
    ∃ w', Resolve_Sphere___Sphere pm w p = Except.ok w' ∧ w'.m_FreePool = w.m_FreePool
      ∧ w'.m_Contacts = w.m_Contacts := by
  simp only [Resolve_Sphere___Sphere, hA, hB, asSphere, bind, Except.bind, pure, Except.pure]
  split_ifs <;> exact ⟨_, rfl, rfl, rfl⟩

/-- The call `Engine::Resolve` returns for every contact record and leaves both containers as
they are: the dispatch on the kinds of the two bodies excludes a bad cast. -/
theorem Resolve_ok (pm : PMath) (w : World) (p : ContactPtr) :
    ∃ w', Resolve pm w p = Except.ok w' ∧ w'.m_FreePool = w.m_FreePool
      ∧ w'.m_Contacts = w.m_Contacts := by
  have key : ∃ w1, ResolveFunctions pm (w.bodies (w.contacts p).m_pBodyA).m_pCollideGeo.GetKind
      (w.bodies (w.contacts p).m_pBodyB).m_pCollideGeo.GetKind w p = Except.ok w1
      ∧ w1.m_FreePool = w.m_FreePool ∧ w1.m_Contacts = w.m_Contacts := by
    cases hA : (w.bodies (w.contacts p).m_pBodyA).m_pCollideGeo <;>
      cases hB : (w.bodies (w.contacts p).m_pBodyB).m_pCollideGeo <;>
      simp only [CollideGeo.GetKind, ResolveFunctions]
    · exact ⟨w, rfl, rfl, rfl⟩
    · exact Resolve_InfPlane_Sphere_ok pm w p _ hB
    · exact Resolve_Sphere___InfPlane_ok pm w p _ hA
    · exact Resolve_Sphere___Sphere_ok pm w p _ _ hA hB
  obtain ⟨w1, e1, f1, a1⟩ := key
  simp only [Resolve, bind, Except.bind, pure, Except.pure, e1]
  exact ⟨_, rfl, by simpa using f1, by simpa using a1⟩

/-- The call `TestCollision` on a non-empty free pool, in closed form. -/
theorem TestCollision_cons (pm : PMath) (w : World) (pBodyA pBodyB : BodyPtr)
    (pContact : ContactPtr) (rest : List ContactPtr) (hit : Bool) (c : Contact)
    (hpool : w.m_FreePool = pContact :: rest)
    (hnarrow : CollisionFunctions pm (w.bodies pBodyA).m_pCollideGeo.GetKind
      (w.bodies pBodyB).m_pCollideGeo.GetKind (w.contacts pContact) (w.bodies pBodyA)
      (w.bodies pBodyB) = Except.ok (hit, c)) :
    TestCollision pm w pBodyA pBodyB = Except.ok (
      if hit then
        (some pContact, { w with
          m_FreePool := rest, m_Contacts := w.m_Contacts ++ [pContact],
          contacts := Function.update w.contacts pContact
            { c with m_pBodyA := pBodyA, m_pBodyB := pBodyB } })
      else
        (none, { w with
          m_FreePool := rest ++ [pContact],
          contacts := Function.update w.contacts pContact c })) := by
  unfold TestCollision
  rw [hpool]
  simp only [bind, Except.bind, pure, Except.pure, World.setContact, hnarrow]
  cases hit <;> simp

/-- The loop of `Engine::End` moves the active list, back to front, behind the free pool. -/
theorem End_loop_eq (active free : List ContactPtr) :
    End.loop active free = ([], free ++ active.reverse) := by
  induction active using List.reverseRecOn generalizing free with
  | nil => unfold End.loop; simp
  | append_singleton l a ih =>
    unfold End.loop
    simp [ih]

/-- The conversion of a container size to `int` is exact up to `INT_MAX`. -/
theorem toInt_of_le (n : Nat) (h : (n : Int) ≤ INT_MAX) : toInt n = n := by
  unfold toInt
  unfold INT_MAX at h
  omega

/-- The loop of `Engine::SetCapacity` on a counter above `INT_MIN` returns, having appended
`numToAdd` fresh addresses behind the free pool (none when the counter is not positive). -/
theorem SetCapacity_loop_eq (numToAdd : Int) (w : World) (hmin : INT_MIN < numToAdd) :
    SetCapacity.loop numToAdd w = Except.ok { w with
      m_FreePool := w.m_FreePool ++ List.range' w.allocated numToAdd.toNat,
      allocated := w.allocated + numToAdd.toNat } := by
  generalize h : numToAdd.toNat = n
  induction n generalizing numToAdd w with
  | zero =>
    unfold SetCapacity.loop
    have h0 : ¬ (numToAdd - 1 < INT_MIN) := by omega
    have h1 : ¬ (0 ≤ numToAdd - 1) := by omega
    simp [h0, h1]
  | succ n ih =>
    unfold SetCapacity.loop
    have h0 : ¬ (numToAdd - 1 < INT_MIN) := by omega
    have h1 : 0 ≤ numToAdd - 1 := by omega
    simp only [h0, h1, if_true, if_false]
    rw [ih (numToAdd - 1) (World.mk w.bodies w.contacts (w.m_FreePool ++ [w.allocated])
      w.m_Contacts (w.allocated + 1)) (by unfold INT_MIN; omega) (by omega)]
    simp [List.range'_succ, Nat.add_assoc, Nat.add_comm 1 n]

/-- One call on the engine either returns with the number of contact records (free plus
active) unchanged, or it is a `TestCollision` that found the free pool empty. -/
theorem Call_run_total (pm : PMath) (w : World) (call : Call) :
    match call.run pm w with
    | Except.ok w' =>
      w'.m_FreePool.length + w'.m_Contacts.length = w.m_FreePool.length + w.m_Contacts.length
    | Except.error f => f = Fault.emptyFront := by
  cases call with
  | Begin => simp [Call.run, Begin]
  | End =>
    simp only [Call.run, End, End_loop_eq]
    simp
  | Resolve pContact =>
    obtain ⟨w', e, hf, ha⟩ := Resolve_ok pm w pContact
    simp only [Call.run, e, hf, ha]
  | TestCollision pBodyA pBodyB =>
    cases hpool : w.m_FreePool with
    | nil => simp [Call.run, TestCollision, hpool, Except.map]
    | cons pContact rest =>
      obtain ⟨⟨hit, c⟩, hn⟩ := CollisionFunctions_ok pm (w.contacts pContact)
        (w.bodies pBodyA) (w.bodies pBodyB)
      simp only [Call.run, TestCollision_cons pm w pBodyA pBodyB pContact rest hit c hpool hn,
        Except.map]
      cases hit
      · simp
      · simp
        omega

/-- A vector's scalar product with itself is not negative. -/
theorem Vec3fDot_self_nonneg (v : Vec3f) : 0 ≤ Vec3fDot v v := by
  unfold Vec3fDot
  nlinarith [mul_self_nonneg v.x, mul_self_nonneg v.y, mul_self_nonneg v.z]

/-- The leading coefficient of the swept quadratic is not negative. -/
theorem sweptQuadratic_a_nonneg (rA rB : Real) (A B : RigidBody) :
    0 ≤ (sweptQuadratic rA rB A B).1 := by
  simp only [sweptQuadratic]
  exact Vec3fDot_self_nonneg _

/-- With an exact square root of the discriminant, `QuadraticFormula` on `a (u - u0) (u - u1)`
with `a > 0` and `u0 ≤ u1` returns the larger root first and the smaller root second. -/
theorem QuadraticFormula_roots (pm : PMath) (a b c u0 u1 : Real) (ha : 0 < a)
    (hb : b = -a * (u0 + u1)) (hc : c = a * u0 * u1) (hle : u0 ≤ u1)
    (hs0 : 0 ≤ pm.Sqrt (b * b - 4 * a * c))
    (hs1 : pm.Sqrt (b * b - 4 * a * c) * pm.Sqrt (b * b - 4 * a * c) = b * b - 4 * a * c) :
    QuadraticFormula pm a b c = some (u1, u0) := by
  have hq : b * b - 4 * a * c = (a * (u1 - u0)) * (a * (u1 - u0)) := by
    rw [hb, hc]; ring
  have hnn : 0 ≤ a * (u1 - u0) := mul_nonneg ha.le (by linarith)
  have hs : pm.Sqrt (b * b - 4 * a * c) = a * (u1 - u0) := by
    have h2 : pm.Sqrt (b * b - 4 * a * c) * pm.Sqrt (b * b - 4 * a * c)
        = (a * (u1 - u0)) * (a * (u1 - u0)) := by rw [hs1, hq]
    exact (mul_self_inj hs0 hnn).mp h2
  have hq0 : b * b - 4 * a * c ≥ 0 := by
    rw [hq]; exact mul_self_nonneg _
  have hane : a ≠ 0 := ne_of_gt ha
  have h2a : (2 : Real) * a ≠ 0 := mul_ne_zero two_ne_zero hane
  simp only [QuadraticFormula, k0, k1, k2, k4, hq0, if_true, hs, Div_of_ne pm 1 (2 * a) h2a]
  rw [hb]
  congr 2
  · field_simp; ring
  · field_simp; ring

/-- The flag of the sphere-sphere test for spheres apart at T0 (`c > 0`) whose swept
quadratic is `a (u - u0) (u - u1)` with `u0 ≤ u1`, given an exact square root of the
discriminant: the code holds the larger root in its `u0` and the smaller one in its `u1`. -/
theorem sphereSphereHit_roots (pm : PMath) (a b c u0 u1 : Real) (ha : 0 ≤ a) (hc0 : 0 < c)
    (hb : b = -a * (u0 + u1)) (hc : c = a * u0 * u1) (hle : u0 ≤ u1)
    (hs0 : 0 ≤ pm.Sqrt (b * b - 4 * a * c))
    (hs1 : pm.Sqrt (b * b - 4 * a * c) * pm.Sqrt (b * b - 4 * a * c) = b * b - 4 * a * c) :
    sphereSphereHit pm a b c = decide ((0 < u1 ∧ u1 ≤ u0) ∨ (0 < u0 ∧ u0 < 1)) := by
  have hane : a ≠ 0 := by
    intro h0
    rw [h0] at hc
    simp at hc
    linarith
  have hapos : 0 < a := lt_of_le_of_ne ha (Ne.symm hane)
  have hq := QuadraticFormula_roots pm a b c u0 u1 hapos hb hc hle hs0 hs1
  have hnc : ¬ c ≤ 0 := by linarith
  simp only [sphereSphereHit, k0, k1, hnc, if_false, hq, gt_iff_lt]
  by_cases h1 : 0 < u1 ∧ u1 ≤ u0
  · simp [h1]
  · by_cases h2 : 0 < u0 ∧ u0 < 1
    · simp [h1, h2]
    · simp [h1, h2]

/-- The sphere-sphere test on two sphere bodies, by the flag computed from the coefficients. -/
theorem Collide_Sphere___Sphere_eq (pm : PMath) (c : Contact) (A B : RigidBody)
    (rA rB a b cc : Real)
    (hA : A.m_pCollideGeo = CollideGeo.Sphere rA) (hB : B.m_pCollideGeo = CollideGeo.Sphere rB)
    (habc : sweptQuadratic rA rB A B = (a, b, cc)) :
    Collide_Sphere___Sphere pm c A B =
      if sphereSphereHit pm a b cc then
        Except.ok (true, { c with
          m_Normal := (Vec3fNormalize pm
            (Vec3fSubtract A.m_StateT1.m_Position B.m_StateT1.m_Position)) })
      else Except.ok (false, c) := by
  simp only [Collide_Sphere___Sphere, hA, hB, asSphere, bind, Except.bind, pure, Except.pure,
    habc]

/-- The square root of `pmExact` at 1. -/
theorem pmExact_Sqrt_one : pmExact.Sqrt 1 = 1 := by
  simp [pmExact]

/-- The flag of the sphere-sphere test for spheres apart at T0 whose swept quadratic has a
negative discriminant. -/
theorem sphereSphereHit_neg_discriminant (pm : PMath) (a b c : Real) (hc : 0 < c)
    (hq : b * b - 4 * a * c < 0) : sphereSphereHit pm a b c = false := by
  have hnc : ¬ c ≤ 0 := by linarith
  have hnq : ¬ b * b - 4 * a * c ≥ 0 := by linarith
  simp [sphereSphereHit, QuadraticFormula, k0, k4, hnc, hnq]

/-- The flag of the sphere-sphere test for spheres that overlap at T0. -/
theorem sphereSphereHit_overlap (pm : PMath) (a b c : Real) (hc : c ≤ 0) :
    sphereSphereHit pm a b c = true := by
  simp [sphereSphereHit, k0, hc]

/-- The square root of `pmExact` at 0. -/
theorem pmExact_Sqrt_zero : pmExact.Sqrt 0 = 0 := by
  simp [pmExact]

/-- The square root of `pmExact` on a square. -/
theorem pmExact_Sqrt_sq (q : Real) : pmExact.Sqrt (q * q) = |q| :=
  Rat.sqrt_eq q

/-- The swept quadratic of the pair `nearSphereA`, `nearSphereB`. -/
theorem nearSpheres_quadratic :
    sweptQuadratic (1 / 4) (1 / 4) nearSphereA nearSphereB = (4, -4, 3 / 4) := by
  norm_num [sweptQuadratic, nearSphereA, nearSphereB, movingSphere, restAt, vzero,
    Vec3fSubtract, Vec3fDot, k2]

/-- The sphere-sphere test reports a collision for the pair `nearSphereA`, `nearSphereB`. -/
theorem nearSpheres_hit : sphereSphereHit pmExact 4 (-4) (3 / 4) = true := by
  have hq : ((-4 : Real) * (-4) - 4 * 4 * (3 / 4)) = 2 * 2 := by norm_num
  have hs : pmExact.Sqrt (2 * 2) = 2 := by
    rw [pmExact_Sqrt_sq]; norm_num
  rw [sphereSphereHit_roots pmExact 4 (-4) (3 / 4) (1 / 4) (3 / 4) (by norm_num) (by norm_num)
    (by norm_num) (by norm_num) (by norm_num) (by rw [hq, hs]; norm_num) (by rw [hq, hs])]
  norm_num

/-- The normalised difference of the T1 positions of `nearSphereA` and `nearSphereB`. -/
theorem nearSpheres_normal :
    Vec3fNormalize pmExact (Vec3fSubtract nearSphereA.m_StateT1.m_Position
      nearSphereB.m_StateT1.m_Position) = ⟨-1, 0, 0⟩ := by
  have h1 : Vec3fDot (Vec3fSubtract nearSphereA.m_StateT1.m_Position
      nearSphereB.m_StateT1.m_Position) (Vec3fSubtract nearSphereA.m_StateT1.m_Position
      nearSphereB.m_StateT1.m_Position) = 1 := by
    norm_num [nearSphereA, nearSphereB, movingSphere, restAt, vzero, Vec3fSubtract, Vec3fDot]
  simp only [Vec3fNormalize, Vec3fLength, h1, pmExact_Sqrt_one]
  norm_num [nearSphereA, nearSphereB, movingSphere, restAt, vzero, Vec3fSubtract, Div]

/-- A vector whose scalar product with itself is zero is the zero vector. -/
theorem Vec3fDot_self_eq_zero (v : Vec3f) (h : Vec3fDot v v = 0) :
    v.x = 0 ∧ v.y = 0 ∧ v.z = 0 := by
  unfold Vec3fDot at h
  have hx := mul_self_nonneg v.x
  have hy := mul_self_nonneg v.y
  have hz := mul_self_nonneg v.z
  refine ⟨?_, ?_, ?_⟩
  · exact mul_self_eq_zero.mp (by linarith)
  · exact mul_self_eq_zero.mp (by linarith)
  · exact mul_self_eq_zero.mp (by linarith)

/-- Two vectors with the same coordinates are equal. -/
@[ext]
theorem Vec3f_ext (a b : Vec3f) (hx : a.x = b.x) (hy : a.y = b.y) (hz : a.z = b.z) : a = b := by
  cases a; cases b; simp_all

/-- The spin term `ω × (s n)` of a contact point on the normal has no component along `n`. -/
theorem Vec3fDot_spin (v ω n : Vec3f) (s : Real) :
    Vec3fDot (Vec3fAdd v (Vec3fCross ω (Vec3fSetScaled s n))) n = Vec3fDot v n := by
  simp only [Vec3fDot, Vec3fAdd, Vec3fCross, Vec3fSetScaled]
  ring

/-- The inertia term `(I (r × n)) × r` of a contact point `r = s n` on the normal vanishes. -/
theorem inertia_term_zero (b : RigidBody) (n : Vec3f) (s : Real) :
    Vec3fCross (applyInertiaITD b (Vec3fCross (Vec3fSetScaled s n) n)) (Vec3fSetScaled s n)
      = ⟨0, 0, 0⟩ := by
  unfold applyInertiaITD
  split_ifs <;>
    (simp only [Vec3fCross, Vec3fSetScaled, Vec3fScale, Vec3fMultiply]
     congr 1 <;> ring)

/-- The velocity along the normal that `_ResolveSphereVsPlane` tests is `v · n`, spinnable
sphere or not. -/
theorem planeSphere_velNormal (S : RigidBody) (n : Vec3f) (s : Real) :
    Vec3fDot (if S.GetSpinnable = true then
        Vec3fAdd S.m_StateT1.m_Velocity
          (Vec3fCross S.m_StateT1.m_AngularVelocity (Vec3fSetScaled s n))
      else S.m_StateT1.m_Velocity) n = Vec3fDot S.m_StateT1.m_Velocity n := by
  split_ifs
  · exact Vec3fDot_spin _ _ _ _
  · rfl

/-- The plane-sphere impulse step in closed form, for a contact whose body B is a sphere of
radius `r`: nothing happens unless `v · n < 0`; then the impulse is
`(OOMass * (-(1 + e) (v · n)) / OOMass) n`. -/
theorem ResolveSphereVsPlane_eq (pm : PMath) (w : World) (p : ContactPtr) (r : Real)
    (h : (w.bodies (w.contacts p).m_pBodyB).m_pCollideGeo = CollideGeo.Sphere r) :
    _ResolveSphereVsPlane pm w p = Except.ok (
      if Vec3fDot (w.bodies (w.contacts p).m_pBodyB).m_StateT1.m_Velocity (w.contacts p).m_Normal
          < 0 then
        if (w.bodies (w.contacts p).m_pBodyB).GetSpinnable = true then
          (w.modifyBody (w.contacts p).m_pBodyB (fun b => b.setT1Velocity
            (Vec3fAdd b.m_StateT1.m_Velocity (Vec3fSetScaled
              (Div pm ((w.bodies (w.contacts p).m_pBodyB).GetOOMass
                * (-(binary32 (1 + RESTITUTION_PlaneSphere))
                  * Vec3fDot (w.bodies (w.contacts p).m_pBodyB).m_StateT1.m_Velocity
                      (w.contacts p).m_Normal))
                (w.bodies (w.contacts p).m_pBodyB).GetOOMass)
              (w.contacts p).m_Normal)))).modifyBody (w.contacts p).m_pBodyB
            (fun b => b.setT1AngularMomentum (Vec3fSubtract b.m_StateT1.m_AngularMomentum
              (Vec3fCross (Vec3fSetScaled (-r) (w.contacts p).m_Normal) (Vec3fSetScaled
                (Div pm ((w.bodies (w.contacts p).m_pBodyB).GetOOMass
                  * (-(binary32 (1 + RESTITUTION_PlaneSphere))
                    * Vec3fDot (w.bodies (w.contacts p).m_pBodyB).m_StateT1.m_Velocity
                        (w.contacts p).m_Normal))
                  (w.bodies (w.contacts p).m_pBodyB).GetOOMass)
                (w.contacts p).m_Normal))))
        else
          w.modifyBody (w.contacts p).m_pBodyB (fun b => b.setT1Velocity
            (Vec3fAdd b.m_StateT1.m_Velocity (Vec3fSetScaled
              (Div pm ((w.bodies (w.contacts p).m_pBodyB).GetOOMass
                * (-(binary32 (1 + RESTITUTION_PlaneSphere))
                  * Vec3fDot (w.bodies (w.contacts p).m_pBodyB).m_StateT1.m_Velocity
                      (w.contacts p).m_Normal))
                (w.bodies (w.contacts p).m_pBodyB).GetOOMass)
              (w.contacts p).m_Normal)))
      else w) := by
  simp only [_ResolveSphereVsPlane, h, asSphere, bind, Except.bind, pure, Except.pure,
    planeSphere_velNormal, inertia_term_zero, k0, k1]
  have hz : Vec3fDot (⟨0, 0, 0⟩ : Vec3f) (w.contacts p).m_Normal = 0 := by
    simp [Vec3fDot]
  simp only [hz, add_zero]
  split_ifs <;> rfl

/-- An update through a body pointer leaves the bodies at other addresses as they are. -/
@[simp]
theorem modifyBody_bodies_ne (w : World) (p q : BodyPtr) (f : RigidBody → RigidBody)
    (h : q ≠ p) : (w.modifyBody p f).bodies q = w.bodies q := by
  simp [World.modifyBody, World.setBody, Function.update_noteq h]

/-- The relative velocity along the normal that `Resolve_Sphere___Sphere` tests is
`(vA - vB) · n`, spinnable spheres or not. -/
theorem sphereSphere_velNormal (A B : RigidBody) (n : Vec3f) (sA sB : Real) :
    Vec3fDot (Vec3fSubtract
        (if A.GetSpinnable = true then
          Vec3fAdd A.m_StateT1.m_Velocity
            (Vec3fCross A.m_StateT0.m_AngularVelocity (Vec3fSetScaled sA n))
        else A.m_StateT1.m_Velocity)
        (if B.GetSpinnable = true then
          Vec3fAdd B.m_StateT1.m_Velocity
            (Vec3fCross B.m_StateT0.m_AngularVelocity (Vec3fSetScaled sB n))
        else B.m_StateT1.m_Velocity)) n
      = Vec3fDot (Vec3fSubtract A.m_StateT1.m_Velocity B.m_StateT1.m_Velocity) n := by
  split_ifs <;> simp only [Vec3fDot, Vec3fSubtract, Vec3fAdd, Vec3fCross, Vec3fSetScaled] <;>
    ring

/-- The sphere-sphere resolver on a contact of two spheres that do not approach along the
normal changes nothing. -/
theorem Resolve_Sphere___Sphere_separating (pm : PMath) (w : World) (p : ContactPtr)
    (rA rB : Real)
    (hA : (w.bodies (w.contacts p).m_pBodyA).m_pCollideGeo = CollideGeo.Sphere rA)
    (hB : (w.bodies (w.contacts p).m_pBodyB).m_pCollideGeo = CollideGeo.Sphere rB)
    (hv : 0 ≤ Vec3fDot (Vec3fSubtract (w.bodies (w.contacts p).m_pBodyA).m_StateT1.m_Velocity
      (w.bodies (w.contacts p).m_pBodyB).m_StateT1.m_Velocity) (w.contacts p).m_Normal) :
    Resolve_Sphere___Sphere pm w p = Except.ok w := by
  have hnv := not_lt.mpr hv
  simp only [Resolve_Sphere___Sphere, hA, hB, asSphere, bind, Except.bind, pure, Except.pure,
    sphereSphere_velNormal, k0, hnv, if_false]

/-- The sphere-sphere resolver on a contact of two distinct spheres that approach along the
normal: it returns, and the T1 velocities become `vA + OOMassA j n` and `vB - OOMassB j n`
for the impulse magnitude `j = (-1 - e) ((vA - vB) · n) / ((OOMassA + OOMassB) (n · n))`. -/
theorem Resolve_Sphere___Sphere_approaching (pm : PMath) (w : World) (p : ContactPtr)
    (rA rB : Real)
    (hA : (w.bodies (w.contacts p).m_pBodyA).m_pCollideGeo = CollideGeo.Sphere rA)
    (hB : (w.bodies (w.contacts p).m_pBodyB).m_pCollideGeo = CollideGeo.Sphere rB)
    (hne : (w.contacts p).m_pBodyA ≠ (w.contacts p).m_pBodyB)
    (hv : Vec3fDot (Vec3fSubtract (w.bodies (w.contacts p).m_pBodyA).m_StateT1.m_Velocity
      (w.bodies (w.contacts p).m_pBodyB).m_StateT1.m_Velocity) (w.contacts p).m_Normal < 0) :
    ∃ w', Resolve_Sphere___Sphere pm w p = Except.ok w'
      ∧ (w'.bodies (w.contacts p).m_pBodyA).m_StateT1.m_Velocity
        = Vec3fAdd (w.bodies (w.contacts p).m_pBodyA).m_StateT1.m_Velocity
          (Vec3fSetScaled ((w.bodies (w.contacts p).m_pBodyA).GetOOMass
            * Div pm (binary32 (kN1 - RESTITUTION_SphereSphere)
                * Vec3fDot (Vec3fSubtract (w.bodies (w.contacts p).m_pBodyA).m_StateT1.m_Velocity
                    (w.bodies (w.contacts p).m_pBodyB).m_StateT1.m_Velocity)
                  (w.contacts p).m_Normal)
              (((w.bodies (w.contacts p).m_pBodyA).GetOOMass
                + (w.bodies (w.contacts p).m_pBodyB).GetOOMass)
                * Vec3fDot (w.contacts p).m_Normal (w.contacts p).m_Normal))
            (w.contacts p).m_Normal)
      ∧ (w'.bodies (w.contacts p).m_pBodyB).m_StateT1.m_Velocity
        = Vec3fSubtract (w.bodies (w.contacts p).m_pBodyB).m_StateT1.m_Velocity
          (Vec3fSetScaled ((w.bodies (w.contacts p).m_pBodyB).GetOOMass
            * Div pm (binary32 (kN1 - RESTITUTION_SphereSphere)
                * Vec3fDot (Vec3fSubtract (w.bodies (w.contacts p).m_pBodyA).m_StateT1.m_Velocity
                    (w.bodies (w.contacts p).m_pBodyB).m_StateT1.m_Velocity)
                  (w.contacts p).m_Normal)
              (((w.bodies (w.contacts p).m_pBodyA).GetOOMass
                + (w.bodies (w.contacts p).m_pBodyB).GetOOMass)
                * Vec3fDot (w.contacts p).m_Normal (w.contacts p).m_Normal))
            (w.contacts p).m_Normal) := by
  have hz : Vec3fDot (Vec3fAdd (⟨0, 0, 0⟩ : Vec3f) ⟨0, 0, 0⟩) (w.contacts p).m_Normal = 0 := by
    simp [Vec3fDot, Vec3fAdd]
  have hden : Vec3fDot (w.contacts p).m_Normal
      (Vec3fSetScaled ((w.bodies (w.contacts p).m_pBodyA).GetOOMass
        + (w.bodies (w.contacts p).m_pBodyB).GetOOMass) (w.contacts p).m_Normal)
      = ((w.bodies (w.contacts p).m_pBodyA).GetOOMass
          + (w.bodies (w.contacts p).m_pBodyB).GetOOMass)
        * Vec3fDot (w.contacts p).m_Normal (w.contacts p).m_Normal := by
    simp only [Vec3fDot, Vec3fSetScaled]; ring
  simp only [Resolve_Sphere___Sphere, hA, hB, asSphere, bind, Except.bind, pure, Except.pure,
    sphereSphere_velNormal, k0, hv, if_true, inertia_term_zero, hz, add_zero, hden]
  refine ⟨_, rfl, ?_, ?_⟩
  · simp [hne, hne.symm, RigidBody.setT1Velocity, RigidBody.setT1AngularMomentum,
      Vec3fMultiplyAccumulate, Vec3fAdd, Vec3fSetScaled]
    refine ⟨?_, ?_, ?_⟩ <;> ring
  · simp [hne, hne.symm, RigidBody.setT1Velocity, RigidBody.setT1AngularMomentum,
      Vec3fAdd, Vec3fSubtract, Vec3fSetScaled]
    refine ⟨?_, ?_, ?_⟩ <;> ring

/-- The component along `n` of `v - s n`. -/
theorem Vec3fDot_sub_scaled (v n : Vec3f) (s : Real) :
    Vec3fDot (Vec3fSubtract v (Vec3fSetScaled s n)) n = Vec3fDot v n - s * Vec3fDot n n := by
  simp only [Vec3fDot, Vec3fSubtract, Vec3fSetScaled]
  ring

/-- Two multiples of `n` taken off `v` one after the other. -/
theorem Vec3fSubtract_scaled_twice (v n : Vec3f) (s t : Real) :
    Vec3fSubtract (Vec3fSubtract v (Vec3fSetScaled s n)) (Vec3fSetScaled t n)
      = Vec3fSubtract v (Vec3fSetScaled (s + t) n) := by
  simp only [Vec3fSubtract, Vec3fSetScaled]
  congr 1 <;> ring

/-- The relative velocity along `n` after opposite multiples of `n` are applied. -/
theorem Vec3fDot_relative_after (a b n : Vec3f) (s t : Real) :
    Vec3fDot (Vec3fSubtract (Vec3fAdd a (Vec3fSetScaled s n))
        (Vec3fSubtract b (Vec3fSetScaled t n))) n
      = Vec3fDot (Vec3fSubtract a b) n + (s + t) * Vec3fDot n n := by
  simp only [Vec3fDot, Vec3fSubtract, Vec3fAdd, Vec3fSetScaled]
  ring

/-- The swept branch of the plane-sphere test (lines 130-138), as the code writes it. -/
theorem Collide_InfPlane_Sphere_swept (c : Contact) (P S : RigidBody) (pl : Plane)
    (r d0 d1 : Real)
    (hP : P.m_pCollideGeo = CollideGeo.Plane pl) (hS : S.m_pCollideGeo = CollideGeo.Sphere r)
    (hd0 : pl.DistanceToPoint S.m_StateT0.m_Position = d0)
    (hd1 : pl.DistanceToPoint S.m_StateT1.m_Position = d1)
    (h0 : d0 > r) (h1 : d1 < r) :
    Collide_InfPlane_Sphere c P S = Except.ok (true, { c with
      m_Normal := pl.m_Normal,
      m_Position := Vec3fAdd (Vec3fScale S.m_StateT0.m_Position (k1 - (d0 - r) / (d0 - d1)))
        (Vec3fScale S.m_StateT1.m_Position ((d0 - r) / (d0 - d1))),
      m_ContactTime := (d0 - r) / (d0 - d1) }) := by
  have hab : ¬ Abs d0 ≤ r := by
    rw [Abs_eq_abs]
    intro h
    have := le_abs_self d0
    linarith
  simp only [Collide_InfPlane_Sphere, hP, hS, asPlane, asSphere, bind, Except.bind, pure,
    Except.pure, hd0, hd1, hab, if_false, h0, h1, and_self, if_true, gt_iff_lt]

/-- The contact time of the swept branch lies strictly between 0 and 1. -/
theorem swept_time_bounds (r d0 d1 : Real) (h0 : d0 > r) (h1 : d1 < r) :
    0 < (d0 - r) / (d0 - d1) ∧ (d0 - r) / (d0 - d1) < 1 := by
  have hd : 0 < d0 - d1 := by linarith
  constructor
  · exact div_pos (by linarith) hd
  · rw [div_lt_one hd]
    linarith

/-- The plane distance is affine: at the point `(1 - u) c0 + u c1` of the segment it is
`(1 - u) d0 + u d1`. -/
theorem DistanceToPoint_segment (pl : Plane) (c0 c1 : Vec3f) (u : Real) :
    pl.DistanceToPoint (Vec3fAdd (Vec3fScale c0 (k1 - u)) (Vec3fScale c1 u))
      = (1 - u) * pl.DistanceToPoint c0 + u * pl.DistanceToPoint c1 := by
  simp only [Plane.DistanceToPoint, Vec3fDot, Vec3fAdd, Vec3fScale, k1]
  ring

/-- The contact position of the swept branch lies at signed distance `r` from the plane. -/
theorem swept_position_distance (pl : Plane) (c0 c1 : Vec3f) (r d0 d1 : Real)
    (hd0 : pl.DistanceToPoint c0 = d0) (hd1 : pl.DistanceToPoint c1 = d1)
    (h0 : d0 > r) (h1 : d1 < r) :
    pl.DistanceToPoint (Vec3fAdd (Vec3fScale c0 (k1 - (d0 - r) / (d0 - d1)))
      (Vec3fScale c1 ((d0 - r) / (d0 - d1)))) = r := by
  have hd : d0 - d1 ≠ 0 := by
    have : 0 < d0 - d1 := by linarith
    exact ne_of_gt this
  rw [DistanceToPoint_segment, hd0, hd1]
  field_simp
  ring

/-- The plane-sphere impulse step, for a contact whose body B is a sphere: it returns, writes
no contact record and no position, and leaves the sphere with the velocity `v` it had unless
`v · n < 0`, and with `v + (OOMass * (-(1 + e) (v · n)) / OOMass) n` then. -/
theorem ResolveSphereVsPlane_velocity (pm : PMath) (w : World) (p : ContactPtr) (r : Real)
    (h : (w.bodies (w.contacts p).m_pBodyB).m_pCollideGeo = CollideGeo.Sphere r) :
    ∃ w1, _ResolveSphereVsPlane pm w p = Except.ok w1
      ∧ w1.contacts = w.contacts ∧ w1.m_FreePool = w.m_FreePool ∧ w1.m_Contacts = w.m_Contacts
      ∧ (∀ q, q ≠ (w.contacts p).m_pBodyB → w1.bodies q = w.bodies q)
      ∧ (w1.bodies (w.contacts p).m_pBodyB).m_StateT1.m_Position
        = (w.bodies (w.contacts p).m_pBodyB).m_StateT1.m_Position
      ∧ (w1.bodies (w.contacts p).m_pBodyB).m_StateT1.m_Velocity
        = if Vec3fDot (w.bodies (w.contacts p).m_pBodyB).m_StateT1.m_Velocity
              (w.contacts p).m_Normal < 0 then
            Vec3fAdd (w.bodies (w.contacts p).m_pBodyB).m_StateT1.m_Velocity (Vec3fSetScaled
              (Div pm ((w.bodies (w.contacts p).m_pBodyB).GetOOMass
                * (-(binary32 (1 + RESTITUTION_PlaneSphere))
                  * Vec3fDot (w.bodies (w.contacts p).m_pBodyB).m_StateT1.m_Velocity
                      (w.contacts p).m_Normal))
                (w.bodies (w.contacts p).m_pBodyB).GetOOMass)
              (w.contacts p).m_Normal)
          else (w.bodies (w.contacts p).m_pBodyB).m_StateT1.m_Velocity := by
  rw [ResolveSphereVsPlane_eq pm w p r h]
  split_ifs with hv hsp
  · refine ⟨_, rfl, rfl, rfl, rfl, ?_, ?_, ?_⟩
    · intro q hq
      simp [hq]
    · simp [RigidBody.setT1Velocity, RigidBody.setT1AngularMomentum]
    · simp [RigidBody.setT1Velocity, RigidBody.setT1AngularMomentum]
  · refine ⟨_, rfl, rfl, rfl, rfl, ?_, ?_, ?_⟩
    · intro q hq
      simp [hq]
    · simp [RigidBody.setT1Velocity]
    · simp [RigidBody.setT1Velocity]
  · exact ⟨_, rfl, rfl, rfl, rfl, fun _ _ => rfl, rfl, rfl⟩

/-- The plane-sphere resolver, for a contact whose body B is a sphere: with `w1` the memory
after the impulse step on the sphere snapped to the contact position, the sphere ends with
the velocity it has in `w1` and at the contact position plus the residual along the
normalised velocity; no other body and no contact record is written. -/
theorem Resolve_InfPlane_Sphere_position (pm : PMath) (w : World) (p : ContactPtr) (r : Real)
    (h : (w.bodies (w.contacts p).m_pBodyB).m_pCollideGeo = CollideGeo.Sphere r) :
    ∃ w1 w', _ResolveSphereVsPlane pm (w.modifyBody (w.contacts p).m_pBodyB
          (fun b => b.setT1Position (w.contacts p).m_Position)) p = Except.ok w1
      ∧ Resolve_InfPlane_Sphere pm w p = Except.ok w'
      ∧ w'.contacts = w.contacts ∧ w'.m_FreePool = w.m_FreePool ∧ w'.m_Contacts = w.m_Contacts
      ∧ (∀ q, q ≠ (w.contacts p).m_pBodyB → w'.bodies q = w.bodies q)
      ∧ (w1.bodies (w.contacts p).m_pBodyB).m_StateT1.m_Velocity
        = (if Vec3fDot (w.bodies (w.contacts p).m_pBodyB).m_StateT1.m_Velocity
              (w.contacts p).m_Normal < 0 then
            Vec3fAdd (w.bodies (w.contacts p).m_pBodyB).m_StateT1.m_Velocity (Vec3fSetScaled
              (Div pm ((w.bodies (w.contacts p).m_pBodyB).GetOOMass
                * (-(binary32 (1 + RESTITUTION_PlaneSphere))
                  * Vec3fDot (w.bodies (w.contacts p).m_pBodyB).m_StateT1.m_Velocity
                      (w.contacts p).m_Normal))
                (w.bodies (w.contacts p).m_pBodyB).GetOOMass)
              (w.contacts p).m_Normal)
          else (w.bodies (w.contacts p).m_pBodyB).m_StateT1.m_Velocity)
      ∧ (w'.bodies (w.contacts p).m_pBodyB).m_StateT1.m_Velocity
        = (w1.bodies (w.contacts p).m_pBodyB).m_StateT1.m_Velocity
      ∧ (w'.bodies (w.contacts p).m_pBodyB).m_StateT1.m_Position
        = Vec3fMultiplyAccumulate (w.contacts p).m_Position
          (Vec3fLength pm (Vec3fSubtract (w.bodies (w.contacts p).m_pBodyB).m_StateT1.m_Position
            (w.contacts p).m_Position))
          (Vec3fNormalize pm (w1.bodies (w.contacts p).m_pBodyB).m_StateT1.m_Velocity) := by
  obtain ⟨w1, e1, c1, f1, a1, o1, p1, v1⟩ := ResolveSphereVsPlane_velocity pm
    (w.modifyBody (w.contacts p).m_pBodyB (fun b => b.setT1Position (w.contacts p).m_Position))
    p r (by simp [RigidBody.setT1Position, h])
  simp only [modifyBody_contacts, modifyBody_bodies_same, modifyBody_FreePool,
    modifyBody_Contacts] at c1 f1 a1 o1 p1 v1
  have hv : (RigidBody.setT1Position (w.bodies (w.contacts p).m_pBodyB)
      (w.contacts p).m_Position).m_StateT1.m_Velocity
      = (w.bodies (w.contacts p).m_pBodyB).m_StateT1.m_Velocity := rfl
  have ho : (RigidBody.setT1Position (w.bodies (w.contacts p).m_pBodyB)
      (w.contacts p).m_Position).GetOOMass = (w.bodies (w.contacts p).m_pBodyB).GetOOMass := rfl
  have hp : (RigidBody.setT1Position (w.bodies (w.contacts p).m_pBodyB)
      (w.contacts p).m_Position).m_StateT1.m_Position = (w.contacts p).m_Position := rfl
  rw [hv, ho] at v1
  rw [hp] at p1
  refine ⟨w1, w1.modifyBody (w.contacts p).m_pBodyB (fun b => b.setT1Position
    (Vec3fMultiplyAccumulate b.m_StateT1.m_Position
      (Vec3fLength pm (Vec3fSubtract (w.bodies (w.contacts p).m_pBodyB).m_StateT1.m_Position
        (w.contacts p).m_Position))
      (Vec3fNormalize pm (w1.bodies (w.contacts p).m_pBodyB).m_StateT1.m_Velocity))),
    e1, ?_, ?_, ?_, ?_, ?_, v1, ?_, ?_⟩
  · simp only [Resolve_InfPlane_Sphere, bind, Except.bind, pure, Except.pure, e1]
  · simpa using c1
  · simpa using f1
  · simpa using a1
  · intro q hq
    simp only [modifyBody_bodies_ne _ _ _ _ hq]
    rw [o1 q hq]
    simp [hq]
  · simp [RigidBody.setT1Position]
  · simp [RigidBody.setT1Position, p1]

/-- In the swept quadratic, no relative motion (`a = 0`) means no linear term (`b = 0`). -/
theorem sweptQuadratic_b_zero (rA rB : Real) (A B : RigidBody)
    (h : (sweptQuadratic rA rB A B).1 = 0) : (sweptQuadratic rA rB A B).2.1 = 0 := by
  simp only [sweptQuadratic] at h ⊢
  obtain ⟨hx, hy, hz⟩ := Vec3fDot_self_eq_zero _ h
  simp only [Vec3fDot, hx, hy, hz, k2]
  ring

/-- The sphere-sphere resolver on a contact of two spheres returns and writes no contact
record. -/
theorem Resolve_Sphere___Sphere_contacts (pm : PMath) (w : World) (p : ContactPtr)
    (rA rB : Real)
    (hA : (w.bodies (w.contacts p).m_pBodyA).m_pCollideGeo = CollideGeo.Sphere rA)
    (hB : (w.bodies (w.contacts p).m_pBodyB).m_pCollideGeo = CollideGeo.Sphere rB) :
    ∃ w', Resolve_Sphere___Sphere pm w p = Except.ok w' ∧ w'.contacts = w.contacts := by
  simp only [Resolve_Sphere___Sphere, hA, hB, asSphere, bind, Except.bind, pure, Except.pure]
  split_ifs <;> exact ⟨_, rfl, rfl⟩

/-- Dispatch through the table of resolvers on the kinds of the two bodies of a contact
returns, and the record then names the same two bodies, in the same or in the other order. -/
theorem ResolveFunctions_refs (pm : PMath) (w : World) (p : ContactPtr) :
    ∃ w1, ResolveFunctions pm (w.bodies (w.contacts p).m_pBodyA).m_pCollideGeo.GetKind
        (w.bodies (w.contacts p).m_pBodyB).m_pCollideGeo.GetKind w p = Except.ok w1
      ∧ (((w1.contacts p).m_pBodyA = (w.contacts p).m_pBodyA
          ∧ (w1.contacts p).m_pBodyB = (w.contacts p).m_pBodyB)
        ∨ ((w1.contacts p).m_pBodyA = (w.contacts p).m_pBodyB
          ∧ (w1.contacts p).m_pBodyB = (w.contacts p).m_pBodyA)) := by
  cases hA : (w.bodies (w.contacts p).m_pBodyA).m_pCollideGeo with
  | Plane plA =>
    cases hB : (w.bodies (w.contacts p).m_pBodyB).m_pCollideGeo with
    | Plane plB =>
      simp only [CollideGeo.GetKind, ResolveFunctions]
      exact ⟨w, rfl, Or.inl ⟨rfl, rfl⟩⟩
    | Sphere rB =>
      simp only [CollideGeo.GetKind, ResolveFunctions]
      obtain ⟨_, w', _, e, hc, _⟩ := Resolve_InfPlane_Sphere_position pm w p rB hB
      exact ⟨w', e, Or.inl (by rw [hc]; exact ⟨rfl, rfl⟩)⟩
  | Sphere rA =>
    cases hB : (w.bodies (w.contacts p).m_pBodyB).m_pCollideGeo with
    | Plane plB =>
      simp only [CollideGeo.GetKind, ResolveFunctions]
      obtain ⟨_, w', _, e, hc, _⟩ := Resolve_InfPlane_Sphere_position pm
        (w.setContact p { w.contacts p with
          m_pBodyA := (w.contacts p).m_pBodyB, m_pBodyB := (w.contacts p).m_pBodyA,
          m_Normal := Vec3fNegate (w.contacts p).m_Normal }) p rA (by simp [hA])
      refine ⟨w', e, Or.inr ?_⟩
      rw [hc]
      simp
    | Sphere rB =>
      simp only [CollideGeo.GetKind, ResolveFunctions]
      obtain ⟨w', e, hc⟩ := Resolve_Sphere___Sphere_contacts pm w p rA rB hA hB
      exact ⟨w', e, Or.inl (by rw [hc]; exact ⟨rfl, rfl⟩)⟩

/-- After the two assignments of lines 508-509 the collided flag is set at both addresses. -/
theorem collided_marked (w : World) (a b q : BodyPtr) (hq : q = a ∨ q = b) :
    (((w.modifyBody a (fun x => { x with m_Collided := true })).modifyBody b
      (fun x => { x with m_Collided := true })).bodies q).m_Collided = true := by
  by_cases hb : q = b
  · rw [hb]
    simp
  · rcases hq with ha | hb'
    · rw [modifyBody_bodies_ne _ _ _ _ hb, ha]
      simp
    · exact absurd hb' hb

/-- The two assignments of lines 508-509 leave both time slices of every body as they are. -/
theorem collided_marked_T1 (w : World) (a b q : BodyPtr) :
    (((w.modifyBody a (fun x => { x with m_Collided := true })).modifyBody b
      (fun x => { x with m_Collided := true })).bodies q).m_StateT1 = (w.bodies q).m_StateT1 := by
  by_cases hb : q = b
  · rw [hb]
    by_cases ha : b = a
    · rw [ha]
      simp
    · simp [modifyBody_bodies_ne _ _ _ _ ha]
  · rw [modifyBody_bodies_ne _ _ _ _ hb]
    by_cases ha : q = a
    · rw [ha]
      simp
    · rw [modifyBody_bodies_ne _ _ _ _ ha]

/-- A vector that is not zero has a positive scalar product with itself. -/
theorem Vec3fDot_self_pos (v : Vec3f) (h : v ≠ ⟨0, 0, 0⟩) : 0 < Vec3fDot v v := by
  rcases lt_or_eq_of_le (Vec3fDot_self_nonneg v) with h1 | h1
  · exact h1
  · exfalso
    obtain ⟨hx, hy, hz⟩ := Vec3fDot_self_eq_zero v h1.symm
    apply h
    ext <;> assumption

/-- From a point at signed distance `r`, a step of length factor `t ≥ 0` along the normalised
`v` with `n · v ≥ 0` and positive length ends at signed distance at least `r`. -/
theorem distance_after_step (pm : PMath) (pl : Plane) (cpos v : Vec3f) (r t : Real)
    (hD : pl.DistanceToPoint cpos = r) (ht : 0 ≤ t) (hL : 0 < Vec3fLength pm v)
    (hnv : 0 ≤ Vec3fDot pl.m_Normal v) :
    r ≤ pl.DistanceToPoint (Vec3fMultiplyAccumulate cpos t (Vec3fNormalize pm v)) := by
  have hne : Vec3fLength pm v ≠ 0 := ne_of_gt hL
  have h : pl.DistanceToPoint (Vec3fMultiplyAccumulate cpos t (Vec3fNormalize pm v))
      = pl.DistanceToPoint cpos + t * (Vec3fDot pl.m_Normal v / Vec3fLength pm v) := by
    simp only [Plane.DistanceToPoint, Vec3fDot, Vec3fMultiplyAccumulate, Vec3fNormalize,
      Div_of_ne pm _ _ hne]
    field_simp
    ring
  rw [h, hD]
  have : 0 ≤ t * (Vec3fDot pl.m_Normal v / Vec3fLength pm v) :=
    mul_nonneg ht (div_nonneg hnv hL.le)
  linarith

/-- The square root of `pmExact` is not negative. -/
theorem pmExact_Sqrt_nonneg (x : Real) : 0 ≤ pmExact.Sqrt x :=
  Rat.sqrt_nonneg x

/-- The square root of `pmExact` is positive on positive arguments. -/
theorem pmExact_Sqrt_pos (x : Real) (hx : 0 < x) : 0 < pmExact.Sqrt x := by
  show 0 < Rat.sqrt x
  unfold Rat.sqrt
  rw [Rat.mkRat_eq_div]
  have hnum : 0 < x.num := Rat.num_pos.mpr hx
  have h1 : 0 < Int.sqrt x.num := by
    unfold Int.sqrt
    have : 0 < Nat.sqrt x.num.toNat := Nat.sqrt_pos.mpr (by omega)
    exact_mod_cast this
  have h2 : 0 < Nat.sqrt x.den := Nat.sqrt_pos.mpr x.den_pos
  apply div_pos
  · exact_mod_cast h1
  · exact_mod_cast h2

/-- In exact arithmetic, for a plane with unit normal and a sphere with positive inverse mass
and a T1 velocity that is not zero, with `d0 > r` and `d1 < r`, and a square root that is not
negative and is positive on positive arguments: `TestCollision(plane, sphere)` on a non-empty
free pool followed by `Resolve` of the contact returns, and the T1 position of the sphere
then has signed distance at least `r` from the plane. -/
theorem detectAndResolve_keeps_outside (pm : PMath) (w : World) (pP pS : BodyPtr)
    (pContact : ContactPtr) (rest : List ContactPtr) (pl : Plane) (S : RigidBody)
    (r d0 d1 : Real)
    (hpool : w.m_FreePool = pContact :: rest)
    (hP : (w.bodies pP).m_pCollideGeo = CollideGeo.Plane pl) (hS : w.bodies pS = S)
    (hgeo : S.m_pCollideGeo = CollideGeo.Sphere r)
    (hn : Vec3fDot pl.m_Normal pl.m_Normal = 1) (hm : 0 < S.GetOOMass)
    (hd0 : pl.DistanceToPoint S.m_StateT0.m_Position = d0)
    (hd1 : pl.DistanceToPoint S.m_StateT1.m_Position = d1)
    (h0 : d0 > r) (h1 : d1 < r) (hv : S.m_StateT1.m_Velocity ≠ ⟨0, 0, 0⟩)
    (hsq0 : ∀ x, 0 ≤ pm.Sqrt x) (hsq1 : ∀ x, 0 < x → 0 < pm.Sqrt x) :
    ∃ w', detectAndResolve pm w pP pS = Except.ok w'
      ∧ r ≤ pl.DistanceToPoint (w'.bodies pS).m_StateT1.m_Position := by
  subst hS
  have hnarrow : CollisionFunctions pm (w.bodies pP).m_pCollideGeo.GetKind
      (w.bodies pS).m_pCollideGeo.GetKind (w.contacts pContact) (w.bodies pP) (w.bodies pS)
      = Except.ok (true, { w.contacts pContact with
        m_Normal := pl.m_Normal,
        m_Position := Vec3fAdd
          (Vec3fScale (w.bodies pS).m_StateT0.m_Position (k1 - (d0 - r) / (d0 - d1)))
          (Vec3fScale (w.bodies pS).m_StateT1.m_Position ((d0 - r) / (d0 - d1))),
        m_ContactTime := (d0 - r) / (d0 - d1) }) := by
    rw [hP, hgeo]
    simp only [CollideGeo.GetKind, CollisionFunctions]
    exact Collide_InfPlane_Sphere_swept _ _ _ pl r d0 d1 hP hgeo hd0 hd1 h0 h1
  have hTC := TestCollision_cons pm w pP pS pContact rest true _ hpool hnarrow
  simp only [if_true] at hTC
  simp only [detectAndResolve, bind, Except.bind, hTC]
  -- the memory after detection
  obtain ⟨w1, hw1⟩ : ∃ w1 : World, w1 = { w with
      m_FreePool := rest, m_Contacts := w.m_Contacts ++ [pContact],
      contacts := Function.update w.contacts pContact
        { m_Position := Vec3fAdd
            (Vec3fScale (w.bodies pS).m_StateT0.m_Position (k1 - (d0 - r) / (d0 - d1)))
            (Vec3fScale (w.bodies pS).m_StateT1.m_Position ((d0 - r) / (d0 - d1))),
          m_Normal := pl.m_Normal, m_ContactTime := (d0 - r) / (d0 - d1),
          m_PenetrationDepth := (w.contacts pContact).m_PenetrationDepth,
          m_pBodyA := pP, m_pBodyB := pS } } := ⟨_, rfl⟩
  have hb1 : w1.bodies = w.bodies := by rw [hw1]
  have hcA : (w1.contacts pContact).m_pBodyA = pP := by rw [hw1]; simp
  have hcB : (w1.contacts pContact).m_pBodyB = pS := by rw [hw1]; simp
  have hcN : (w1.contacts pContact).m_Normal = pl.m_Normal := by rw [hw1]; simp
  have hcP : (w1.contacts pContact).m_Position = Vec3fAdd
      (Vec3fScale (w.bodies pS).m_StateT0.m_Position (k1 - (d0 - r) / (d0 - d1)))
      (Vec3fScale (w.bodies pS).m_StateT1.m_Position ((d0 - r) / (d0 - d1))) := by
    rw [hw1]; simp
  have hgoal : ∃ w', Resolve pm w1 pContact = Except.ok w'
      ∧ r ≤ pl.DistanceToPoint (w'.bodies pS).m_StateT1.m_Position := by
    have hgeo1 : (w1.bodies (w1.contacts pContact).m_pBodyB).m_pCollideGeo
        = CollideGeo.Sphere r := by rw [hcB, hb1]; exact hgeo
    obtain ⟨w2, w3, _, e3, hc3, _, _, _, hv2, _, hp3⟩ :=
      Resolve_InfPlane_Sphere_position pm w1 pContact r hgeo1
    rw [hcB, hb1, hcN] at hv2
    rw [hcB, hb1, hcP] at hp3
    refine ⟨(w3.modifyBody (w3.contacts pContact).m_pBodyA
        (fun x => { x with m_Collided := true })).modifyBody (w3.contacts pContact).m_pBodyB
        (fun x => { x with m_Collided := true }), ?_, ?_⟩
    · simp only [Resolve, bind, Except.bind, pure, Except.pure, hcA, hcB, hb1, hP, hgeo,
        CollideGeo.GetKind, ResolveFunctions, e3, modifyBody_contacts]
    · rw [collided_marked_T1, hp3]
      have hoo : (w.bodies pS).GetOOMass ≠ 0 := ne_of_gt hm
      have hnv : 0 ≤ Vec3fDot pl.m_Normal (w2.bodies pS).m_StateT1.m_Velocity
          ∧ (w2.bodies pS).m_StateT1.m_Velocity ≠ ⟨0, 0, 0⟩ := by
        rw [hv2]
        split_ifs with happ
        · rw [Div_of_ne pm _ _ hoo, mul_div_cancel_left₀ _ hoo]
          have hdot : Vec3fDot pl.m_Normal (Vec3fAdd (w.bodies pS).m_StateT1.m_Velocity
              (Vec3fSetScaled (-(binary32 (1 + RESTITUTION_PlaneSphere))
                * Vec3fDot (w.bodies pS).m_StateT1.m_Velocity pl.m_Normal) pl.m_Normal))
              = -(5033165 / 8388608)
                * Vec3fDot (w.bodies pS).m_StateT1.m_Velocity pl.m_Normal := by
            have h2 : Vec3fDot pl.m_Normal (Vec3fAdd (w.bodies pS).m_StateT1.m_Velocity
                (Vec3fSetScaled (-(binary32 (1 + RESTITUTION_PlaneSphere))
                  * Vec3fDot (w.bodies pS).m_StateT1.m_Velocity pl.m_Normal) pl.m_Normal))
                = Vec3fDot (w.bodies pS).m_StateT1.m_Velocity pl.m_Normal
                  + (-(binary32 (1 + RESTITUTION_PlaneSphere))
                    * Vec3fDot (w.bodies pS).m_StateT1.m_Velocity pl.m_Normal)
                    * Vec3fDot pl.m_Normal pl.m_Normal := by
              simp only [Vec3fDot, Vec3fAdd, Vec3fSetScaled]
              ring
            rw [h2, hn, binary32_one_add_RESTITUTION]
            ring
          constructor
          · rw [hdot]
            linarith
          · intro hzero
            have hz0 : Vec3fDot pl.m_Normal (⟨0, 0, 0⟩ : Vec3f) = 0 := by
              simp [Vec3fDot]
            rw [hzero, hz0] at hdot
            linarith
        · constructor
          · have hcomm : Vec3fDot pl.m_Normal (w.bodies pS).m_StateT1.m_Velocity
                = Vec3fDot (w.bodies pS).m_StateT1.m_Velocity pl.m_Normal := by
              simp only [Vec3fDot]
              ring
            rw [hcomm]
            exact not_lt.mp happ
          · exact hv
      exact distance_after_step pm pl _ _ r _
        (swept_position_distance pl _ _ r d0 d1 hd0 hd1 h0 h1) (hsq0 _)
        (hsq1 _ (Vec3fDot_self_pos _ hnv.2)) hnv.1
  rw [hw1] at hgoal
  exact hgoal

/-- Evaluation of `binary32Sqrt` at an argument whose root is rounded down (or is exact):
with `4^e ≤ x < 4^(e+1)` and `m^2 ≤ x / 4^(e-23) < (m + 1/2)^2` the value is `m 2^(e-23)`. -/
theorem binary32Sqrt_eq (x : ℚ) (e : ℤ) (m : ℕ) (hlo : (4 : ℚ) ^ e ≤ x)
    (hhi : x < (4 : ℚ) ^ (e + 1)) (hm1 : (m : ℚ) ^ 2 ≤ x / 4 ^ (e - 23))
    (hm2 : x / 4 ^ (e - 23) < ((m : ℚ) + 1 / 2) ^ 2) :
    binary32Sqrt x = m * 2 ^ (e - 23) := by
  have hpos : 0 < x := lt_of_lt_of_le (by positivity) hlo
  have h4 : ∀ k : ℤ, (4 : ℚ) ^ k = (2 : ℚ) ^ (2 * k) := by
    intro k
    rw [zpow_mul]
    norm_num
  have hlog : Int.log 2 x / 2 = e := by
    have h1 : 2 * e ≤ Int.log 2 x := by
      rw [← Int.zpow_le_iff_le_log (by norm_num) hpos]
      rw [h4] at hlo
      exact_mod_cast hlo
    have h2 : Int.log 2 x < 2 * (e + 1) := by
      rw [← Int.lt_zpow_iff_log_lt (by norm_num) hpos]
      rw [h4] at hhi
      exact_mod_cast hhi
    omega
  have hy0 : 0 ≤ x / 4 ^ (e - 23) := le_trans (by positivity) hm1
  have hfl : Nat.sqrt ⌊x / 4 ^ (e - 23)⌋₊ = m := by
    symm
    rw [Nat.eq_sqrt]
    constructor
    · apply Nat.le_floor
      push_cast
      rw [← sq]
      exact hm1
    · have h3 : ((⌊x / 4 ^ (e - 23)⌋₊ : ℕ) : ℚ) < (((m + 1) * (m + 1) : ℕ) : ℚ) := by
        have hle : ((⌊x / 4 ^ (e - 23)⌋₊ : ℕ) : ℚ) ≤ x / 4 ^ (e - 23) := Nat.floor_le hy0
        push_cast
        nlinarith
      exact_mod_cast h3
  unfold binary32Sqrt
  rw [if_neg (not_le.mpr hpos)]
  simp only [hlog, hfl]
  rw [if_pos (by exact_mod_cast hm2)]
  push_cast
  ring

/-- The binary32 square root of `(33/16)^2 + 2^-21`, about 4.25390673, is `33/16`: the exact
root lies below the midpoint `33/16 + 2^-23` of `33/16` and the next binary32 value. -/
theorem pmBinary32_Sqrt_endGraze : pmBinary32.Sqrt (8921089 / 2097152) = 33 / 16 := by
  show binary32Sqrt (8921089 / 2097152) = 33 / 16
  rw [binary32Sqrt_eq (8921089 / 2097152) 1 8650752 (by norm_num) (by norm_num)
    (by norm_num) (by norm_num)]
  norm_num

/-- Zero is a binary32 value. -/
theorem binary32_zero : binary32 0 = 0 := by
  simp [binary32]

/-- Two is a binary32 value. -/
theorem binary32_two : binary32 2 = 2 := by
  rw [binary32_eq 2 1 8388608 (by norm_num [abs_of_pos]) (by norm_num [abs_of_pos])
    (roundEven_eq _ _ (by norm_num))]
  norm_num

/-- Three is a binary32 value. -/
theorem binary32_three : binary32 3 = 3 := by
  rw [binary32_eq 3 1 12582912 (by norm_num [abs_of_pos]) (by norm_num [abs_of_pos])
    (roundEven_eq _ _ (by norm_num))]
  norm_num

/-- The binary32 value of `2 / 3` is `11184811 / 2^24`, about 0.666666687. -/
theorem binary32_two_thirds : binary32 (2 / 3) = 11184811 / 16777216 := by
  rw [binary32_eq (2 / 3) (-1) 11184811 (by norm_num [abs_of_pos]) (by norm_num [abs_of_pos])
    (roundEven_eq _ _ (by norm_num [abs_lt]))]
  norm_num

/-- The difference `1 - 11184811 / 2^24` is a binary32 value, about 0.333333313. -/
theorem binary32_one_third_below : binary32 (5592405 / 16777216) = 5592405 / 16777216 := by
  rw [binary32_eq (5592405 / 16777216) (-2) 11184810 (by norm_num [abs_of_pos])
    (by norm_num [abs_of_pos]) (roundEven_eq _ _ (by norm_num))]
  norm_num

/-- The product `3 * (5592405 / 2^24)` is a binary32 value, the one just below 1. -/
theorem binary32_below_one : binary32 (16777215 / 16777216) = 16777215 / 16777216 := by
  rw [binary32_eq (16777215 / 16777216) (-1) 16777215 (by norm_num [abs_of_pos])
    (by norm_num [abs_of_pos]) (roundEven_eq _ _ (by norm_num))]
  norm_num

/-! ## The claims -/

/-- C1 (the code departs from it). With an empty free pool `TestCollision` does not refuse the
test: after the log line it goes on to `m_FreePool.front()` and `pop_front()` on the empty
pool, so the call takes a record that does not exist instead of returning null with the free
pool and the active list unchanged. This holds for every memory and every pair of bodies. -/
theorem C1_TestCollision_empty_pool_takes_front (pm : PMath) (w : World)
    (pBodyA pBodyB : BodyPtr) :
    TestCollision pm { w with m_FreePool := [] } pBodyA pBodyB = Except.error Fault.emptyFront
      ∧ TestCollision pm { w with m_FreePool := [] } pBodyA pBodyB
        ≠ Except.ok (none, { w with m_FreePool := [] }) := by
  constructor
  · rfl
  · intro h
    cases h

/-- C2. With a non-empty free pool whose front is `pContact`, `TestCollision(A, B)` returns
(it meets no fault) and: when the narrow-phase test for the kinds of A and B succeeds, it
returns `pContact`, the free pool becomes its tail, the active list gets `pContact` appended
as last element, and the record holds what the test wrote with body references A and B in
that order; when the test fails, it returns null, the active list is unchanged and the record
goes back into the free pool (at its back). No body and no other record is written. -/
theorem C2_TestCollision_contract (pm : PMath) (w : World) (pBodyA pBodyB : BodyPtr)
    (pContact : ContactPtr) (rest : List ContactPtr) (hit : Bool) (c : Contact)
    (hpool : w.m_FreePool = pContact :: rest)
    (hnarrow : CollisionFunctions pm (w.bodies pBodyA).m_pCollideGeo.GetKind
      (w.bodies pBodyB).m_pCollideGeo.GetKind (w.contacts pContact) (w.bodies pBodyA)
      (w.bodies pBodyB) = Except.ok (hit, c)) :
    ∃ w', TestCollision pm w pBodyA pBodyB
        = Except.ok (if hit then some pContact else none, w')
      ∧ w'.bodies = w.bodies
      ∧ (∀ q, q ≠ pContact → w'.contacts q = w.contacts q)
      ∧ (hit = true →
          w'.m_FreePool = rest ∧ w'.m_Contacts = w.m_Contacts ++ [pContact]
          ∧ w'.contacts pContact = { c with m_pBodyA := pBodyA, m_pBodyB := pBodyB })
      ∧ (hit = false →
          w'.m_Contacts = w.m_Contacts ∧ w'.m_FreePool = rest ++ [pContact]
          ∧ w'.contacts pContact = c) := by
  rw [TestCollision_cons pm w pBodyA pBodyB pContact rest hit c hpool hnarrow]
  cases hit
  · refine ⟨_, rfl, rfl, ?_, ?_, ?_⟩
    · intro q hq
      simp [Function.update_noteq hq]
    · intro h
      cases h
    · intro _
      simp
  · refine ⟨_, rfl, rfl, ?_, ?_, ?_⟩
    · intro q hq
      simp [Function.update_noteq hq]
    · intro _
      simp
    · intro h
      cases h

/-- C2, at a concrete input: the ground plane at address 0, a unit sphere at address 1 that
falls from height 2 to height 0 during the step, free pool `[5, 6]`, active list `[4]`. -/
theorem C2_TestCollision_contract_witness :
    ∃ w', TestCollision pmExact
        (sampleWorld (staticBody (CollideGeo.Plane groundPlane) vzero)
          (movingSphere 1 ⟨0, 0, 2⟩ ⟨0, 0, 0⟩) [5, 6] [4]) 0 1 = Except.ok (some 5, w')
      ∧ w'.m_FreePool = [6] ∧ w'.m_Contacts = [4, 5]
      ∧ w'.contacts 5 = { blankContact with
          m_Normal := ⟨0, 0, 1⟩, m_Position := ⟨0, 0, 1⟩, m_ContactTime := 1 / 2,
          m_pBodyA := 0, m_pBodyB := 1 } := by
  obtain ⟨w', h, _, _, hs, _⟩ := C2_TestCollision_contract pmExact
    (sampleWorld (staticBody (CollideGeo.Plane groundPlane) vzero)
      (movingSphere 1 ⟨0, 0, 2⟩ ⟨0, 0, 0⟩) [5, 6] [4]) 0 1 5 [6] true
    { blankContact with m_Normal := ⟨0, 0, 1⟩, m_Position := ⟨0, 0, 1⟩, m_ContactTime := 1 / 2 }
    rfl
    (by norm_num [CollisionFunctions, sampleWorld, staticBody, movingSphere, groundPlane,
      CollideGeo.GetKind, Collide_InfPlane_Sphere, asPlane, asSphere, bind, Except.bind, pure,
      Except.pure, Plane.DistanceToPoint, Vec3fDot, restAt, Abs, k0, k1, Vec3fScale, Vec3fAdd,
      blankContact, vzero])
  obtain ⟨h1, h2, h3⟩ := hs rfl
  exact ⟨w', h, h1, h2, h3⟩

/-- C3. For every memory and every sequence of `Begin`, `TestCollision`, `Resolve` and `End`
calls, the sequence either runs to its end, and then the number of contact records (size of
the free pool plus size of the active list) is what it was before, or it stops at a
`TestCollision` that was called with an empty free pool. -/
theorem C3_contact_total_invariant (pm : PMath) (w : World) (calls : List Call) :
    match runCalls pm w calls with
    | Except.ok w' =>
      w'.m_FreePool.length + w'.m_Contacts.length = w.m_FreePool.length + w.m_Contacts.length
    | Except.error f => f = Fault.emptyFront := by
  induction calls generalizing w with
  | nil => simp [runCalls]
  | cons call rest ih =>
    have h1 := Call_run_total pm w call
    simp only [runCalls, bind, Except.bind]
    cases hc : call.run pm w with
    | error f =>
      rw [hc] at h1
      simpa using h1
    | ok w1 =>
      rw [hc] at h1
      have h2 := ih w1
      simp only at h1 ⊢
      cases hr : runCalls pm w1 rest with
      | error f =>
        rw [hr] at h2
        simpa using h2
      | ok w2 =>
        rw [hr] at h2
        simp only at h2 ⊢
        omega

/-- C4. After `Engine::End` the active list is empty and the free pool is the old free pool
followed by the old active list taken from its back to its front; so the free pool holds
exactly the records that were free or active before, each as often as before, and nothing
else in memory changes. -/
theorem C4_End_returns_all_contacts (w : World) :
    (End w).m_Contacts = []
      ∧ (End w).m_FreePool = w.m_FreePool ++ w.m_Contacts.reverse
      ∧ List.Perm (End w).m_FreePool (w.m_FreePool ++ w.m_Contacts)
      ∧ (End w).bodies = w.bodies ∧ (End w).contacts = w.contacts := by
  have h := End_loop_eq w.m_Contacts w.m_FreePool
  refine ⟨?_, ?_, ?_, rfl, rfl⟩
  · simp [End, h]
  · simp [End, h]
  · simp only [End, h]
    exact List.Perm.append_left _ (List.reverse_perm _)

/-- C5. For two bodies that are both immovable (neither translatable nor spinnable), in
particular two such planes, `Collide_InfPlane_InfPlane` returns the negation of
`Vec3fEqual(extent A, extent B, kEps)`: a collision exactly when the extents are not equal
within `kEps`. The contact record is not written. -/
theorem C5_planes_immovable_extents (pm : PMath) (c : Contact) (A B : RigidBody)
    (hAt : A.GetTranslatable = false) (hAs : A.GetSpinnable = false)
    (hBt : B.GetTranslatable = false) (hBs : B.GetSpinnable = false) :
    Collide_InfPlane_InfPlane pm c A B
        = Except.ok (!pm.Vec3fEqual A.m_Extent B.m_Extent pm.kEps, c)
      ∧ (Collide_InfPlane_InfPlane pm c A B = Except.ok (true, c)
          ↔ pm.Vec3fEqual A.m_Extent B.m_Extent pm.kEps = false) := by
  have h : Collide_InfPlane_InfPlane pm c A B
      = Except.ok (!pm.Vec3fEqual A.m_Extent B.m_Extent pm.kEps, c) := by
    simp [Collide_InfPlane_InfPlane, hAt, hAs, hBt, hBs]
  refine ⟨h, ?_⟩
  rw [h]
  cases pm.Vec3fEqual A.m_Extent B.m_Extent pm.kEps <;> simp

/-- C5, at concrete inputs: two immovable planes with the same extent do not collide, two
with extents `(1, 1, 1)` and `(1, 1, 2)` do. -/
theorem C5_planes_immovable_extents_witness :
    Collide_InfPlane_InfPlane pmExact blankContact
        (staticBody (CollideGeo.Plane groundPlane) ⟨1, 1, 1⟩)
        (staticBody (CollideGeo.Plane groundPlane) ⟨1, 1, 1⟩) = Except.ok (false, blankContact)
      ∧ Collide_InfPlane_InfPlane pmExact blankContact
        (staticBody (CollideGeo.Plane groundPlane) ⟨1, 1, 1⟩)
        (staticBody (CollideGeo.Plane groundPlane) ⟨1, 1, 2⟩) = Except.ok (true, blankContact) := by
  constructor
  · rw [(C5_planes_immovable_extents pmExact blankContact
      (staticBody (CollideGeo.Plane groundPlane) ⟨1, 1, 1⟩)
      (staticBody (CollideGeo.Plane groundPlane) ⟨1, 1, 1⟩) rfl rfl rfl rfl).1]
    norm_num [pmExact, staticBody, Abs]
  · rw [(C5_planes_immovable_extents pmExact blankContact
      (staticBody (CollideGeo.Plane groundPlane) ⟨1, 1, 1⟩)
      (staticBody (CollideGeo.Plane groundPlane) ⟨1, 1, 2⟩) rfl rfl rfl rfl).1]
    norm_num [pmExact, staticBody, Abs]

/-- C6 (the code departs from it). The branch that always reports a collision is taken only
when all four flags are set. Whenever one of the four flags is clear, also when a body can
move, the result is the comparison of the extents; so a translatable, non-spinnable plane and
an immovable plane with the same extent `e` are reported as not colliding as soon as
`Vec3fEqual(e, e, kEps)` holds, as for `e = (1, 1, 1)` below. -/
theorem C6_movable_plane_not_reported :
    (∀ (pm : PMath) (c : Contact) (e : Vec3f),
      Collide_InfPlane_InfPlane pm c
        { staticBody (CollideGeo.Plane groundPlane) e with GetTranslatable := true }
        (staticBody (CollideGeo.Plane groundPlane) e)
        = Except.ok (!pm.Vec3fEqual e e pm.kEps, c))
      ∧ Collide_InfPlane_InfPlane pmExact blankContact
        { staticBody (CollideGeo.Plane groundPlane) ⟨1, 1, 1⟩ with GetTranslatable := true }
        (staticBody (CollideGeo.Plane groundPlane) ⟨1, 1, 1⟩)
        = Except.ok (false, blankContact) := by
  constructor
  · intro pm c e
    simp [Collide_InfPlane_InfPlane, staticBody]
  · norm_num [Collide_InfPlane_InfPlane, pmExact, staticBody, Abs]

/-- C7. For a plane body and a sphere body of radius `r` whose centre has signed distance
`d0 > r` at T0 and `d1 < r` at T1, `Collide_InfPlane_Sphere` returns true and leaves in the
contact record the contact time `u = (d0 - r) / (d0 - d1)`, the position
`(1 - u) * c0 + u * c1` and the normal of the plane; the other fields keep their values. -/
theorem C7_plane_sphere_swept (c : Contact) (P S : RigidBody) (pl : Plane) (r d0 d1 : Real)
    (hP : P.m_pCollideGeo = CollideGeo.Plane pl) (hS : S.m_pCollideGeo = CollideGeo.Sphere r)
    (hd0 : pl.DistanceToPoint S.m_StateT0.m_Position = d0)
    (hd1 : pl.DistanceToPoint S.m_StateT1.m_Position = d1)
    (h0 : d0 > r) (h1 : d1 < r) :
    Collide_InfPlane_Sphere c P S = Except.ok (true, { c with
      m_ContactTime := (d0 - r) / (d0 - d1),
      m_Position := Vec3fAdd
        (Vec3fSetScaled (1 - (d0 - r) / (d0 - d1)) S.m_StateT0.m_Position)
        (Vec3fSetScaled ((d0 - r) / (d0 - d1)) S.m_StateT1.m_Position),
      m_Normal := pl.m_Normal }) := by
  have hab : ¬ Abs d0 ≤ r := by
    rw [Abs_eq_abs]
    intro h
    have := le_abs_self d0
    linarith
  simp only [Collide_InfPlane_Sphere, hP, hS, asPlane, asSphere, bind, Except.bind, pure,
    Except.pure, hd0, hd1, hab, if_false, h0, h1, and_self, if_true, gt_iff_lt]
  simp [Vec3fAdd, Vec3fScale, Vec3fSetScaled, k1, mul_comm]

/-- C7, at a concrete input: a unit sphere falling from height 2 to height 0 over the ground
plane touches it at `u = 1/2` with its centre at height 1. -/
theorem C7_plane_sphere_swept_witness :
    Collide_InfPlane_Sphere blankContact (staticBody (CollideGeo.Plane groundPlane) vzero)
        (movingSphere 1 ⟨0, 0, 2⟩ ⟨0, 0, 0⟩)
      = Except.ok (true, { blankContact with
          m_ContactTime := 1 / 2, m_Position := ⟨0, 0, 1⟩, m_Normal := ⟨0, 0, 1⟩ }) := by
  rw [C7_plane_sphere_swept blankContact (staticBody (CollideGeo.Plane groundPlane) vzero)
    (movingSphere 1 ⟨0, 0, 2⟩ ⟨0, 0, 0⟩) groundPlane 1 2 0 rfl rfl
    (by norm_num [Plane.DistanceToPoint, Vec3fDot, groundPlane, movingSphere, restAt])
    (by norm_num [Plane.DistanceToPoint, Vec3fDot, groundPlane, movingSphere, restAt])
    (by norm_num) (by norm_num)]
  norm_num [Vec3fAdd, Vec3fSetScaled, movingSphere, restAt, groundPlane, blankContact]

/-- C8. For a plane body and a sphere body of radius `r` whose T0 centre has signed distance
`d0` with `|d0| ≤ r`, `Collide_InfPlane_Sphere` returns true, sets the contact time to 0 and
the normal to the normal of the plane, whatever the T1 state of the sphere is. The position
and the other fields of the record keep the values they had. -/
theorem C8_plane_sphere_immediate (c : Contact) (P S : RigidBody) (pl : Plane) (r d0 : Real)
    (hP : P.m_pCollideGeo = CollideGeo.Plane pl) (hS : S.m_pCollideGeo = CollideGeo.Sphere r)
    (hd0 : pl.DistanceToPoint S.m_StateT0.m_Position = d0) (h : |d0| ≤ r) (st1 : State) :
    Collide_InfPlane_Sphere c P { S with m_StateT1 := st1 }
      = Except.ok (true, { c with m_Normal := pl.m_Normal, m_ContactTime := 0 }) := by
  have hab : Abs d0 ≤ r := by
    rw [Abs_eq_abs]
    exact h
  simp only [Collide_InfPlane_Sphere, hP, hS, asPlane, asSphere, bind, Except.bind, pure,
    Except.pure, hd0, hab, if_true, k0]

/-- C8, at a concrete input: a unit sphere whose centre is at height 1/2 over the ground plane
at T0, whether it then moves up to height 5 or stays. -/
theorem C8_plane_sphere_immediate_witness :
    Collide_InfPlane_Sphere blankContact (staticBody (CollideGeo.Plane groundPlane) vzero)
        { movingSphere 1 ⟨0, 0, 1 / 2⟩ ⟨0, 0, 1 / 2⟩ with m_StateT1 := restAt ⟨0, 0, 5⟩ }
      = Except.ok (true, { blankContact with m_Normal := ⟨0, 0, 1⟩, m_ContactTime := 0 }) :=
  C8_plane_sphere_immediate blankContact (staticBody (CollideGeo.Plane groundPlane) vzero)
    (movingSphere 1 ⟨0, 0, 1 / 2⟩ ⟨0, 0, 1 / 2⟩) groundPlane 1 (1 / 2) rfl rfl
    (by norm_num [Plane.DistanceToPoint, Vec3fDot, groundPlane, movingSphere, restAt])
    (by norm_num [abs_le]) (restAt ⟨0, 0, 5⟩)

/-- C9. For a plane body and a sphere body of radius `r` with signed distances `d0` at T0 and
`d1` at T1 that satisfy neither `|d0| ≤ r` nor (`d0 > r` and `d1 < r`),
`Collide_InfPlane_Sphere` returns false and leaves the contact record as it was. -/
theorem C9_plane_sphere_no_collision (c : Contact) (P S : RigidBody) (pl : Plane)
    (r d0 d1 : Real)
    (hP : P.m_pCollideGeo = CollideGeo.Plane pl) (hS : S.m_pCollideGeo = CollideGeo.Sphere r)
    (hd0 : pl.DistanceToPoint S.m_StateT0.m_Position = d0)
    (hd1 : pl.DistanceToPoint S.m_StateT1.m_Position = d1)
    (hn0 : ¬ |d0| ≤ r) (hn1 : ¬ (d0 > r ∧ d1 < r)) :
    Collide_InfPlane_Sphere c P S = Except.ok (false, c) := by
  have hab : ¬ Abs d0 ≤ r := by
    rw [Abs_eq_abs]
    exact hn0
  simp only [Collide_InfPlane_Sphere, hP, hS, asPlane, asSphere, bind, Except.bind, pure,
    Except.pure, hd0, hd1, hab, if_false, hn1]

/-- C9, at two concrete inputs over the ground plane: a unit sphere that starts at height -3,
more than one radius behind the plane, and moves to height 0; and a unit sphere that starts at
height 3 and ends at height 1, exactly one radius away. -/
theorem C9_plane_sphere_no_collision_witness :
    Collide_InfPlane_Sphere blankContact (staticBody (CollideGeo.Plane groundPlane) vzero)
        (movingSphere 1 ⟨0, 0, -3⟩ ⟨0, 0, 0⟩) = Except.ok (false, blankContact)
      ∧ Collide_InfPlane_Sphere blankContact (staticBody (CollideGeo.Plane groundPlane) vzero)
        (movingSphere 1 ⟨0, 0, 3⟩ ⟨0, 0, 1⟩) = Except.ok (false, blankContact) :=
  ⟨C9_plane_sphere_no_collision blankContact (staticBody (CollideGeo.Plane groundPlane) vzero)
      (movingSphere 1 ⟨0, 0, -3⟩ ⟨0, 0, 0⟩) groundPlane 1 (-3) 0 rfl rfl
      (by norm_num [Plane.DistanceToPoint, Vec3fDot, groundPlane, movingSphere, restAt])
      (by norm_num [Plane.DistanceToPoint, Vec3fDot, groundPlane, movingSphere, restAt])
      (by norm_num [abs_le]) (by norm_num),
    C9_plane_sphere_no_collision blankContact (staticBody (CollideGeo.Plane groundPlane) vzero)
      (movingSphere 1 ⟨0, 0, 3⟩ ⟨0, 0, 1⟩) groundPlane 1 3 1 rfl rfl
      (by norm_num [Plane.DistanceToPoint, Vec3fDot, groundPlane, movingSphere, restAt])
      (by norm_num [Plane.DistanceToPoint, Vec3fDot, groundPlane, movingSphere, restAt])
      (by norm_num [abs_le]) (by norm_num)⟩

/-- C10 as stated fails. For the pair `farSphereA`, `farSphereB` the swept quadratic is
`u^2 - 5 u + 6` (so `c = 6 > 0`), with real roots `u0 = 2 ≤ u1 = 3`, and `u0` lies in
`(0, u1]`; yet `Collide_Sphere___Sphere` reports no collision. -/
theorem C10_counterexample :
    sweptQuadratic (1 / 4) (1 / 4) farSphereA farSphereB = (1, -5, 6)
      ∧ (0 : Real) < 6
      ∧ (1 : Real) * 2 ^ 2 + (-5) * 2 + 6 = 0 ∧ (1 : Real) * 3 ^ 2 + (-5) * 3 + 6 = 0
      ∧ (2 : Real) ≤ 3 ∧ ((0 : Real) < 2 ∧ (2 : Real) ≤ 3)
      ∧ Collide_Sphere___Sphere pmExact blankContact farSphereA farSphereB
          = Except.ok (false, blankContact) := by
  have habc : sweptQuadratic (1 / 4) (1 / 4) farSphereA farSphereB = (1, -5, 6) := by
    norm_num [sweptQuadratic, farSphereA, farSphereB, movingSphere, restAt, vzero,
      Vec3fSubtract, Vec3fDot, k2]
  have hq : ((-5 : Real) * (-5) - 4 * 1 * 6) = 1 := by norm_num
  have hhit : sphereSphereHit pmExact 1 (-5) 6 = false := by
    rw [sphereSphereHit_roots pmExact 1 (-5) 6 2 3 (by norm_num) (by norm_num) (by norm_num)
      (by norm_num) (by norm_num) (by rw [hq, pmExact_Sqrt_one]; norm_num)
      (by rw [hq, pmExact_Sqrt_one]; norm_num)]
    norm_num
  refine ⟨habc, by norm_num, by norm_num, by norm_num, by norm_num, by norm_num, ?_⟩
  rw [Collide_Sphere___Sphere_eq pmExact blankContact farSphereA farSphereB (1 / 4) (1 / 4)
    1 (-5) 6 rfl rfl habc, hhit]
  rfl

/-- C10 (amended). For two sphere bodies apart at T0 (`c > 0`) whose swept quadratic
`a u^2 + b u + c` is `a (u - u0) (u - u1)` with real roots `u0 ≤ u1`, and an exact square root
of the discriminant: `Collide_Sphere___Sphere` reports a collision, writing the normalised
difference of the T1 positions as normal, if `u0` lies in `(0, 1)` or `u1` lies in `(0, 1)`;
and when the roots are distinct it reports one only if `u0` lies in `(0, 1)`. -/
theorem C10_sphere_sphere_swept (pm : PMath) (c : Contact) (A B : RigidBody)
    (rA rB a b cc u0 u1 : Real)
    (hA : A.m_pCollideGeo = CollideGeo.Sphere rA) (hB : B.m_pCollideGeo = CollideGeo.Sphere rB)
    (habc : sweptQuadratic rA rB A B = (a, b, cc)) (hc0 : 0 < cc)
    (hb : b = -a * (u0 + u1)) (hc : cc = a * u0 * u1) (hle : u0 ≤ u1)
    (hs0 : 0 ≤ pm.Sqrt (b * b - 4 * a * cc))
    (hs1 : pm.Sqrt (b * b - 4 * a * cc) * pm.Sqrt (b * b - 4 * a * cc) = b * b - 4 * a * cc) :
    ((0 < u0 ∧ u0 < 1) ∨ (0 < u1 ∧ u1 < 1) →
        Collide_Sphere___Sphere pm c A B = Except.ok (true, { c with
          m_Normal := (Vec3fNormalize pm
            (Vec3fSubtract A.m_StateT1.m_Position B.m_StateT1.m_Position)) }))
      ∧ (u0 < u1 → ¬ (0 < u0 ∧ u0 < 1) →
        Collide_Sphere___Sphere pm c A B = Except.ok (false, c)) := by
  have ha : 0 ≤ a := by
    have h := sweptQuadratic_a_nonneg rA rB A B
    rw [habc] at h
    exact h
  have hhit := sphereSphereHit_roots pm a b cc u0 u1 ha hc0 hb hc hle hs0 hs1
  have hapos : 0 < a := by
    rcases lt_or_eq_of_le ha with h | h
    · exact h
    · rw [← h] at hc
      simp at hc
      linarith
  have hprod : 0 < u0 * u1 := by
    have h1 : 0 < a * (u0 * u1) := by
      rw [← mul_assoc, ← hc]; exact hc0
    by_contra hneg
    push_neg at hneg
    nlinarith
  rw [Collide_Sphere___Sphere_eq pm c A B rA rB a b cc hA hB habc, hhit]
  constructor
  · intro h
    have h0 : 0 < u0 ∧ u0 < 1 := by
      rcases h with h | h
      · exact h
      · refine ⟨?_, by linarith⟩
        by_contra hneg
        have : u0 * u1 ≤ 0 := mul_nonpos_of_nonpos_of_nonneg (by linarith) (by linarith)
        linarith
    simp [h0]
  · intro hlt hn
    have h1 : ¬ (0 < u1 ∧ u1 ≤ u0) := by
      intro h
      linarith [h.2]
    simp [h1, hn]

/-- C10 (amended), at a concrete input: for the pair `nearSphereA`, `nearSphereB` the swept
quadratic is `4 u^2 - 4 u + 3/4` with roots `1/4` and `3/4`; a collision is reported, with
normal `(-1, 0, 0)`. -/
theorem C10_sphere_sphere_swept_witness :
    Collide_Sphere___Sphere pmExact blankContact nearSphereA nearSphereB
      = Except.ok (true, { blankContact with m_Normal := ⟨-1, 0, 0⟩ }) := by
  have habc : sweptQuadratic (1 / 4) (1 / 4) nearSphereA nearSphereB = (4, -4, 3 / 4) := by
    norm_num [sweptQuadratic, nearSphereA, nearSphereB, movingSphere, restAt, vzero,
      Vec3fSubtract, Vec3fDot, k2]
  have hq : ((-4 : Real) * (-4) - 4 * 4 * (3 / 4)) = 2 * 2 := by norm_num
  have hs : pmExact.Sqrt (2 * 2) = 2 := by
    have h := Rat.sqrt_eq 2
    simpa [pmExact] using h
  have h := (C10_sphere_sphere_swept pmExact blankContact nearSphereA nearSphereB (1 / 4)
    (1 / 4) 4 (-4) (3 / 4) (1 / 4) (3 / 4) rfl rfl habc (by norm_num) (by norm_num)
    (by norm_num) (by norm_num) (by rw [hq, hs]; norm_num) (by rw [hq, hs])).1
    (Or.inl ⟨by norm_num, by norm_num⟩)
  rw [h]
  have hlen : Vec3fLength pmExact (Vec3fSubtract nearSphereA.m_StateT1.m_Position
      nearSphereB.m_StateT1.m_Position) = 1 := by
    have h1 : Vec3fDot (Vec3fSubtract nearSphereA.m_StateT1.m_Position
        nearSphereB.m_StateT1.m_Position) (Vec3fSubtract nearSphereA.m_StateT1.m_Position
        nearSphereB.m_StateT1.m_Position) = 1 := by
      norm_num [nearSphereA, nearSphereB, movingSphere, restAt, vzero, Vec3fSubtract, Vec3fDot]
    rw [Vec3fLength, h1, pmExact_Sqrt_one]
  simp only [Vec3fNormalize, hlen]
  norm_num [nearSphereA, nearSphereB, movingSphere, restAt, vzero, Vec3fSubtract, blankContact,
    Div]

/-- C11 as stated fails. For the pair `nearSphereA`, `grazeSphereB` the swept quadratic is
`4 u^2 - 4 u + 1` (so `c = 1 > 0`), its discriminant is 0, hence not positive; yet
`Collide_Sphere___Sphere` reports a collision (the double root is `1/2`). -/
theorem C11_counterexample :
    sweptQuadratic (1 / 4) (1 / 4) nearSphereA grazeSphereB = (4, -4, 1)
      ∧ (0 : Real) < 1 ∧ ((-4 : Real) * (-4) - 4 * 4 * 1 ≤ 0)
      ∧ ∃ c', Collide_Sphere___Sphere pmExact blankContact nearSphereA grazeSphereB
          = Except.ok (true, c') := by
  have habc : sweptQuadratic (1 / 4) (1 / 4) nearSphereA grazeSphereB = (4, -4, 1) := by
    norm_num [sweptQuadratic, nearSphereA, grazeSphereB, movingSphere, restAt, vzero,
      Vec3fSubtract, Vec3fDot, k2]
  have hq : ((-4 : Real) * (-4) - 4 * 4 * 1) = 0 := by norm_num
  have hhit : sphereSphereHit pmExact 4 (-4) 1 = true := by
    rw [sphereSphereHit_roots pmExact 4 (-4) 1 (1 / 2) (1 / 2) (by norm_num) (by norm_num)
      (by norm_num) (by norm_num) (by norm_num) (by rw [hq, pmExact_Sqrt_zero])
      (by rw [hq, pmExact_Sqrt_zero]; norm_num)]
    norm_num
  refine ⟨habc, by norm_num, by norm_num, ?_⟩
  rw [Collide_Sphere___Sphere_eq pmExact blankContact nearSphereA grazeSphereB (1 / 4) (1 / 4)
    4 (-4) 1 rfl rfl habc, hhit]
  exact ⟨_, rfl⟩

/-- C11 (amended). For two sphere bodies apart at T0 (`c > 0`) whose swept quadratic
`a u^2 + b u + c` has a negative discriminant (`b^2 - 4 a c < 0`), `Collide_Sphere___Sphere`
reports no collision and leaves the contact record as it was. -/
theorem C11_negative_discriminant (pm : PMath) (c : Contact) (A B : RigidBody)
    (rA rB a b cc : Real)
    (hA : A.m_pCollideGeo = CollideGeo.Sphere rA) (hB : B.m_pCollideGeo = CollideGeo.Sphere rB)
    (habc : sweptQuadratic rA rB A B = (a, b, cc)) (hc0 : 0 < cc)
    (hq : b * b - 4 * a * cc < 0) :
    Collide_Sphere___Sphere pm c A B = Except.ok (false, c) := by
  rw [Collide_Sphere___Sphere_eq pm c A B rA rB a b cc hA hB habc,
    sphereSphereHit_neg_discriminant pm a b cc hc0 hq]
  rfl

/-- C11 (amended), at a concrete input: for the pair `nearSphereA`, `missSphereB` the swept
quadratic is `4 u^2 - 4 u + 7/4` with discriminant `-12`; no collision is reported. -/
theorem C11_negative_discriminant_witness :
    Collide_Sphere___Sphere pmExact blankContact nearSphereA missSphereB
      = Except.ok (false, blankContact) :=
  C11_negative_discriminant pmExact blankContact nearSphereA missSphereB (1 / 4) (1 / 4)
    4 (-4) (7 / 4) rfl rfl
    (by norm_num [sweptQuadratic, nearSphereA, missSphereB, movingSphere, restAt, vzero,
      Vec3fSubtract, Vec3fDot, k2])
    (by norm_num) (by norm_num)

/-- C12 as stated fails. For the pair `nearSphereA`, `nearSphereB` a collision is reported and
the T1 positions `(0, 0, 0)` and `(1, 0, 0)` differ; the normal written is `(-1, 0, 0)`, while
the normalised vector from the T1 position of A to that of B is `(1, 0, 0)`. -/
theorem C12_counterexample :
    Collide_Sphere___Sphere pmExact blankContact nearSphereA nearSphereB
        = Except.ok (true, { blankContact with m_Normal := ⟨-1, 0, 0⟩ })
      ∧ nearSphereA.m_StateT1.m_Position ≠ nearSphereB.m_StateT1.m_Position
      ∧ Vec3fNormalize pmExact (Vec3fSubtract nearSphereB.m_StateT1.m_Position
          nearSphereA.m_StateT1.m_Position) = ⟨1, 0, 0⟩
      ∧ (⟨-1, 0, 0⟩ : Vec3f) ≠ ⟨1, 0, 0⟩ := by
  refine ⟨?_, ?_, ?_, ?_⟩
  · rw [Collide_Sphere___Sphere_eq pmExact blankContact nearSphereA nearSphereB (1 / 4) (1 / 4)
      4 (-4) (3 / 4) rfl rfl nearSpheres_quadratic, nearSpheres_hit, nearSpheres_normal]
    rfl
  · norm_num [nearSphereA, nearSphereB, movingSphere, restAt, vzero]
  · have h1 : Vec3fDot (Vec3fSubtract nearSphereB.m_StateT1.m_Position
        nearSphereA.m_StateT1.m_Position) (Vec3fSubtract nearSphereB.m_StateT1.m_Position
        nearSphereA.m_StateT1.m_Position) = 1 := by
      norm_num [nearSphereA, nearSphereB, movingSphere, restAt, vzero, Vec3fSubtract, Vec3fDot]
    simp only [Vec3fNormalize, Vec3fLength, h1, pmExact_Sqrt_one]
    norm_num [nearSphereA, nearSphereB, movingSphere, restAt, vzero, Vec3fSubtract, Div]
  · norm_num

/-- C12 (amended). When `Collide_Sphere___Sphere` reports a collision for two sphere bodies
whose T1 positions differ, with an exact square root `L` of the squared distance of the T1
positions, the normal it writes is the normalised vector from the T1 position of body B to
the T1 position of body A, `(posA_T1 - posB_T1) / L` with `L > 0`; it has length one. The
other fields of the record are not written. -/
theorem C12_sphere_sphere_normal (pm : PMath) (c c' : Contact) (A B : RigidBody) (rA rB : Real)
    (hA : A.m_pCollideGeo = CollideGeo.Sphere rA) (hB : B.m_pCollideGeo = CollideGeo.Sphere rB)
    (hres : Collide_Sphere___Sphere pm c A B = Except.ok (true, c'))
    (hd : A.m_StateT1.m_Position ≠ B.m_StateT1.m_Position)
    (hs0 : 0 ≤ Vec3fLength pm (Vec3fSubtract A.m_StateT1.m_Position B.m_StateT1.m_Position))
    (hs1 : Vec3fLength pm (Vec3fSubtract A.m_StateT1.m_Position B.m_StateT1.m_Position)
        * Vec3fLength pm (Vec3fSubtract A.m_StateT1.m_Position B.m_StateT1.m_Position)
      = Vec3fDot (Vec3fSubtract A.m_StateT1.m_Position B.m_StateT1.m_Position)
          (Vec3fSubtract A.m_StateT1.m_Position B.m_StateT1.m_Position)) :
    0 < Vec3fLength pm (Vec3fSubtract A.m_StateT1.m_Position B.m_StateT1.m_Position)
      ∧ c' = { c with m_Normal := (Vec3fSetScaled
          (1 / Vec3fLength pm (Vec3fSubtract A.m_StateT1.m_Position B.m_StateT1.m_Position))
          (Vec3fSubtract A.m_StateT1.m_Position B.m_StateT1.m_Position)) }
      ∧ Vec3fDot c'.m_Normal c'.m_Normal = 1 := by
  have hdd : Vec3fDot (Vec3fSubtract A.m_StateT1.m_Position B.m_StateT1.m_Position)
      (Vec3fSubtract A.m_StateT1.m_Position B.m_StateT1.m_Position) ≠ 0 := by
    intro h0
    obtain ⟨hx, hy, hz⟩ := Vec3fDot_self_eq_zero _ h0
    apply hd
    simp only [Vec3fSubtract] at hx hy hz
    cases hp : A.m_StateT1.m_Position
    cases hq : B.m_StateT1.m_Position
    rw [hp, hq] at hx hy hz
    simp only at hx hy hz
    congr 1 <;> linarith
  have hL : Vec3fLength pm (Vec3fSubtract A.m_StateT1.m_Position B.m_StateT1.m_Position) ≠ 0 := by
    intro h0
    rw [h0] at hs1
    simp at hs1
    exact hdd hs1.symm
  have hpos := lt_of_le_of_ne hs0 (Ne.symm hL)
  rw [Collide_Sphere___Sphere_eq pm c A B rA rB _ _ _ hA hB rfl] at hres
  split_ifs at hres with hhit
  · simp only [Except.ok.injEq, Prod.mk.injEq, true_and] at hres
    have hn : Vec3fNormalize pm (Vec3fSubtract A.m_StateT1.m_Position B.m_StateT1.m_Position)
        = Vec3fSetScaled
          (1 / Vec3fLength pm (Vec3fSubtract A.m_StateT1.m_Position B.m_StateT1.m_Position))
          (Vec3fSubtract A.m_StateT1.m_Position B.m_StateT1.m_Position) := by
      simp only [Vec3fNormalize, Vec3fSetScaled, Div_of_ne pm _ _ hL]
      congr 1 <;> ring
    rw [hn] at hres
    refine ⟨hpos, hres.symm, ?_⟩
    rw [← hres]
    simp only [Vec3fSetScaled, Vec3fDot] at hs1 ⊢
    field_simp
    linarith
  · simp at hres

/-- C12 (amended), at a concrete input: for the pair `nearSphereA`, `nearSphereB` with T1
positions `(0, 0, 0)` and `(1, 0, 0)` the normal written is `(-1, 0, 0)`. -/
theorem C12_sphere_sphere_normal_witness :
    ({ blankContact with m_Normal := ⟨-1, 0, 0⟩ } : Contact) = { blankContact with
        m_Normal := (Vec3fSetScaled
          (1 / Vec3fLength pmExact (Vec3fSubtract nearSphereA.m_StateT1.m_Position
            nearSphereB.m_StateT1.m_Position))
          (Vec3fSubtract nearSphereA.m_StateT1.m_Position nearSphereB.m_StateT1.m_Position)) }
      ∧ Vec3fDot ({ blankContact with m_Normal := ⟨-1, 0, 0⟩ } : Contact).m_Normal
          ({ blankContact with m_Normal := ⟨-1, 0, 0⟩ } : Contact).m_Normal = 1 := by
  have hlen : Vec3fLength pmExact (Vec3fSubtract nearSphereA.m_StateT1.m_Position
      nearSphereB.m_StateT1.m_Position) = 1 := by
    have h1 : Vec3fDot (Vec3fSubtract nearSphereA.m_StateT1.m_Position
        nearSphereB.m_StateT1.m_Position) (Vec3fSubtract nearSphereA.m_StateT1.m_Position
        nearSphereB.m_StateT1.m_Position) = 1 := by
      norm_num [nearSphereA, nearSphereB, movingSphere, restAt, vzero, Vec3fSubtract, Vec3fDot]
    rw [Vec3fLength, h1, pmExact_Sqrt_one]
  exact (C12_sphere_sphere_normal pmExact blankContact { blankContact with m_Normal := ⟨-1, 0, 0⟩ }
    nearSphereA nearSphereB (1 / 4) (1 / 4) rfl rfl
    (by
      rw [Collide_Sphere___Sphere_eq pmExact blankContact nearSphereA nearSphereB (1 / 4)
        (1 / 4) 4 (-4) (3 / 4) rfl rfl nearSpheres_quadratic, nearSpheres_hit,
        nearSpheres_normal]
      rfl)
    (by norm_num [nearSphereA, nearSphereB, movingSphere, restAt, vzero])
    (by rw [hlen]; norm_num)
    (by
      rw [hlen]
      norm_num [nearSphereA, nearSphereB, movingSphere, restAt, vzero, Vec3fSubtract,
        Vec3fDot])).2

/-- C13 (the code departs from it). The sphere-sphere test never writes `m_ContactTime`. For
the pair `nearSphereA`, `nearSphereB`, apart at T0 and in boundary contact at `t = 1/4`
(`4 t^2 - 4 t + 3/4 = 0`), a collision is reported and the contact time of the record is the
value `t0` it held before the test, whatever that value is, as is its position. -/
theorem C13_sphere_sphere_contact_time_not_written :
    (∀ t0 : Real,
      Collide_Sphere___Sphere pmExact { blankContact with m_ContactTime := t0 } nearSphereA
          nearSphereB
        = Except.ok (true, { blankContact with m_ContactTime := t0, m_Normal := ⟨-1, 0, 0⟩ }))
      ∧ sweptQuadratic (1 / 4) (1 / 4) nearSphereA nearSphereB = (4, -4, 3 / 4)
      ∧ (4 : Real) * (1 / 4) ^ 2 + (-4) * (1 / 4) + 3 / 4 = 0 := by
  refine ⟨?_, nearSpheres_quadratic, by norm_num⟩
  intro t0
  rw [Collide_Sphere___Sphere_eq pmExact _ nearSphereA nearSphereB (1 / 4) (1 / 4)
    4 (-4) (3 / 4) rfl rfl nearSpheres_quadratic, nearSpheres_hit, nearSpheres_normal]
  rfl

/-- C14. For two sphere bodies whose centres at T0 are no farther apart than the sum of the
radii, `|ab|^2 - (rA + rB)^2 ≤ 0`, `Collide_Sphere___Sphere` reports a collision whatever
the T1 positions are (also when nothing moves), and writes the normalised difference of the
T1 positions as normal. -/
theorem C14_overlap_immediate (pm : PMath) (c : Contact) (A B : RigidBody) (rA rB : Real)
    (hA : A.m_pCollideGeo = CollideGeo.Sphere rA) (hB : B.m_pCollideGeo = CollideGeo.Sphere rB)
    (hc : Vec3fDot (Vec3fSubtract B.m_StateT0.m_Position A.m_StateT0.m_Position)
        (Vec3fSubtract B.m_StateT0.m_Position A.m_StateT0.m_Position)
      - (rA + rB) * (rA + rB) ≤ 0) :
    Collide_Sphere___Sphere pm c A B = Except.ok (true, { c with
      m_Normal := (Vec3fNormalize pm
        (Vec3fSubtract A.m_StateT1.m_Position B.m_StateT1.m_Position)) }) := by
  rw [Collide_Sphere___Sphere_eq pm c A B rA rB _ _ _ hA hB rfl,
    sphereSphereHit_overlap pm _ _ _ hc]
  rfl

/-- C14, at a concrete input: the spheres `nearSphereA` and `overlapSphereB` of radius 1/4
rest at `(0, 0, 0)` and `(1/4, 0, 0)`; a collision is reported, with normal `(-1, 0, 0)`. -/
theorem C14_overlap_immediate_witness :
    Collide_Sphere___Sphere pmExact blankContact nearSphereA overlapSphereB
      = Except.ok (true, { blankContact with m_Normal := ⟨-1, 0, 0⟩ }) := by
  rw [C14_overlap_immediate pmExact blankContact nearSphereA overlapSphereB (1 / 4) (1 / 4)
    rfl rfl
    (by norm_num [nearSphereA, overlapSphereB, movingSphere, restAt, vzero, Vec3fSubtract,
      Vec3fDot])]
  have h1 : Vec3fDot (Vec3fSubtract nearSphereA.m_StateT1.m_Position
      overlapSphereB.m_StateT1.m_Position) (Vec3fSubtract nearSphereA.m_StateT1.m_Position
      overlapSphereB.m_StateT1.m_Position) = (1 / 4) * (1 / 4) := by
    norm_num [nearSphereA, overlapSphereB, movingSphere, restAt, vzero, Vec3fSubtract, Vec3fDot]
  simp only [Vec3fNormalize, Vec3fLength, h1, pmExact_Sqrt_sq]
  norm_num [nearSphereA, overlapSphereB, movingSphere, restAt, vzero, Vec3fSubtract, Div,
    blankContact, abs_of_pos]

/-- C15 (the code departs from it). In `anchoredWorld` body A of the contact has inverse
mass 0 and no angular momentum, and body B runs into it. `Resolve` leaves the T1 velocity of A
as it was, but the sphere-sphere resolver adds `(posA - contactA) × impulse` to the T1 angular
momentum of A, which becomes `(0, 0, 8178893/4194304)`, about `(0, 0, 1.95)`. -/
theorem C15_fixed_sphere_gains_angular_momentum :
    (anchoredWorld.bodies 0).GetOOMass = 0
      ∧ (anchoredWorld.bodies 0).m_StateT1.m_AngularMomentum = ⟨0, 0, 0⟩
      ∧ ∃ w', Resolve pmExact anchoredWorld 5 = Except.ok w'
        ∧ (w'.bodies 0).m_StateT1.m_Velocity = (anchoredWorld.bodies 0).m_StateT1.m_Velocity
        ∧ (w'.bodies 0).m_StateT1.m_AngularMomentum = ⟨0, 0, 8178893 / 4194304⟩ := by
  refine ⟨rfl, rfl, ?_⟩
  norm_num [Resolve, ResolveFunctions, Resolve_Sphere___Sphere, anchoredWorld, sampleWorld,
    sphereSphereContact, sphereWithVelocity, movingSphere, restAt, vzero, blankContact,
    World.setContact, World.modifyBody, World.setBody, CollideGeo.GetKind, asSphere, bind,
    Except.bind, pure, Except.pure, Vec3fSetScaled, Vec3fAdd, Vec3fSubtract, Vec3fCross,
    Vec3fDot, Vec3fMultiplyAccumulate, applyInertiaITD, Vec3fScale, Vec3fMultiply, Div,
    RigidBody.setT1Velocity, RigidBody.setT1AngularMomentum, k0, kN1,
    binary32_neg_one_sub_RESTITUTION, Function.update]

/-- C16 as stated fails. The restitution of line 335 is the `float` literal `0.60f`, whose
value is `5033165 / 2^23`, not `0.60`. In `bounceWorld` the sphere (positive inverse mass)
meets the ground plane (unit normal) with `v = (0, 0, -2)`, so `v · n = -2`. It leaves with
`(0, 0, 5033165/4194304)`, about `(0, 0, 1.20000005)`, and not with
`v - 1.60 (v · n) n = (0, 0, 6/5)`: the outgoing normal speed is not 0.60 times the incoming
one. -/
theorem C16_counterexample :
    0 < (bounceWorld.bodies 1).GetOOMass
      ∧ Vec3fDot (bounceWorld.contacts 5).m_Normal (bounceWorld.contacts 5).m_Normal = 1
      ∧ Vec3fDot (bounceWorld.bodies 1).m_StateT1.m_Velocity (bounceWorld.contacts 5).m_Normal
        = -2
      ∧ ∃ w', _ResolveSphereVsPlane pmExact bounceWorld 5 = Except.ok w'
        ∧ (w'.bodies 1).m_StateT1.m_Velocity = ⟨0, 0, 5033165 / 4194304⟩
        ∧ (w'.bodies 1).m_StateT1.m_Velocity
          ≠ Vec3fSubtract ⟨0, 0, -2⟩ (Vec3fSetScaled (160 / 100 * (-2)) ⟨0, 0, 1⟩)
        ∧ Vec3fDot (w'.bodies 1).m_StateT1.m_Velocity ⟨0, 0, 1⟩ ≠ 60 / 100 * 2 := by
  have key : ∃ w', _ResolveSphereVsPlane pmExact bounceWorld 5 = Except.ok w'
      ∧ (w'.bodies 1).m_StateT1.m_Velocity = ⟨0, 0, 5033165 / 4194304⟩ := by
    norm_num [_ResolveSphereVsPlane, bounceWorld, sampleWorld, fallingSphere, staticBody,
      groundPlane, movingSphere, restAt, vzero, planeSphereContact, World.setContact,
      World.modifyBody, World.setBody, asSphere, bind, Except.bind, pure, Except.pure,
      Vec3fSetScaled, Vec3fAdd, Vec3fSubtract, Vec3fCross, Vec3fDot, applyInertiaITD,
      Vec3fScale, Vec3fMultiply, Div, RigidBody.setT1Velocity, RigidBody.setT1AngularMomentum,
      k0, k1, binary32_one_add_RESTITUTION, Function.update]
  obtain ⟨w', e, v⟩ := key
  refine ⟨by norm_num [bounceWorld, sampleWorld, fallingSphere, movingSphere, World.setContact],
    by norm_num [bounceWorld, World.setContact, planeSphereContact, Vec3fDot],
    by norm_num [bounceWorld, sampleWorld, fallingSphere, restAt, World.setContact,
      planeSphereContact, Vec3fDot], w', e, v, ?_, ?_⟩
  · rw [v]
    norm_num [Vec3fSubtract, Vec3fSetScaled]
  · rw [v]
    norm_num [Vec3fDot]

/-- C16 (amended). For a contact with unit normal `n` whose body B is a sphere with positive
inverse mass and T1 velocity `v` with `v · n < 0`, spinnable or not and of any inertial kind,
the plane-sphere impulse step returns and, with `e = 5033165 / 2^23` the value of the literal
`0.60f`, the T1 velocity of the sphere becomes `v' = v - (1 + e) (v · n) n`:
`v' · n = -e (v · n)`, which is positive and not larger than `-(v · n)`, and the tangential
part `v' - (v' · n) n` is that of `v`. The plane-sphere resolver `Resolve_InfPlane_Sphere`
leaves the sphere with the same velocity. -/
theorem C16_plane_sphere_restitution (pm : PMath) (w : World) (p : ContactPtr) (pS : BodyPtr)
    (S : RigidBody) (r : Real) (n v : Vec3f)
    (hp : (w.contacts p).m_pBodyB = pS) (hS : w.bodies pS = S)
    (hgeo : S.m_pCollideGeo = CollideGeo.Sphere r)
    (hnorm : (w.contacts p).m_Normal = n) (hvel : S.m_StateT1.m_Velocity = v)
    (hm : 0 < S.GetOOMass) (hn : Vec3fDot n n = 1) (hv : Vec3fDot v n < 0) :
    ∃ w', _ResolveSphereVsPlane pm w p = Except.ok w'
      ∧ (w'.bodies pS).m_StateT1.m_Velocity
        = Vec3fSubtract v (Vec3fSetScaled ((1 + 5033165 / 8388608) * Vec3fDot v n) n)
      ∧ Vec3fDot (w'.bodies pS).m_StateT1.m_Velocity n = -(5033165 / 8388608) * Vec3fDot v n
      ∧ 0 < Vec3fDot (w'.bodies pS).m_StateT1.m_Velocity n
      ∧ Vec3fDot (w'.bodies pS).m_StateT1.m_Velocity n ≤ -(Vec3fDot v n)
      ∧ Vec3fSubtract (w'.bodies pS).m_StateT1.m_Velocity
          (Vec3fSetScaled (Vec3fDot (w'.bodies pS).m_StateT1.m_Velocity n) n)
        = Vec3fSubtract v (Vec3fSetScaled (Vec3fDot v n) n)
      ∧ ∃ w'', Resolve_InfPlane_Sphere pm w p = Except.ok w''
        ∧ (w''.bodies pS).m_StateT1.m_Velocity = (w'.bodies pS).m_StateT1.m_Velocity := by
  subst hp hS hnorm hvel
  have hoo : (w.bodies (w.contacts p).m_pBodyB).GetOOMass ≠ 0 := ne_of_gt hm
  have hvel' : ∀ (w0 : World), w0.contacts = w.contacts →
      (w0.bodies (w.contacts p).m_pBodyB).m_pCollideGeo = CollideGeo.Sphere r →
      (w0.bodies (w.contacts p).m_pBodyB).GetOOMass
        = (w.bodies (w.contacts p).m_pBodyB).GetOOMass →
      (w0.bodies (w.contacts p).m_pBodyB).m_StateT1.m_Velocity
        = (w.bodies (w.contacts p).m_pBodyB).m_StateT1.m_Velocity →
      ∃ w', _ResolveSphereVsPlane pm w0 p = Except.ok w' ∧ w'.contacts = w.contacts
        ∧ (w'.bodies (w.contacts p).m_pBodyB).m_StateT1.m_Velocity
          = Vec3fSubtract (w.bodies (w.contacts p).m_pBodyB).m_StateT1.m_Velocity
            (Vec3fSetScaled ((1 + 5033165 / 8388608)
              * Vec3fDot (w.bodies (w.contacts p).m_pBodyB).m_StateT1.m_Velocity
                (w.contacts p).m_Normal) (w.contacts p).m_Normal) := by
    intro w0 hc hg ho hve
    have hg' : (w0.bodies (w0.contacts p).m_pBodyB).m_pCollideGeo = CollideGeo.Sphere r := by
      rw [hc]; exact hg
    rw [ResolveSphereVsPlane_eq pm w0 p r hg']
    simp only [hc, hve, ho, hv, if_true, Div_of_ne pm _ _ hoo, mul_div_cancel_left₀ _ hoo]
    split_ifs
    · refine ⟨_, rfl, hc, ?_⟩
      simp only [modifyBody_bodies_same, RigidBody.setT1Velocity,
        RigidBody.setT1AngularMomentum, hve, Vec3fAdd, Vec3fSubtract, Vec3fSetScaled,
        binary32_one_add_RESTITUTION]
      congr 1 <;> ring
    · refine ⟨_, rfl, hc, ?_⟩
      simp only [modifyBody_bodies_same, RigidBody.setT1Velocity, hve, Vec3fAdd,
        Vec3fSubtract, Vec3fSetScaled, binary32_one_add_RESTITUTION]
      congr 1 <;> ring
  obtain ⟨w', e1, _, v1⟩ := hvel' w rfl hgeo rfl rfl
  refine ⟨w', e1, v1, ?_, ?_, ?_, ?_, ?_⟩
  · rw [v1, Vec3fDot_sub_scaled, hn]
    ring
  · rw [v1, Vec3fDot_sub_scaled, hn]
    linarith
  · rw [v1, Vec3fDot_sub_scaled, hn]
    linarith
  · rw [v1, Vec3fDot_sub_scaled, hn, Vec3fSubtract_scaled_twice]
    congr 2
    ring
  · obtain ⟨w2, e2, c2, v2⟩ := hvel'
      (w.modifyBody (w.contacts p).m_pBodyB
        (fun b => b.setT1Position (w.contacts p).m_Position)) rfl
      (by simp [RigidBody.setT1Position, hgeo]) (by simp [RigidBody.setT1Position])
      (by simp [RigidBody.setT1Position])
    simp only [Resolve_InfPlane_Sphere, bind, Except.bind, pure, Except.pure, e2]
    refine ⟨_, rfl, ?_⟩
    simp only [modifyBody_bodies_same, RigidBody.setT1Position, v1, v2]

/-- C16 (amended), at a concrete input: `fallingSphere` meets the ground plane with velocity
`(0, 0, -2)` and leaves with `(0, 0, 5033165/4194304)`, twice the value of `0.60f`. -/
theorem C16_plane_sphere_restitution_witness :
    ∃ w', _ResolveSphereVsPlane pmExact bounceWorld 5 = Except.ok w'
      ∧ (w'.bodies 1).m_StateT1.m_Velocity = ⟨0, 0, 5033165 / 4194304⟩ := by
  obtain ⟨w', e, v, _⟩ := C16_plane_sphere_restitution pmExact bounceWorld 5 1 fallingSphere 1
    ⟨0, 0, 1⟩ ⟨0, 0, -2⟩ rfl rfl rfl rfl rfl
    (by norm_num [fallingSphere, movingSphere]) (by norm_num [Vec3fDot])
    (by norm_num [Vec3fDot])
  refine ⟨w', e, ?_⟩
  rw [v]
  norm_num [Vec3fSubtract, Vec3fSetScaled, Vec3fDot]

/-- C17 as stated fails. The factor of line 443 is the constant expression `kN1 - RESTITUTION`
with `RESTITUTION` the `float` literal `0.95f`; in binary32 its value is `-8178893 / 2^22`,
about -1.95000005, not -1.95. The two spheres of `headOnWorld`, of equal mass, approach along
the unit normal `(-1, 0, 0)` with velocities `(1, 0, 0)` and `(-1, 0, 0)`, so
`(vA - vB) · n = -2`. They leave with `(-3984589/4194304, 0, 0)` and `(3984589/4194304, 0, 0)`,
about `∓0.950000048`, not with `∓0.95`, and `(vA' - vB') · n` is not `-0.95 (vA - vB) · n`. -/
theorem C17_counterexample :
    (headOnWorld.bodies 0).GetOOMass = 1 ∧ (headOnWorld.bodies 1).GetOOMass = 1
      ∧ Vec3fDot (headOnWorld.contacts 5).m_Normal (headOnWorld.contacts 5).m_Normal = 1
      ∧ Vec3fDot (Vec3fSubtract (headOnWorld.bodies 0).m_StateT1.m_Velocity
          (headOnWorld.bodies 1).m_StateT1.m_Velocity) (headOnWorld.contacts 5).m_Normal = -2
      ∧ ∃ w', Resolve_Sphere___Sphere pmExact headOnWorld 5 = Except.ok w'
        ∧ (w'.bodies 0).m_StateT1.m_Velocity = ⟨-(3984589 / 4194304), 0, 0⟩
        ∧ (w'.bodies 1).m_StateT1.m_Velocity = ⟨3984589 / 4194304, 0, 0⟩
        ∧ (w'.bodies 0).m_StateT1.m_Velocity ≠ ⟨-(95 / 100), 0, 0⟩
        ∧ Vec3fDot (Vec3fSubtract (w'.bodies 0).m_StateT1.m_Velocity
            (w'.bodies 1).m_StateT1.m_Velocity) ⟨-1, 0, 0⟩ ≠ -(95 / 100) * (-2) := by
  have key : ∃ w', Resolve_Sphere___Sphere pmExact headOnWorld 5 = Except.ok w'
      ∧ (w'.bodies 0).m_StateT1.m_Velocity = ⟨-(3984589 / 4194304), 0, 0⟩
      ∧ (w'.bodies 1).m_StateT1.m_Velocity = ⟨3984589 / 4194304, 0, 0⟩ := by
    norm_num [Resolve_Sphere___Sphere, headOnWorld, sampleWorld, sphereSphereContact,
      sphereWithVelocity, movingSphere, restAt, vzero, blankContact, World.setContact,
      World.modifyBody, World.setBody, asSphere, bind, Except.bind, pure, Except.pure,
      Vec3fSetScaled, Vec3fAdd, Vec3fSubtract, Vec3fCross, Vec3fDot, Vec3fMultiplyAccumulate,
      applyInertiaITD, Vec3fScale, Vec3fMultiply, Div, RigidBody.setT1Velocity,
      RigidBody.setT1AngularMomentum, k0, kN1, binary32_neg_one_sub_RESTITUTION,
      Function.update]
  obtain ⟨w', e, vA, vB⟩ := key
  refine ⟨by norm_num [headOnWorld, sampleWorld, sphereWithVelocity, movingSphere,
      World.setContact],
    by norm_num [headOnWorld, sampleWorld, sphereWithVelocity, movingSphere, World.setContact],
    by norm_num [headOnWorld, World.setContact, sphereSphereContact, Vec3fDot],
    by norm_num [headOnWorld, sampleWorld, sphereWithVelocity, restAt, World.setContact,
      sphereSphereContact, Vec3fDot, Vec3fSubtract], w', e, vA, vB, ?_, ?_⟩
  · rw [vA]
    norm_num
  · rw [vA, vB]
    norm_num [Vec3fDot, Vec3fSubtract]

/-- C17 (amended). For a sphere-sphere contact with unit normal `n` whose bodies approach,
`(vA - vB) · n < 0`, and whose inverse masses have a sum that is not zero (as have inverse
masses that are not negative and not both zero), `Resolve_Sphere___Sphere` returns and
reverses and scales the relative normal velocity: with `e = 3984589 / 2^22`, about 0.95000005
(one less than the binary32 value of `1 + 0.95f`), `(vA' - vB') · n = -e ((vA - vB) · n)`.
In particular two spheres of equal inverse mass with velocities `-k n` and `k n` leave with
`e k n` and `-e k n`. -/
theorem C17_sphere_sphere_restitution (pm : PMath) (w : World) (p : ContactPtr)
    (pA pB : BodyPtr) (A B : RigidBody) (rA rB : Real) (n : Vec3f)
    (hpA : (w.contacts p).m_pBodyA = pA) (hpB : (w.contacts p).m_pBodyB = pB)
    (hbA : w.bodies pA = A) (hbB : w.bodies pB = B)
    (hgA : A.m_pCollideGeo = CollideGeo.Sphere rA) (hgB : B.m_pCollideGeo = CollideGeo.Sphere rB)
    (hnorm : (w.contacts p).m_Normal = n) (hn : Vec3fDot n n = 1)
    (hv : Vec3fDot (Vec3fSubtract A.m_StateT1.m_Velocity B.m_StateT1.m_Velocity) n < 0)
    (hm : A.GetOOMass + B.GetOOMass ≠ 0) :
    ∃ w', Resolve_Sphere___Sphere pm w p = Except.ok w'
      ∧ Vec3fDot (Vec3fSubtract (w'.bodies pA).m_StateT1.m_Velocity
          (w'.bodies pB).m_StateT1.m_Velocity) n
        = -(3984589 / 4194304) * Vec3fDot (Vec3fSubtract A.m_StateT1.m_Velocity
            B.m_StateT1.m_Velocity) n
      ∧ ∀ k : Real, A.GetOOMass = B.GetOOMass →
          A.m_StateT1.m_Velocity = Vec3fSetScaled (-k) n →
          B.m_StateT1.m_Velocity = Vec3fSetScaled k n →
          (w'.bodies pA).m_StateT1.m_Velocity = Vec3fSetScaled (3984589 / 4194304 * k) n
            ∧ (w'.bodies pB).m_StateT1.m_Velocity
              = Vec3fSetScaled (-(3984589 / 4194304) * k) n := by
  have hne : pA ≠ pB := by
    intro h
    rw [h] at hbA
    rw [← hbA, ← hbB] at hv
    simp [Vec3fDot, Vec3fSubtract] at hv
  subst hpA hpB hbA hbB hnorm
  have hsum : (w.bodies (w.contacts p).m_pBodyA).GetOOMass
      + (w.bodies (w.contacts p).m_pBodyB).GetOOMass ≠ 0 := hm
  have hden : ((w.bodies (w.contacts p).m_pBodyA).GetOOMass
      + (w.bodies (w.contacts p).m_pBodyB).GetOOMass)
      * Vec3fDot (w.contacts p).m_Normal (w.contacts p).m_Normal ≠ 0 := by
    rw [hn, mul_one]
    exact hsum
  obtain ⟨w', e, vA, vB⟩ := Resolve_Sphere___Sphere_approaching pm w p rA rB hgA hgB hne hv
  rw [Div_of_ne pm _ _ hden, hn, mul_one] at vA vB
  refine ⟨w', e, ?_, ?_⟩
  · rw [vA, vB, Vec3fDot_relative_after, hn]
    simp only [kN1, binary32_neg_one_sub_RESTITUTION]
    field_simp
    ring
  · intro k hoo hvA hvB
    have h2 : (w.bodies (w.contacts p).m_pBodyB).GetOOMass ≠ 0 := by
      intro h0
      apply hsum
      rw [hoo, h0]
      ring
    rw [vA, vB, hvA, hvB, hoo]
    have hdot : Vec3fDot (Vec3fSubtract (Vec3fSetScaled (-k) (w.contacts p).m_Normal)
        (Vec3fSetScaled k (w.contacts p).m_Normal)) (w.contacts p).m_Normal = -2 * k := by
      have : Vec3fDot (Vec3fSubtract (Vec3fSetScaled (-k) (w.contacts p).m_Normal)
          (Vec3fSetScaled k (w.contacts p).m_Normal)) (w.contacts p).m_Normal
          = -2 * k * Vec3fDot (w.contacts p).m_Normal (w.contacts p).m_Normal := by
        simp only [Vec3fDot, Vec3fSubtract, Vec3fSetScaled]; ring
      rw [this, hn, mul_one]
    rw [hdot]
    have hhalf : ∀ x : Real, (w.bodies (w.contacts p).m_pBodyB).GetOOMass
        * (x / ((w.bodies (w.contacts p).m_pBodyB).GetOOMass
          + (w.bodies (w.contacts p).m_pBodyB).GetOOMass)) = x / 2 := by
      intro x
      rw [← two_mul]
      field_simp
      ring
    simp only [hhalf, Vec3fSubtract, Vec3fAdd, Vec3fSetScaled, kN1,
      binary32_neg_one_sub_RESTITUTION]
    constructor
    · congr 1 <;> ring
    · congr 1 <;> ring

/-- C17 (amended), at a concrete input: the two spheres of `headOnWorld`, of equal mass,
approach with velocities `(1, 0, 0)` and `(-1, 0, 0)` and leave with
`(-3984589/4194304, 0, 0)` and `(3984589/4194304, 0, 0)`. -/
theorem C17_sphere_sphere_restitution_witness :
    ∃ w', Resolve_Sphere___Sphere pmExact headOnWorld 5 = Except.ok w'
      ∧ (w'.bodies 0).m_StateT1.m_Velocity = ⟨-(3984589 / 4194304), 0, 0⟩
      ∧ (w'.bodies 1).m_StateT1.m_Velocity = ⟨3984589 / 4194304, 0, 0⟩ := by
  obtain ⟨w', e, _, h⟩ := C17_sphere_sphere_restitution pmExact headOnWorld 5 0 1
    (sphereWithVelocity (1 / 4) ⟨-1 / 4, 0, 0⟩ ⟨1, 0, 0⟩)
    (sphereWithVelocity (1 / 4) ⟨1 / 4, 0, 0⟩ ⟨-1, 0, 0⟩) (1 / 4) (1 / 4) ⟨-1, 0, 0⟩
    rfl rfl rfl rfl rfl rfl rfl (by norm_num [Vec3fDot])
    (by norm_num [Vec3fDot, Vec3fSubtract, sphereWithVelocity, restAt])
    (by norm_num [sphereWithVelocity, movingSphere])
  obtain ⟨hA, hB⟩ := h 1 rfl
    (by norm_num [sphereWithVelocity, restAt, Vec3fSetScaled])
    (by norm_num [sphereWithVelocity, restAt, Vec3fSetScaled])
  refine ⟨w', e, ?_, ?_⟩
  · rw [hA]; norm_num [Vec3fSetScaled]
  · rw [hB]; norm_num [Vec3fSetScaled]

/-- C19. When the bodies of a contact do not approach along the normal, no impulse is
applied. Sphere-sphere: with `(vA - vB) · n ≥ 0`, `Resolve_Sphere___Sphere` returns the memory
as it was, so the T1 velocity and angular momentum of both bodies are unchanged. Plane-sphere:
with `v · n ≥ 0`, `_ResolveSphereVsPlane` returns the memory as it was. -/
theorem C19_no_impulse_when_separating (pm : PMath) (w : World) (p : ContactPtr) :
    (∀ rA rB : Real,
      (w.bodies (w.contacts p).m_pBodyA).m_pCollideGeo = CollideGeo.Sphere rA →
      (w.bodies (w.contacts p).m_pBodyB).m_pCollideGeo = CollideGeo.Sphere rB →
      0 ≤ Vec3fDot (Vec3fSubtract (w.bodies (w.contacts p).m_pBodyA).m_StateT1.m_Velocity
        (w.bodies (w.contacts p).m_pBodyB).m_StateT1.m_Velocity) (w.contacts p).m_Normal →
      Resolve_Sphere___Sphere pm w p = Except.ok w)
    ∧ (∀ r : Real,
      (w.bodies (w.contacts p).m_pBodyB).m_pCollideGeo = CollideGeo.Sphere r →
      0 ≤ Vec3fDot (w.bodies (w.contacts p).m_pBodyB).m_StateT1.m_Velocity
        (w.contacts p).m_Normal →
      _ResolveSphereVsPlane pm w p = Except.ok w) := by
  constructor
  · intro rA rB hA hB hv
    exact Resolve_Sphere___Sphere_separating pm w p rA rB hA hB hv
  · intro r h hv
    rw [ResolveSphereVsPlane_eq pm w p r h, if_neg (not_lt.mpr hv)]

/-- C19, at concrete inputs: the spheres of `partingWorld` move apart and the sphere of
`riseWorld` moves away from the plane; both resolvers return the memory as it was. -/
theorem C19_no_impulse_when_separating_witness :
    Resolve_Sphere___Sphere pmExact partingWorld 5 = Except.ok partingWorld
      ∧ _ResolveSphereVsPlane pmExact riseWorld 5 = Except.ok riseWorld :=
  ⟨(C19_no_impulse_when_separating pmExact partingWorld 5).1 (1 / 4) (1 / 4) rfl rfl
      (by norm_num [partingWorld, sampleWorld, sphereSphereContact, sphereWithVelocity, restAt,
        Vec3fDot, Vec3fSubtract]),
    (C19_no_impulse_when_separating pmExact riseWorld 5).2 1 rfl
      (by norm_num [riseWorld, sampleWorld, planeSphereContact, sphereWithVelocity, restAt,
        Vec3fDot])⟩

/-- C20 (the code departs from it). In `dropWorld` the sphere comes down on the ground plane
with T1 velocity `(0, 0, -2)`. Tested and resolved as (plane, sphere) it bounces: T1 velocity
`(0, 0, 5033165/4194304)`, about `(0, 0, 1.2)`, T1 position `(0, 0, 2)`. Tested and resolved as (sphere, plane) a contact is
found as well, but `Resolve_Sphere___InfPlane` negates the normal the test wrote, the impulse
step then sees the sphere moving away and applies nothing: T1 velocity `(0, 0, -2)`, T1
position `(0, 0, 0)`, the centre in the plane. -/
theorem C20_sphere_plane_order_matters :
    (∃ w', detectAndResolve pmExact dropWorld 0 1 = Except.ok w'
        ∧ w'.m_Contacts = [5]
        ∧ (w'.bodies 1).m_StateT1.m_Velocity = ⟨0, 0, 5033165 / 4194304⟩
        ∧ (w'.bodies 1).m_StateT1.m_Position = ⟨0, 0, 2⟩)
      ∧ (∃ w', detectAndResolve pmExact dropWorld 1 0 = Except.ok w'
        ∧ w'.m_Contacts = [5]
        ∧ (w'.bodies 1).m_StateT1.m_Velocity = ⟨0, 0, -2⟩
        ∧ (w'.bodies 1).m_StateT1.m_Position = ⟨0, 0, 0⟩) := by
  have hs1 : pmExact.Sqrt 1 = 1 := pmExact_Sqrt_one
  have hs2 : pmExact.Sqrt (25332749917225 / 17592186044416) = 5033165 / 4194304 := by
    have h := pmExact_Sqrt_sq (5033165 / 4194304)
    rw [abs_of_pos (by norm_num)] at h
    norm_num at h
    exact h
  have hs4 : pmExact.Sqrt 4 = 2 := by
    have h := pmExact_Sqrt_sq 2
    norm_num at h
    exact h
  constructor
  · norm_num [detectAndResolve, TestCollision, CollisionFunctions, Collide_InfPlane_Sphere,
      Resolve, ResolveFunctions, Resolve_InfPlane_Sphere, _ResolveSphereVsPlane, dropWorld,
      sampleWorld, fallingSphere, staticBody, groundPlane, movingSphere, restAt, vzero,
      blankContact, World.setContact, World.modifyBody, World.setBody, CollideGeo.GetKind,
      asSphere, asPlane, bind, Except.bind, pure, Except.pure, Plane.DistanceToPoint, Abs,
      Vec3fSetScaled, Vec3fAdd, Vec3fSubtract, Vec3fCross, Vec3fDot, Vec3fMultiplyAccumulate,
      Vec3fNormalize, Vec3fLength, applyInertiaITD, Vec3fScale, Vec3fMultiply, Div,
      RigidBody.setT1Velocity, RigidBody.setT1AngularMomentum, RigidBody.setT1Position, k0, k1,
      binary32_one_add_RESTITUTION, Function.update, hs1, hs2, hs4]
  · norm_num [detectAndResolve, TestCollision, CollisionFunctions, Collide_Sphere___InfPlane,
      Collide_InfPlane_Sphere, Resolve, ResolveFunctions, Resolve_Sphere___InfPlane,
      Resolve_InfPlane_Sphere, _ResolveSphereVsPlane, dropWorld,
      sampleWorld, fallingSphere, staticBody, groundPlane, movingSphere, restAt, vzero,
      blankContact, World.setContact, World.modifyBody, World.setBody, CollideGeo.GetKind,
      asSphere, asPlane, bind, Except.bind, pure, Except.pure, Plane.DistanceToPoint, Abs,
      Vec3fSetScaled, Vec3fAdd, Vec3fSubtract, Vec3fCross, Vec3fDot, Vec3fMultiplyAccumulate,
      Vec3fNormalize, Vec3fLength, applyInertiaITD, Vec3fScale, Vec3fMultiply, Div, Vec3fNegate,
      RigidBody.setT1Velocity, RigidBody.setT1AngularMomentum, RigidBody.setT1Position, k0, k1,
      binary32_one_add_RESTITUTION, Function.update, hs1, hs2, hs4]

/-- C22 (the code departs from it). In `sunkWorld q` the centre of the unit sphere is within
one radius of the ground plane at T0 and the free record holds the position `q` from before.
`TestCollision(plane, sphere)` returns that record with normal and contact time written and
the position still `q`, whatever `q` is; so the position `Resolve_InfPlane_Sphere` snaps the
sphere to is `q`, for `q = (0, 0, 7)` at signed distance 7 from the plane, not 1. -/
theorem C22_immediate_contact_position_not_written :
    (∀ q : Vec3f, ∃ w', TestCollision pmExact (sunkWorld q) 0 1 = Except.ok (some 5, w')
        ∧ w'.contacts 5 = { blankContact with
            m_Position := q, m_Normal := ⟨0, 0, 1⟩, m_ContactTime := 0,
            m_pBodyA := 0, m_pBodyB := 1 })
      ∧ groundPlane.DistanceToPoint ⟨0, 0, 7⟩ = 7 := by
  constructor
  · intro q
    have h := TestCollision_cons pmExact (sunkWorld q) 0 1 5 [] true
      { blankContact with m_Position := q, m_Normal := ⟨0, 0, 1⟩, m_ContactTime := 0 } rfl
      (by norm_num [CollisionFunctions, sunkWorld, sampleWorld, staticBody, movingSphere,
        groundPlane, CollideGeo.GetKind, Collide_InfPlane_Sphere, asPlane, asSphere, bind,
        Except.bind, pure, Except.pure, Plane.DistanceToPoint, Vec3fDot, restAt, Abs, k0,
        blankContact, vzero, World.setContact])
    rw [h]
    exact ⟨_, rfl, by simp⟩
  · norm_num [Plane.DistanceToPoint, Vec3fDot, groundPlane]

/-- C23. For every contact record, whatever the kinds of its two bodies, `Engine::Resolve`
returns and the collided flag of both bodies of the contact is then true. When both bodies
are planes the two flags are all that is written: the result is the memory with the flag set
at the two addresses, so positions, velocities and angular momenta are unchanged. -/
theorem C23_Resolve_marks_collided (pm : PMath) (w : World) (p : ContactPtr) :
    ∃ w', Resolve pm w p = Except.ok w'
      ∧ (w'.bodies (w.contacts p).m_pBodyA).m_Collided = true
      ∧ (w'.bodies (w.contacts p).m_pBodyB).m_Collided = true
      ∧ ((w.bodies (w.contacts p).m_pBodyA).m_pCollideGeo.GetKind = Kind.InfPlane →
          (w.bodies (w.contacts p).m_pBodyB).m_pCollideGeo.GetKind = Kind.InfPlane →
          w' = (w.modifyBody (w.contacts p).m_pBodyA
              (fun x => { x with m_Collided := true })).modifyBody (w.contacts p).m_pBodyB
              (fun x => { x with m_Collided := true })) := by
  obtain ⟨w1, e1, hrefs⟩ := ResolveFunctions_refs pm w p
  refine ⟨(w1.modifyBody (w1.contacts p).m_pBodyA
      (fun x => { x with m_Collided := true })).modifyBody (w1.contacts p).m_pBodyB
      (fun x => { x with m_Collided := true }), ?_, ?_, ?_, ?_⟩
  · simp only [Resolve, bind, Except.bind, pure, Except.pure, e1, modifyBody_contacts]
  · apply collided_marked
    rcases hrefs with ⟨h1, _⟩ | ⟨_, h2⟩
    · exact Or.inl h1.symm
    · exact Or.inr h2.symm
  · apply collided_marked
    rcases hrefs with ⟨_, h2⟩ | ⟨h1, _⟩
    · exact Or.inr h2.symm
    · exact Or.inl h1.symm
  · intro hA hB
    rw [hA, hB] at e1
    simp only [ResolveFunctions, Resolve_InfPlane_InfPlane, Except.ok.injEq] at e1
    rw [← e1]

/-- C23, at concrete inputs: the two planes of `planesWorld` and the plane and the sphere of
`bounceWorld` have the collided flag set after `Resolve`; for the planes nothing else
changes. -/
theorem C23_Resolve_marks_collided_witness :
    Resolve pmExact planesWorld 5
        = Except.ok ((planesWorld.modifyBody 0 (fun x => { x with m_Collided := true })).modifyBody
          1 (fun x => { x with m_Collided := true }))
      ∧ ∃ w', Resolve pmExact bounceWorld 5 = Except.ok w'
        ∧ (w'.bodies 0).m_Collided = true ∧ (w'.bodies 1).m_Collided = true := by
  constructor
  · obtain ⟨w', e, _, _, h⟩ := C23_Resolve_marks_collided pmExact planesWorld 5
    rw [e, h rfl rfl]
    rfl
  · obtain ⟨w', e, hA, hB, _⟩ := C23_Resolve_marks_collided pmExact bounceWorld 5
    exact ⟨w', e, hA, hB⟩

/-- C24 as stated fails. `SetCapacity(n)` takes `n - (int) size` in `int`: for the `int`
value `n = -2147483648` and a free pool of one record the difference has no value in `int`,
so the call does not come back with the pool unchanged. -/
theorem C24_counterexample :
    INT_MIN ≤ -2147483648 ∧ (-2147483648 : Int) ≤ INT_MAX
      ∧ (sampleWorld (staticBody (CollideGeo.Plane groundPlane) vzero)
          (staticBody (CollideGeo.Plane groundPlane) vzero) [5] []).m_FreePool.length = 1
      ∧ SetCapacity (sampleWorld (staticBody (CollideGeo.Plane groundPlane) vzero)
          (staticBody (CollideGeo.Plane groundPlane) vzero) [5] []) (-2147483648)
        = Except.error Fault.intOverflow := by
  refine ⟨by decide, by decide, rfl, ?_⟩
  simp [SetCapacity, sampleWorld, toInt, INT_MIN, INT_MAX]

/-- C24 (amended). For every engine state with at most `INT_MAX` free records and every `int`
value `n` with `n - size > INT_MIN` (the difference and its decrement are values of `int`),
`SetCapacity(n)` returns, keeps the free pool as a prefix of the new free pool, leaves the
active list, the bodies and the records as they are, and the free pool then holds
`max(size, n)` records; with `n ≤ size` nothing changes. A freshly constructed engine has
1024 free records and no active contact. -/
theorem C24_SetCapacity_grows (w : World) (n : Int)
    (hsize : (w.m_FreePool.length : Int) ≤ INT_MAX) (hn : n ≤ INT_MAX)
    (hdiff : INT_MIN < n - (w.m_FreePool.length : Int)) :
    (∃ w' added, SetCapacity w n = Except.ok w'
        ∧ w'.m_FreePool = w.m_FreePool ++ added ∧ w'.m_Contacts = w.m_Contacts
        ∧ w'.bodies = w.bodies ∧ w'.contacts = w.contacts
        ∧ (w'.m_FreePool.length : Int) = max (w.m_FreePool.length : Int) n
        ∧ (n ≤ (w.m_FreePool.length : Int) → w' = w))
      ∧ ∀ (bodies : BodyPtr → RigidBody) (contacts : ContactPtr → Contact),
        ∃ w0, Engine bodies contacts = Except.ok w0
          ∧ w0.m_FreePool.length = 1024 ∧ w0.m_Contacts = [] := by
  constructor
  · have hcast := toInt_of_le w.m_FreePool.length hsize
    have hr : ¬ (n - (w.m_FreePool.length : Int) < INT_MIN
        ∨ INT_MAX < n - (w.m_FreePool.length : Int)) := by
      unfold INT_MIN INT_MAX at *
      omega
    refine ⟨World.mk w.bodies w.contacts
        (w.m_FreePool ++ List.range' w.allocated (n - (w.m_FreePool.length : Int)).toNat)
        w.m_Contacts (w.allocated + (n - (w.m_FreePool.length : Int)).toNat),
      List.range' w.allocated (n - (w.m_FreePool.length : Int)).toNat, ?_, rfl, rfl,
      rfl, rfl, ?_, ?_⟩
    · simp only [SetCapacity, hcast, hr, if_false]
      exact SetCapacity_loop_eq _ w hdiff
    · simp only [List.length_append, List.length_range']
      omega
    · intro hle
      have h0 : (n - (w.m_FreePool.length : Int)).toNat = 0 := by omega
      simp [h0]
  · intro bodies contacts
    refine ⟨World.mk bodies contacts ([] ++ List.range' 0 (1024 : Int).toNat) []
      (0 + (1024 : Int).toNat), ?_, ?_, ?_⟩
    · simp only [Engine, SetCapacity, toInt, INT_MIN, INT_MAX, List.length_nil]
      norm_num
      exact SetCapacity_loop_eq 1024 _ (by unfold INT_MIN; norm_num)
    · simp
    · rfl

/-- C24 (amended), at a concrete input: an engine with free pool `[5]` and active list `[4]`
asked for capacity 3 gets two fresh records behind the one it had; asked for capacity 0 it is
unchanged. -/
theorem C24_SetCapacity_grows_witness :
    (∃ w' added, SetCapacity (sampleWorld (staticBody (CollideGeo.Plane groundPlane) vzero)
          (staticBody (CollideGeo.Plane groundPlane) vzero) [5] [4]) 3 = Except.ok w'
        ∧ w'.m_FreePool = [5] ++ added ∧ w'.m_Contacts = [4] ∧ w'.m_FreePool.length = 3)
      ∧ SetCapacity (sampleWorld (staticBody (CollideGeo.Plane groundPlane) vzero)
          (staticBody (CollideGeo.Plane groundPlane) vzero) [5] [4]) 0
        = Except.ok (sampleWorld (staticBody (CollideGeo.Plane groundPlane) vzero)
          (staticBody (CollideGeo.Plane groundPlane) vzero) [5] [4]) := by
  constructor
  · obtain ⟨w', added, e, hf, ha, _, _, hl, _⟩ := (C24_SetCapacity_grows
      (sampleWorld (staticBody (CollideGeo.Plane groundPlane) vzero)
        (staticBody (CollideGeo.Plane groundPlane) vzero) [5] [4]) 3
      (by simp [sampleWorld, INT_MAX]) (by simp [INT_MAX])
      (by simp [sampleWorld, INT_MIN])).1
    refine ⟨w', added, e, hf, ha, ?_⟩
    simp only [sampleWorld, List.length_singleton] at hl
    norm_num at hl
    exact_mod_cast hl
  · obtain ⟨w', added, e, _, _, _, _, _, hsame⟩ := (C24_SetCapacity_grows
      (sampleWorld (staticBody (CollideGeo.Plane groundPlane) vzero)
        (staticBody (CollideGeo.Plane groundPlane) vzero) [5] [4]) 0
      (by simp [sampleWorld, INT_MAX]) (by simp [INT_MAX])
      (by simp [sampleWorld, INT_MIN])).1
    rw [e, hsame (by simp [sampleWorld])]

/-- C25 as stated fails. For the pair `endGrazeSphereA`, `endGrazeSphereB` the swept
quadratic is `u^2 / 2 - 49 u / 16 + (41/16 - 2^-22)`, so `c > 0`, and at `u = 1 - 2^-25`, which
lies in `(0, 1)`, it is negative: the spheres overlap before the end of the step. The
discriminant is `(33/16)^2 + 2^-21`, whose binary32 square root is `33/16`; the roots come out
as `41/8` and 1, the test `u1 < k1` fails, and `Collide_Sphere___Sphere` reports no
collision. -/
theorem C25_counterexample :
    sweptQuadratic (3617 / 4096) (3617 / 4096) endGrazeSphereA endGrazeSphereB
        = (1 / 2, -49 / 16, 41 / 16 - 1 / 4194304)
      ∧ (0 : Real) < 41 / 16 - 1 / 4194304
      ∧ (0 : Real) < 1 - 1 / 33554432 ∧ (1 : Real) - 1 / 33554432 < 1
      ∧ (1 / 2 : Real) * (1 - 1 / 33554432) ^ 2 + (-49 / 16) * (1 - 1 / 33554432)
          + (41 / 16 - 1 / 4194304) ≤ 0
      ∧ QuadraticFormula pmBinary32 (1 / 2) (-49 / 16) (41 / 16 - 1 / 4194304)
          = some (41 / 8, 1)
      ∧ Collide_Sphere___Sphere pmBinary32 blankContact endGrazeSphereA endGrazeSphereB
          = Except.ok (false, blankContact) := by
  have habc : sweptQuadratic (3617 / 4096) (3617 / 4096) endGrazeSphereA endGrazeSphereB
      = (1 / 2, -49 / 16, 41 / 16 - 1 / 4194304) := by
    norm_num [sweptQuadratic, endGrazeSphereA, endGrazeSphereB, movingSphere, restAt, vzero,
      Vec3fSubtract, Vec3fDot, k2]
  have hs : pmBinary32.Sqrt (8921089 / 2097152) = 33 / 16 := pmBinary32_Sqrt_endGraze
  have hq : QuadraticFormula pmBinary32 (1 / 2) (-49 / 16) (41 / 16 - 1 / 4194304)
      = some (41 / 8, 1) := by
    norm_num [QuadraticFormula, Div, k0, k1, k2, k4, hs]
  have hhit : sphereSphereHit pmBinary32 (1 / 2) (-49 / 16) (41 / 16 - 1 / 4194304)
      = false := by
    rw [sphereSphereHit, hq]
    norm_num [k0, k1]
  refine ⟨habc, by norm_num, by norm_num, by norm_num, by norm_num, hq, ?_⟩
  rw [Collide_Sphere___Sphere_eq pmBinary32 blankContact endGrazeSphereA endGrazeSphereB
    (3617 / 4096) (3617 / 4096) (1 / 2) (-49 / 16) (41 / 16 - 1 / 4194304) rfl rfl habc, hhit]
  rfl

/-- C25 (amended). For two sphere bodies apart at T0 (`c > 0`) for which there is a time `u`
in `(0, 1)` with `a u^2 + b u + c ≤ 0`, with every operation exact and a square root `s` of the
discriminant that is exact (`s ≥ 0` and `s^2 = b^2 - 4 a c`), `Collide_Sphere___Sphere` reports
a collision. -/
theorem C25_no_tunnelling (pm : PMath) (c : Contact) (A B : RigidBody)
    (rA rB a b cc u : Real)
    (hA : A.m_pCollideGeo = CollideGeo.Sphere rA) (hB : B.m_pCollideGeo = CollideGeo.Sphere rB)
    (habc : sweptQuadratic rA rB A B = (a, b, cc)) (hc0 : 0 < cc)
    (hu0 : 0 < u) (hu1 : u < 1) (hf : a * u ^ 2 + b * u + cc ≤ 0)
    (hs0 : 0 ≤ pm.Sqrt (b * b - 4 * a * cc))
    (hs1 : pm.Sqrt (b * b - 4 * a * cc) * pm.Sqrt (b * b - 4 * a * cc) = b * b - 4 * a * cc) :
    Collide_Sphere___Sphere pm c A B = Except.ok (true, { c with
      m_Normal := (Vec3fNormalize pm
        (Vec3fSubtract A.m_StateT1.m_Position B.m_StateT1.m_Position)) }) := by
  have ha : 0 ≤ a := by
    have h := sweptQuadratic_a_nonneg rA rB A B
    rw [habc] at h
    exact h
  have hapos : 0 < a := by
    rcases lt_or_eq_of_le ha with h | h
    · exact h
    · exfalso
      have hb0 := sweptQuadratic_b_zero rA rB A B (by rw [habc]; exact h.symm)
      rw [habc] at hb0
      simp only at hb0
      rw [← h, hb0] at hf
      linarith
  have hane : a ≠ 0 := ne_of_gt hapos
  obtain ⟨s, hs⟩ : ∃ s, s = pm.Sqrt (b * b - 4 * a * cc) := ⟨_, rfl⟩
  rw [← hs] at hs0 hs1
  have hb : b = -a * ((-b - s) / (2 * a) + (-b + s) / (2 * a)) := by
    field_simp
    ring
  have hc : cc = a * ((-b - s) / (2 * a)) * ((-b + s) / (2 * a)) := by
    field_simp
    linear_combination a * hs1
  have hle : (-b - s) / (2 * a) ≤ (-b + s) / (2 * a) := by
    apply div_le_div_of_nonneg_right _ (by linarith)
    linarith
  have hhit := sphereSphereHit_roots pm a b cc ((-b - s) / (2 * a)) ((-b + s) / (2 * a)) ha hc0
    hb hc hle (by rw [← hs]; exact hs0) (by rw [← hs]; exact hs1)
  have hfac : a * u ^ 2 + b * u + cc
      = a * ((u - (-b - s) / (2 * a)) * (u - (-b + s) / (2 * a))) := by
    field_simp
    linear_combination a * hs1
  have hprod : (u - (-b - s) / (2 * a)) * (u - (-b + s) / (2 * a)) ≤ 0 := by
    rw [hfac] at hf
    by_contra hcon
    push_neg at hcon
    have := mul_pos hapos hcon
    linarith
  have hlo_le : (-b - s) / (2 * a) ≤ u := by
    by_contra hcon
    push_neg at hcon
    have h1 : u - (-b - s) / (2 * a) < 0 := by linarith
    have h2 : u - (-b + s) / (2 * a) < 0 := by linarith
    have := mul_pos_of_neg_of_neg h1 h2
    linarith
  have hhi_ge : u ≤ (-b + s) / (2 * a) := by
    by_contra hcon
    push_neg at hcon
    have h1 : 0 < u - (-b - s) / (2 * a) := by linarith
    have h2 : 0 < u - (-b + s) / (2 * a) := by linarith
    have := mul_pos h1 h2
    linarith
  have hlohi : 0 < ((-b - s) / (2 * a)) * ((-b + s) / (2 * a)) := by
    have h1 : 0 < a * (((-b - s) / (2 * a)) * ((-b + s) / (2 * a))) := by
      rw [← mul_assoc, ← hc]
      exact hc0
    by_contra hcon
    push_neg at hcon
    have := mul_nonpos_of_nonneg_of_nonpos ha hcon
    linarith
  have hlo_pos : 0 < (-b - s) / (2 * a) := by
    by_contra hcon
    push_neg at hcon
    have hhi_pos : 0 ≤ (-b + s) / (2 * a) := by linarith
    have := mul_nonpos_of_nonpos_of_nonneg hcon hhi_pos
    linarith
  rw [Collide_Sphere___Sphere_eq pm c A B rA rB a b cc hA hB habc, hhit]
  have hcond : (0 < (-b + s) / (2 * a) ∧ (-b + s) / (2 * a) ≤ (-b - s) / (2 * a))
      ∨ (0 < (-b - s) / (2 * a) ∧ (-b - s) / (2 * a) < 1) :=
    Or.inr ⟨hlo_pos, by linarith⟩
  simp [hcond]

/-- C25 (amended), at a concrete input: for the pair `nearSphereA`, `nearSphereB` the swept
quadratic `4 u^2 - 4 u + 3/4` is negative at `u = 1/2` and its discriminant 4 has the exact
root 2; a collision is reported. -/
theorem C25_no_tunnelling_witness :
    Collide_Sphere___Sphere pmExact blankContact nearSphereA nearSphereB
      = Except.ok (true, { blankContact with
        m_Normal := (Vec3fNormalize pmExact (Vec3fSubtract nearSphereA.m_StateT1.m_Position
          nearSphereB.m_StateT1.m_Position)) }) := by
  have hq : ((-4 : Real) * (-4) - 4 * 4 * (3 / 4)) = 2 * 2 := by norm_num
  have hs : pmExact.Sqrt (2 * 2) = 2 := by
    rw [pmExact_Sqrt_sq]; norm_num
  exact C25_no_tunnelling pmExact blankContact nearSphereA nearSphereB (1 / 4) (1 / 4)
    4 (-4) (3 / 4) (1 / 2) rfl rfl nearSpheres_quadratic (by norm_num) (by norm_num)
    (by norm_num) (by norm_num) (by rw [hq, hs]; norm_num) (by rw [hq, hs])

/-- C26 as stated fails. A unit sphere comes down from height 3 to height 0 over the ground
plane, so `d0 = 3 > 1` and `d1 = 0 < 1`. With every operation rounded to binary32 the contact
time is the binary32 value of `2 / 3`, which is `11184811 / 2^24`, about 0.666666687, and the
recorded contact position is `(0, 0, 16777215 / 2^24)`, at signed distance about 0.99999994
from the plane, not 1. -/
theorem C26_counterexample :
    Binary32.Plane.DistanceToPoint groundPlane ⟨0, 0, 3⟩ = 3
      ∧ Binary32.Plane.DistanceToPoint groundPlane ⟨0, 0, 0⟩ = 0
      ∧ Binary32.Collide_InfPlane_Sphere blankContact
          (staticBody (CollideGeo.Plane groundPlane) vzero) (movingSphere 1 ⟨0, 0, 3⟩ ⟨0, 0, 0⟩)
        = Except.ok (true, { blankContact with
            m_Normal := ⟨0, 0, 1⟩, m_Position := ⟨0, 0, 16777215 / 16777216⟩,
            m_ContactTime := 11184811 / 16777216 })
      ∧ Binary32.Plane.DistanceToPoint groundPlane ⟨0, 0, 16777215 / 16777216⟩
        = 16777215 / 16777216
      ∧ groundPlane.DistanceToPoint ⟨0, 0, 16777215 / 16777216⟩ = 16777215 / 16777216
      ∧ (16777215 / 16777216 : Real) ≠ 1 := by
  refine ⟨?_, ?_, ?_, ?_, ?_, by norm_num⟩
  · norm_num [Binary32.Plane.DistanceToPoint, Binary32.Vec3fDot, groundPlane, binary32_zero,
      binary32_three]
  · norm_num [Binary32.Plane.DistanceToPoint, Binary32.Vec3fDot, groundPlane, binary32_zero]
  · norm_num [Binary32.Collide_InfPlane_Sphere, Binary32.Plane.DistanceToPoint,
      Binary32.Vec3fDot, Binary32.Vec3fScale, Binary32.Vec3fAdd, staticBody, groundPlane,
      movingSphere, restAt, vzero, blankContact, asPlane, asSphere, bind, Except.bind, pure,
      Except.pure, Abs, k0, k1, binary32_zero, binary32_two, binary32_three,
      binary32_two_thirds, binary32_one_third_below, binary32_below_one]
  · norm_num [Binary32.Plane.DistanceToPoint, Binary32.Vec3fDot, groundPlane, binary32_zero,
      binary32_below_one]
  · norm_num [Plane.DistanceToPoint, Vec3fDot, groundPlane]

/-- C26 (amended). With every operation exact, in the swept branch of
`Collide_InfPlane_Sphere` (`d0 > r` and `d1 < r`) the test returns true, the recorded contact
time `(d0 - r) / (d0 - d1)` lies strictly between 0 and 1, and the recorded contact position,
the centre interpolated at that time, lies at signed distance exactly `r` from the plane. -/
theorem C26_swept_contact_on_surface (c : Contact) (P S : RigidBody) (pl : Plane)
    (r d0 d1 : Real)
    (hP : P.m_pCollideGeo = CollideGeo.Plane pl) (hS : S.m_pCollideGeo = CollideGeo.Sphere r)
    (hd0 : pl.DistanceToPoint S.m_StateT0.m_Position = d0)
    (hd1 : pl.DistanceToPoint S.m_StateT1.m_Position = d1)
    (h0 : d0 > r) (h1 : d1 < r) :
    ∃ c', Collide_InfPlane_Sphere c P S = Except.ok (true, c')
      ∧ 0 < c'.m_ContactTime ∧ c'.m_ContactTime < 1
      ∧ pl.DistanceToPoint c'.m_Position = r := by
  refine ⟨_, Collide_InfPlane_Sphere_swept c P S pl r d0 d1 hP hS hd0 hd1 h0 h1, ?_, ?_, ?_⟩
  · exact (swept_time_bounds r d0 d1 h0 h1).1
  · exact (swept_time_bounds r d0 d1 h0 h1).2
  · exact swept_position_distance pl _ _ r d0 d1 hd0 hd1 h0 h1

/-- C26 (amended), at a concrete input: a unit sphere falling from height 2 to height 0 over
the ground plane; the contact time is `1/2` and the contact position `(0, 0, 1)` is at
distance 1. -/
theorem C26_swept_contact_on_surface_witness :
    ∃ c', Collide_InfPlane_Sphere blankContact (staticBody (CollideGeo.Plane groundPlane) vzero)
        (movingSphere 1 ⟨0, 0, 2⟩ ⟨0, 0, 0⟩) = Except.ok (true, c')
      ∧ 0 < c'.m_ContactTime ∧ c'.m_ContactTime < 1
      ∧ groundPlane.DistanceToPoint c'.m_Position = 1 :=
  C26_swept_contact_on_surface blankContact (staticBody (CollideGeo.Plane groundPlane) vzero)
    (movingSphere 1 ⟨0, 0, 2⟩ ⟨0, 0, 0⟩) groundPlane 1 2 0 rfl rfl
    (by norm_num [Plane.DistanceToPoint, Vec3fDot, groundPlane, movingSphere, restAt])
    (by norm_num [Plane.DistanceToPoint, Vec3fDot, groundPlane, movingSphere, restAt])
    (by norm_num) (by norm_num)

end Collision
